import Mathlib

/-!
Registration and moderation engine of the NUB clubs backend.

A shallow embedding of the event-registration handlers of `handlers/events.go`
(`RegisterForEvent`, `CancelEventRegistration`, `MarkAttendance`,
`SubmitEventFeedback`), of the moderation handlers (`ApproveEvent`,
`RejectEvent` of `handlers/events.go`, `ApproveNews`, `RejectNews` of
`handlers/news.go`) with `RoleMiddleware` (`middleware/auth.go`) as
`routes/routes.go` chains it, of the notification handlers
(`handlers/notifications.go`), of the paging, the query builder and the role
change of the user administration (`handlers/users_admin.go`), of the response
helpers of `utils/response.go` and of `LogActivity` (`handlers/clubs.go`).

The database is explicit state: every handler is a function from the tables
before the request to the tables after it and the JSON response.  Each SQL
statement is one atomic step on the tables.  Whether the storage engine makes a
statement fail, and which key it generates for a new row, is an input of the
handler (`Env`).
-/

namespace NubClubs

/-! ## Tables -/

/-- A row of `events`: the columns the registration engine reads and the
moderation handlers write. -/
structure EventRow where
  event_id : Int
  capacity : Int
  status : String := "pending"
  updated_at : Int := 0
  registration_deadline : Option Int := none
  deriving DecidableEq, Repr

/-- A row of `news`: the columns the moderation handlers write; `published_at`
is nullable. -/
structure NewsRow where
  news_id : Int
  status : String := "pending"
  published_at : Option Int := none
  updated_at : Int := 0
  deriving DecidableEq, Repr

/-- A row of `event_registrations`. -/
structure RegistrationRow where
  registration_id : Int
  event_id : Int
  user_id : Int
  registration_status : String
  attendance_marked : Bool
  feedback_submitted : Bool
  deriving DecidableEq, Repr

/-- A row of `event_feedback`. -/
structure FeedbackRow where
  event_id : Int
  user_id : Int
  rating : Int
  comment : String
  deriving DecidableEq, Repr

/-- A row of `activity_log`. -/
structure ActivityRow where
  user_id : Int
  action : String
  entity_type : String
  entity_id : Int
  details : String
  deriving DecidableEq, Repr

/-- A row of `notifications`. -/
structure NotificationRow where
  notification_id : Int
  user_id : Int
  title : String := ""
  message : String := ""
  is_read : Bool := false
  deriving DecidableEq, Repr

/-- A row of `users`: the key and the columns `AdminChangeUserRole` writes. -/
structure UserRow where
  user_id : Int
  role : String := "student"
  updated_at : Int := 0
  deriving DecidableEq, Repr

/-- The tables the handlers of the registration engine, the moderation
handlers, the notification handlers and the user administration read and
write. -/
structure DB where
  events : List EventRow := []
  event_registrations : List RegistrationRow := []
  event_feedback : List FeedbackRow := []
  activity_log : List ActivityRow := []
  news : List NewsRow := []
  notifications : List NotificationRow := []
  users : List UserRow := []
  deriving DecidableEq, Repr

/-- What the storage engine does to the statements of one request: whether the
handler's first and second statement return an error (other than
`sql.ErrNoRows`, which is decided by the tables), whether the insert into
`activity_log` fails, the key the engine generates if a row is inserted, the
value of `CURRENT_TIMESTAMP` and `time.Now()`, and the text of the error a
failing statement returns. -/
structure Env where
  stmt1Fails : Bool := false
  stmt2Fails : Bool := false
  logFails : Bool := false
  freshID : Int := 0
  now : Int := 0
  errorText : String := ""
  deriving DecidableEq, Repr

/-! ## Requests and responses -/

/-- The fields a JSON request body may carry; a field that is absent or `null`
is `none`. -/
structure Body where
  user_id : Option Int := none
  rating : Option Int := none
  comment : Option String := none
  role : Option String := none
  student_id : Option String := none
  email : Option String := none
  first_name : Option String := none
  last_name : Option String := none
  phone : Option String := none
  profile_picture_url : Option String := none
  is_active : Option Bool := none
  deriving DecidableEq, Repr

/-- The part of `gin.Context` the handlers read: the `user_id` and `role` keys
set by the authentication middleware, the result of `strconv.Atoi` on the `id`
path parameter (`none` when it returns an error), the JSON body (`none` when
it does not parse) and the parameters of the query string. -/
structure Ctx where
  user_id : Option Int := none
  role : Option String := none
  id : Option Int := none
  body : Option Body := none
  query : List (String × String) := []
  deriving DecidableEq, Repr

/-- The `gin.H` payload of a successful registration. -/
structure RegistrationData where
  registration_id : Int
  registration_status : String
  deriving DecidableEq, Repr

/-- The HTTP status code with the `models.APIResponse` written by `c.JSON`. -/
structure Response where
  code : Nat
  success : Bool
  message : String
  data : Option RegistrationData
  error : String
  deriving DecidableEq, Repr

/-- `utils.SuccessResponse`. -/
def SuccessResponse (statusCode : Nat) (message : String)
    (data : Option RegistrationData) : Response :=
  { code := statusCode, success := true, message := message, data := data, error := "" }

/-- `utils.ErrorResponse`. -/
def ErrorResponse (statusCode : Nat) (message errorCode : String) : Response :=
  { code := statusCode, success := false, message := message, data := none, error := errorCode }

/-- `utils.BadRequestResponse`. -/
def BadRequestResponse (message : String) : Response :=
  ErrorResponse 400 message "bad_request"

/-- `utils.UnauthorizedResponse`. -/
def UnauthorizedResponse (message : String) : Response :=
  ErrorResponse 401 message "unauthorized"

/-- `utils.ForbiddenResponse`. -/
def ForbiddenResponse (message : String) : Response :=
  ErrorResponse 403 message "forbidden"

/-- `utils.NotFoundResponse`. -/
def NotFoundResponse (message : String) : Response :=
  ErrorResponse 404 message "not_found"

/-- `utils.ConflictResponse`. -/
def ConflictResponse (message : String) : Response :=
  ErrorResponse 409 message "conflict"

/-- `utils.InternalServerErrorResponse`. -/
def InternalServerErrorResponse (message : String) : Response :=
  ErrorResponse 500 message "internal_server_error"

/-! ## Activity log -/

/-- `LogActivity` of `handlers/clubs.go`: one insert into `activity_log` whose
error is dropped; `details` is the marshalled JSON, `none` for `nil`. -/
def LogActivity (db : DB) (env : Env) (userID : Int) (action entityType : String)
    (entityID : Int) (details : Option String) : DB :=
  let detailsJSON := match details with
    | some d => d
    | none => ""
  if env.logFails then db
  else { db with activity_log := db.activity_log ++
          [{ user_id := userID, action := action, entity_type := entityType,
             entity_id := entityID, details := detailsJSON }] }

/-! ## Statements on `event_registrations` -/

/-- `COUNT(er.registration_id) FILTER (WHERE er.registration_status = 'confirmed')`
over the registration rows joined to event `eventID`. -/
def confirmedCount (rows : List RegistrationRow) (eventID : Int) : Nat :=
  rows.countP (fun r => r.event_id == eventID && r.registration_status == "confirmed")

/-- The capacity query of `RegisterForEvent`: the event's capacity and its number
of confirmed registrations, `none` for `sql.ErrNoRows` (no event has that id).
`event_id` is the key of `events`, so the join has one group.  A capacity that
does not scan into an `int` is a failure of the statement (`Env.stmt1Fails`). -/
def capacityQuery (db : DB) (eventID : Int) : Option (Int × Int) :=
  match db.events.find? (fun e => e.event_id == eventID) with
  | some e => some (e.capacity, (confirmedCount db.event_registrations eventID : Int))
  | none => none

/-- What `Scan(&capacity, &currentRegistrations)` leaves in the two variables:
they keep their zero values when the query has no row. -/
def scanCapacity (db : DB) (eventID : Int) : Int × Int :=
  match capacityQuery db eventID with
  | some p => p
  | none => (0, 0)

/-- The decision of `RegisterForEvent`, lines 180 to 184. -/
def decideStatus (capacity currentRegistrations : Int) : String :=
  if currentRegistrations >= capacity then "waitlist" else "confirmed"

/-- The status `RegisterForEvent` computes from the tables for event `eventID`. -/
def registrationStatusFor (db : DB) (eventID : Int) : String :=
  decideStatus (scanCapacity db eventID).1 (scanCapacity db eventID).2

/-- Whether a registration row belongs to the pair `(eventID, userID)`. -/
def isFor (eventID userID : Int) (r : RegistrationRow) : Bool :=
  r.event_id == eventID && r.user_id == userID

/-- Modelled from the spec: the column defaults of `event_registrations` (the
schema is not part of the sources); a new row starts with both flags false. -/
def newRegistration (registrationID eventID userID : Int) (status : String) :
    RegistrationRow :=
  { registration_id := registrationID, event_id := eventID, user_id := userID,
    registration_status := status, attendance_marked := false,
    feedback_submitted := false }

/-- `INSERT INTO event_registrations ... ON CONFLICT (event_id, user_id) DO UPDATE
SET registration_status = EXCLUDED.registration_status`: the conflicting row
keeps everything but its status; without a conflict a row is added. -/
def upsertRegistration (rows : List RegistrationRow) (freshID eventID userID : Int)
    (status : String) : List RegistrationRow :=
  if rows.any (isFor eventID userID) then
    rows.map (fun r =>
      if isFor eventID userID r then { r with registration_status := status } else r)
  else rows ++ [newRegistration freshID eventID userID status]

/-- `RETURNING registration_id` of the upsert. -/
def returningID (rows : List RegistrationRow) (freshID eventID userID : Int) : Int :=
  match rows.find? (isFor eventID userID) with
  | some r => r.registration_id
  | none => freshID

/-- `UPDATE event_registrations SET registration_status = 'cancelled'
WHERE event_id = $1 AND user_id = $2`. -/
def cancelRows (rows : List RegistrationRow) (eventID userID : Int) :
    List RegistrationRow :=
  rows.map (fun r =>
    if isFor eventID userID r then { r with registration_status := "cancelled" } else r)

/-- `UPDATE event_registrations SET attendance_marked = TRUE
WHERE event_id = $1 AND user_id = $2`. -/
def markAttendanceRows (rows : List RegistrationRow) (eventID userID : Int) :
    List RegistrationRow :=
  rows.map (fun r =>
    if isFor eventID userID r then { r with attendance_marked := true } else r)

/-- `UPDATE event_registrations SET feedback_submitted = TRUE
WHERE event_id = $1 AND user_id = $2`. -/
def markFeedbackRows (rows : List RegistrationRow) (eventID userID : Int) :
    List RegistrationRow :=
  rows.map (fun r =>
    if isFor eventID userID r then { r with feedback_submitted := true } else r)

/-- `INSERT INTO event_feedback ... ON CONFLICT (event_id, user_id) DO UPDATE
SET rating = EXCLUDED.rating, comment = EXCLUDED.comment, ...`. -/
def upsertFeedback (rows : List FeedbackRow) (eventID userID rating : Int)
    (comment : String) : List FeedbackRow :=
  if rows.any (fun f => f.event_id == eventID && f.user_id == userID) then
    rows.map (fun f =>
      if f.event_id == eventID && f.user_id == userID
      then { f with rating := rating, comment := comment } else f)
  else rows ++ [{ event_id := eventID, user_id := userID, rating := rating,
                  comment := comment }]

/-! ## Handlers -/

/-- The second half of `RegisterForEvent`, lines 186 to 209: the upsert with the
status decided before it, the activity-log entry and the response. -/
def registerWrite (db : DB) (env : Env) (eventID userID : Int)
    (registrationStatus : String) : DB × Response :=
  if env.stmt2Fails then
    (db, InternalServerErrorResponse "Failed to register for event")
  else
    let registrationID := returningID db.event_registrations env.freshID eventID userID
    let rows := upsertRegistration db.event_registrations env.freshID eventID userID
      registrationStatus
    let db1 := { db with event_registrations := rows }
    let db2 := LogActivity db1 env userID "event_registered" "event" eventID none
    (db2, SuccessResponse 201 "Successfully registered for event"
      (some { registration_id := registrationID,
              registration_status := registrationStatus }))

/-- `RegisterForEvent` of `handlers/events.go`: the capacity query and the
decision (lines 160 to 184), then `registerWrite`. -/
def RegisterForEvent (db : DB) (env : Env) (c : Ctx) : DB × Response :=
  match c.user_id with
  | none => (db, UnauthorizedResponse "User not authenticated")
  | some userID =>
    match c.id with
    | none => (db, BadRequestResponse "Invalid event ID")
    | some eventID =>
      if env.stmt1Fails then
        (db, InternalServerErrorResponse "Failed to check event capacity")
      else
        registerWrite db env eventID userID (registrationStatusFor db eventID)

/-- `CancelEventRegistration` of `handlers/events.go`. -/
def CancelEventRegistration (db : DB) (env : Env) (c : Ctx) : DB × Response :=
  match c.user_id with
  | none => (db, UnauthorizedResponse "User not authenticated")
  | some userID =>
    match c.id with
    | none => (db, BadRequestResponse "Invalid event ID")
    | some eventID =>
      if env.stmt1Fails then
        (db, InternalServerErrorResponse "Failed to cancel registration")
      else
        let rows := cancelRows db.event_registrations eventID userID
        let db1 := { db with event_registrations := rows }
        let db2 := LogActivity db1 env userID "event_registration_cancelled" "event"
          eventID none
        (db2, SuccessResponse 200 "Registration cancelled successfully" none)

/-- `ShouldBindJSON` into `struct { UserID int binding:"required" }`: the zero
value fails `required`. -/
def bindAttendance (body : Option Body) : Option Int :=
  match body with
  | none => none
  | some b =>
    let userID := b.user_id.getD 0
    if userID = 0 then none else some userID

/-- `MarkAttendance` of `handlers/events.go`. -/
def MarkAttendance (db : DB) (env : Env) (c : Ctx) : DB × Response :=
  match c.id with
  | none => (db, BadRequestResponse "Invalid event ID")
  | some eventID =>
    match bindAttendance c.body with
    | none => (db, BadRequestResponse "Invalid request body")
    | some reqUserID =>
      if env.stmt1Fails then
        (db, InternalServerErrorResponse "Failed to mark attendance")
      else
        let rows := markAttendanceRows db.event_registrations eventID reqUserID
        ({ db with event_registrations := rows },
         SuccessResponse 200 "Attendance marked successfully" none)

/-- `ShouldBindJSON` into `models.SubmitFeedbackRequest`, whose rating is tagged
`binding:"required,min=1,max=5"`. -/
def bindFeedback (body : Option Body) : Option (Int × String) :=
  match body with
  | none => none
  | some b =>
    let rating := b.rating.getD 0
    let comment := b.comment.getD ""
    if rating = 0 then none
    else if rating < 1 then none
    else if rating > 5 then none
    else some (rating, comment)

/-- `SubmitEventFeedback` of `handlers/events.go`. -/
def SubmitEventFeedback (db : DB) (env : Env) (c : Ctx) : DB × Response :=
  match c.user_id with
  | none => (db, UnauthorizedResponse "User not authenticated")
  | some userID =>
    match c.id with
    | none => (db, BadRequestResponse "Invalid event ID")
    | some eventID =>
      match bindFeedback c.body with
      | none => (db, BadRequestResponse "Invalid request body")
      | some (rating, comment) =>
        if env.stmt1Fails then
          (db, InternalServerErrorResponse "Failed to submit feedback")
        else
          let feedback := upsertFeedback db.event_feedback eventID userID rating comment
          let db1 := { db with event_feedback := feedback }
          let rows := markFeedbackRows db1.event_registrations eventID userID
          let db2 := if env.stmt2Fails then db1 else { db1 with event_registrations := rows }
          let db3 := LogActivity db2 env userID "feedback_submitted" "event" eventID none
          (db3, SuccessResponse 201 "Feedback submitted successfully" none)

/-! ## Moderation handlers -/

/-- `RoleMiddleware` of `middleware/auth.go`: `some` response when the request is
aborted, `none` when it is passed on to the handler. -/
def RoleMiddleware (requiredRoles : List String) (c : Ctx) : Option Response :=
  match c.role with
  | none => some (UnauthorizedResponse "Role not found in token")
  | some userRole =>
    let hasRole := requiredRoles.any (fun r => userRole == r)
    if !hasRole then some (ForbiddenResponse "Insufficient permissions") else none

/-- `UPDATE events SET status = $status, updated_at = CURRENT_TIMESTAMP
WHERE event_id = $1`. -/
def setEventStatus (rows : List EventRow) (eventID : Int) (status : String)
    (now : Int) : List EventRow :=
  rows.map (fun e =>
    if e.event_id == eventID then { e with status := status, updated_at := now } else e)

/-- `ApproveEvent` of `handlers/events.go`. -/
def ApproveEvent (db : DB) (env : Env) (c : Ctx) : DB × Response :=
  if c.role ≠ some "system_admin" then
    (db, ForbiddenResponse "Only system admins can approve events")
  else
    match c.id with
    | none => (db, BadRequestResponse "Invalid event ID")
    | some eventID =>
      if env.stmt1Fails then
        (db, InternalServerErrorResponse "Failed to approve event")
      else
        let rows := setEventStatus db.events eventID "approved" env.now
        ({ db with events := rows }, SuccessResponse 200 "Event approved successfully" none)

/-- `RejectEvent` of `handlers/events.go`. -/
def RejectEvent (db : DB) (env : Env) (c : Ctx) : DB × Response :=
  if c.role ≠ some "system_admin" then
    (db, ForbiddenResponse "Only system admins can reject events")
  else
    match c.id with
    | none => (db, BadRequestResponse "Invalid event ID")
    | some eventID =>
      if env.stmt1Fails then
        (db, InternalServerErrorResponse "Failed to reject event")
      else
        let rows := setEventStatus db.events eventID "rejected" env.now
        ({ db with events := rows }, SuccessResponse 200 "Event rejected successfully" none)

/-- `UPDATE news SET status = 'published', published_at = CURRENT_TIMESTAMP,
updated_at = CURRENT_TIMESTAMP WHERE news_id = $1`. -/
def publishNews (rows : List NewsRow) (newsID : Int) (now : Int) : List NewsRow :=
  rows.map (fun n =>
    if n.news_id == newsID
    then { n with status := "published", published_at := some now, updated_at := now }
    else n)

/-- `UPDATE news SET status = 'rejected', updated_at = CURRENT_TIMESTAMP
WHERE news_id = $1`. -/
def rejectNewsRows (rows : List NewsRow) (newsID : Int) (now : Int) : List NewsRow :=
  rows.map (fun n =>
    if n.news_id == newsID then { n with status := "rejected", updated_at := now } else n)

/-- `ApproveNews` of `handlers/news.go`. -/
def ApproveNews (db : DB) (env : Env) (c : Ctx) : DB × Response :=
  if c.role ≠ some "system_admin" then
    (db, ForbiddenResponse "Only system admins can approve news")
  else
    match c.id with
    | none => (db, BadRequestResponse "Invalid news ID")
    | some newsID =>
      if env.stmt1Fails then
        (db, InternalServerErrorResponse "Failed to approve news")
      else
        let rows := publishNews db.news newsID env.now
        ({ db with news := rows }, SuccessResponse 200 "News approved successfully" none)

/-- `RejectNews` of `handlers/news.go`. -/
def RejectNews (db : DB) (env : Env) (c : Ctx) : DB × Response :=
  if c.role ≠ some "system_admin" then
    (db, ForbiddenResponse "Only system admins can reject news")
  else
    match c.id with
    | none => (db, BadRequestResponse "Invalid news ID")
    | some newsID =>
      if env.stmt1Fails then
        (db, InternalServerErrorResponse "Failed to reject news")
      else
        let rows := rejectNewsRows db.news newsID env.now
        ({ db with news := rows }, SuccessResponse 200 "News rejected successfully" none)

/-- A handler behind `RoleMiddleware(requiredRoles...)`, as `SetupRoutes`
chains them. -/
def behindRole (requiredRoles : List String) (handler : DB → Env → Ctx → DB × Response)
    (db : DB) (env : Env) (c : Ctx) : DB × Response :=
  match RoleMiddleware requiredRoles c with
  | some aborted => (db, aborted)
  | none => handler db env c

/-- `POST /api/events/:id/approve` of `routes/routes.go`. -/
def routeApproveEvent : DB → Env → Ctx → DB × Response :=
  behindRole ["system_admin"] ApproveEvent

/-- `POST /api/events/:id/reject` of `routes/routes.go`. -/
def routeRejectEvent : DB → Env → Ctx → DB × Response :=
  behindRole ["system_admin"] RejectEvent

/-- `PUT /api/news/:id/approve` of `routes/routes.go`. -/
def routeApproveNews : DB → Env → Ctx → DB × Response :=
  behindRole ["system_admin"] ApproveNews

/-- `PUT /api/news/:id/reject` of `routes/routes.go`. -/
def routeRejectNews : DB → Env → Ctx → DB × Response :=
  behindRole ["system_admin"] RejectNews

/-- `POST /api/events/:id/attendance` of `routes/routes.go`. -/
def routeMarkAttendance : DB → Env → Ctx → DB × Response :=
  behindRole ["club_moderator", "system_admin"] MarkAttendance

/-! ## Sequences of requests -/

/-- One request to the registration engine. -/
inductive Op where
  | register (env : Env) (c : Ctx)
  | cancel (env : Env) (c : Ctx)
  | markAttendance (env : Env) (c : Ctx)
  | submitFeedback (env : Env) (c : Ctx)
  deriving DecidableEq, Repr

/-- The tables after one request. -/
def Op.apply (db : DB) : Op → DB
  | .register env c => (RegisterForEvent db env c).1
  | .cancel env c => (CancelEventRegistration db env c).1
  | .markAttendance env c => (MarkAttendance db env c).1
  | .submitFeedback env c => (SubmitEventFeedback db env c).1

/-- The tables after a sequence of requests served one after the other. -/
def run (db : DB) (ops : List Op) : DB :=
  ops.foldl Op.apply db

/-- The unique index on `(event_id, user_id)` that the `ON CONFLICT` clause of
the registration upsert names: no two rows share the pair. -/
def UniqueKey (rows : List RegistrationRow) : Prop :=
  (rows.map (fun r => (r.event_id, r.user_id))).Nodup

instance (rows : List RegistrationRow) : Decidable (UniqueKey rows) := by
  unfold UniqueKey; infer_instance

/-- A registration row with its status blanked: what an update of the status
alone leaves untouched. -/
def withoutStatus (r : RegistrationRow) : RegistrationRow :=
  { r with registration_status := "" }

/-! ## Interleaved registrations

`RegisterForEvent` issues its capacity query and its upsert as two statements
outside any transaction, so requests served concurrently interleave at the
boundary between them. -/

/-- A step of a registration request of user `userID` that is in flight: its
capacity query with the decision, or the rest of the handler. -/
inductive RaceStep where
  | read (userID : Int)
  | write (userID : Int) (env : Env)
  deriving DecidableEq, Repr

/-- The tables and, for every user with a request past its capacity query, the
value of that request's local variable `registrationStatus`. -/
structure RaceState where
  db : DB
  pending : Int → Option String

/-- One step of the requests in flight for event `eventID`. -/
def raceStep (eventID : Int) (s : RaceState) : RaceStep → RaceState
  | .read userID =>
    { s with pending := fun u =>
        if u = userID then some (registrationStatusFor s.db eventID) else s.pending u }
  | .write userID env =>
    match s.pending userID with
    | none => s
    | some registrationStatus =>
      { db := (registerWrite s.db env eventID userID registrationStatus).1,
        pending := fun u => if u = userID then none else s.pending u }

/-- The state after a schedule of steps. -/
def runRace (eventID : Int) (s : RaceState) (schedule : List RaceStep) : RaceState :=
  schedule.foldl (raceStep eventID) s

/-- The schedule that serves the requests one after the other. -/
def serialSchedule : List (Int × Env) → List RaceStep
  | [] => []
  | (userID, env) :: rest => .read userID :: .write userID env :: serialSchedule rest

/-! ## Concrete states and requests -/

/-- The request context of student `userID` on the routes of event `eventID`. -/
def studentCtx (userID eventID : Int) : Ctx :=
  { user_id := some userID, role := some "student", id := some eventID }

/-- One approved event, number 10, with the given capacity and no registration. -/
def oneEvent (capacity : Int) : DB :=
  { events := [{ event_id := 10, capacity := capacity, status := "approved" }] }

/-- The status a response reports, if it carries one. -/
def Response.status (r : Response) : Option String :=
  r.data.map (fun d => d.registration_status)

/-- The status column of the registration of `userID` for `eventID`. -/
def statusOf (db : DB) (eventID userID : Int) : Option String :=
  (db.event_registrations.find? (isFor eventID userID)).map
    (fun r => r.registration_status)

/-- The scenario of the capacity-2 event: students 1, 2 and 3 register in that
order, then student 1 cancels.  The states after each request. -/
def scenarioA : DB × Response := RegisterForEvent (oneEvent 2) { freshID := 101 } (studentCtx 1 10)

def scenarioB : DB × Response := RegisterForEvent scenarioA.1 { freshID := 102 } (studentCtx 2 10)

def scenarioC : DB × Response := RegisterForEvent scenarioB.1 { freshID := 103 } (studentCtx 3 10)

def scenarioCancel : DB × Response := CancelEventRegistration scenarioC.1 {} (studentCtx 1 10)

/-- The tables with the registration of `userID` for `eventID` absent. -/
def withoutRegistration (db : DB) (eventID userID : Int) : DB :=
  { db with event_registrations :=
      db.event_registrations.filter (fun r => !isFor eventID userID r) }

/-! ## Feedback and flags -/

/-- Whether a feedback row belongs to the pair `(eventID, userID)`. -/
def isFeedbackFor (eventID userID : Int) (f : FeedbackRow) : Bool :=
  f.event_id == eventID && f.user_id == userID

/-- The unique index on `(event_id, user_id)` that the `ON CONFLICT` clause of
the feedback upsert names. -/
def FeedbackUnique (rows : List FeedbackRow) : Prop :=
  (rows.map (fun f => (f.event_id, f.user_id))).Nodup

instance (rows : List FeedbackRow) : Decidable (FeedbackUnique rows) := by
  unfold FeedbackUnique; infer_instance

/-- The rating and comment stored for the pair `(eventID, userID)`. -/
def feedbackOf (rows : List FeedbackRow) (eventID userID : Int) : Option (Int × String) :=
  (rows.find? (isFeedbackFor eventID userID)).map (fun f => (f.rating, f.comment))

/-- What a request to `SubmitEventFeedback` submits when it reaches the upsert
and storage does not fail it: event, user, rating and comment. -/
def submission (env : Env) (c : Ctx) : Option (Int × Int × Int × String) :=
  match c.user_id, c.id, bindFeedback c.body with
  | some userID, some eventID, some (rating, comment) =>
    if env.stmt1Fails then none else some (eventID, userID, rating, comment)
  | _, _, _ => none

/-- The rating and comment of the most recent submission for the pair
`(eventID, userID)` in a sequence of feedback requests, oldest first. -/
def lastSubmission : List (Env × Ctx) → Int → Int → Option (Int × String)
  | [], _, _ => none
  | (env, c) :: rest, eventID, userID =>
    match lastSubmission rest eventID userID with
    | some p => some p
    | none =>
      match submission env c with
      | some (e, u, rating, comment) =>
        if e = eventID ∧ u = userID then some (rating, comment) else none
      | none => none

/-- The tables after a sequence of feedback requests served one after the other. -/
def runFeedback (db : DB) (calls : List (Env × Ctx)) : DB :=
  calls.foldl (fun d p => (SubmitEventFeedback d p.1 p.2).1) db

/-- A registration row and what became of it: the same row of the same pair,
with no flag taken back. -/
def flagsKept (old new : RegistrationRow) : Prop :=
  new.registration_id = old.registration_id ∧ new.event_id = old.event_id ∧
  new.user_id = old.user_id ∧
  (old.attendance_marked = true → new.attendance_marked = true) ∧
  (old.feedback_submitted = true → new.feedback_submitted = true)

/-- The request context of a user with role `role` on the routes of entity `id`. -/
def roleCtx (userID : Int) (role : String) (id : Int) : Ctx :=
  { user_id := some userID, role := some role, id := some id }

/-- A feedback request of student `userID` for event `eventID`. -/
def feedbackCtx (userID eventID rating : Int) (comment : String) : Ctx :=
  { user_id := some userID, role := some "student", id := some eventID,
    body := some { rating := some rating, comment := some comment } }

/-- An attendance request of a moderator for event `eventID` and user `userID`. -/
def attendanceCtx (eventID userID : Int) : Ctx :=
  { user_id := some 50, role := some "club_moderator", id := some eventID,
    body := some { user_id := some userID } }

/-- One news post, number 7, with the given status and publication time. -/
def oneNews (status : String) (publishedAt : Option Int) : DB :=
  { news := [{ news_id := 7, status := status, published_at := publishedAt,
               updated_at := 100 }] }

/-- One event, number 10, with capacity 2 and the given status. -/
def oneEventWithStatus (status : String) : DB :=
  { events := [{ event_id := 10, capacity := 2, status := status, updated_at := 100 }] }

/-! ## Notification handlers -/

/-- `UPDATE notifications SET is_read = TRUE
WHERE notification_id = $1 AND user_id = $2`. -/
def markReadRows (rows : List NotificationRow) (notificationID userID : Int) :
    List NotificationRow :=
  rows.map (fun n =>
    if n.notification_id == notificationID && n.user_id == userID
    then { n with is_read := true } else n)

/-- `UPDATE notifications SET is_read = TRUE WHERE user_id = $1 AND is_read = FALSE`. -/
def markAllReadRows (rows : List NotificationRow) (userID : Int) : List NotificationRow :=
  rows.map (fun n =>
    if n.user_id == userID && n.is_read == false then { n with is_read := true } else n)

/-- `DELETE FROM notifications WHERE notification_id = $1 AND user_id = $2`. -/
def deleteNotificationRows (rows : List NotificationRow) (notificationID userID : Int) :
    List NotificationRow :=
  rows.filter (fun n => !(n.notification_id == notificationID && n.user_id == userID))

/-- `MarkNotificationAsRead` of `handlers/notifications.go`. -/
def MarkNotificationAsRead (db : DB) (env : Env) (c : Ctx) : DB × Response :=
  match c.user_id with
  | none => (db, UnauthorizedResponse "User not authenticated")
  | some userID =>
    match c.id with
    | none => (db, BadRequestResponse "Invalid notification ID")
    | some notificationID =>
      if env.stmt1Fails then
        (db, InternalServerErrorResponse "Failed to mark notification as read")
      else
        let rows := markReadRows db.notifications notificationID userID
        ({ db with notifications := rows },
         SuccessResponse 200 "Notification marked as read" none)

/-- `MarkAllNotificationsAsRead` of `handlers/notifications.go`. -/
def MarkAllNotificationsAsRead (db : DB) (env : Env) (c : Ctx) : DB × Response :=
  match c.user_id with
  | none => (db, UnauthorizedResponse "User not authenticated")
  | some userID =>
    if env.stmt1Fails then
      (db, InternalServerErrorResponse "Failed to mark notifications as read")
    else
      let rows := markAllReadRows db.notifications userID
      ({ db with notifications := rows },
       SuccessResponse 200 "All notifications marked as read" none)

/-- `DeleteNotification` of `handlers/notifications.go`. -/
def DeleteNotification (db : DB) (env : Env) (c : Ctx) : DB × Response :=
  match c.user_id with
  | none => (db, UnauthorizedResponse "User not authenticated")
  | some userID =>
    match c.id with
    | none => (db, BadRequestResponse "Invalid notification ID")
    | some notificationID =>
      if env.stmt1Fails then
        (db, InternalServerErrorResponse "Failed to delete notification")
      else
        let rows := deleteNotificationRows db.notifications notificationID userID
        ({ db with notifications := rows }, SuccessResponse 200 "Notification deleted" none)

/-- One request to the notification handlers. -/
inductive NotifOp where
  | markRead (env : Env) (c : Ctx)
  | markAllRead (env : Env) (c : Ctx)
  | delete (env : Env) (c : Ctx)
  deriving DecidableEq, Repr

/-- The user a notification request is made by. -/
def NotifOp.caller : NotifOp → Option Int
  | .markRead _ c => c.user_id
  | .markAllRead _ c => c.user_id
  | .delete _ c => c.user_id

/-- The tables after one notification request. -/
def NotifOp.apply (db : DB) : NotifOp → DB
  | .markRead env c => (MarkNotificationAsRead db env c).1
  | .markAllRead env c => (MarkAllNotificationsAsRead db env c).1
  | .delete env c => (DeleteNotification db env c).1

/-- The tables after a sequence of notification requests. -/
def runNotif (db : DB) (ops : List NotifOp) : DB :=
  ops.foldl NotifOp.apply db

/-- A notification and what became of it: itself, or itself marked as read. -/
def readKept (old new : NotificationRow) : Prop :=
  new = old ∨ new = { old with is_read := true }

/-! ## Library functions of the user administration -/

/-- The value of a string of decimal digits, `none` when a character is not a
digit. -/
def digitsValue : List Char → Nat → Option Nat
  | [], acc => some acc
  | ch :: rest, acc =>
    if '0' ≤ ch ∧ ch ≤ '9' then digitsValue rest (acc * 10 + (ch.toNat - 48)) else none

/-- The digits of `strconv.Atoi` after the sign: at least one, all decimal. -/
def unsignedValue (digits : List Char) : Option Nat :=
  match digits with
  | [] => none
  | _ => digitsValue digits 0

/-- `strconv.Atoi` of the Go library on a 64-bit platform: an optional sign and
decimal digits, within the range of `int`; `none` when it returns an error. -/
def Atoi (s : String) : Option Int :=
  match s.toList with
  | [] => none
  | '-' :: digits =>
    match unsignedValue digits with
    | some n => if n ≤ 2 ^ 63 then some (-(n : Int)) else none
    | none => none
  | '+' :: digits =>
    match unsignedValue digits with
    | some n => if n < 2 ^ 63 then some (n : Int) else none
    | none => none
  | digits =>
    match unsignedValue digits with
    | some n => if n < 2 ^ 63 then some (n : Int) else none
    | none => none

/-- `strconv.Itoa` of the Go library on the positive indices the query builders
pass to it. -/
def Itoa (n : Nat) : String :=
  Nat.repr n

/-- `unicode.IsSpace` of the Go library. -/
def isSpace (c : Char) : Bool :=
  let r := c.toNat
  (9 ≤ r && r ≤ 13) || r == 32 || r == 0x85 || r == 0xA0 || r == 0x1680 ||
  (0x2000 ≤ r && r ≤ 0x200a) || r == 0x2028 || r == 0x2029 || r == 0x202f ||
  r == 0x205f || r == 0x3000

/-- `strings.TrimSpace` of the Go library. -/
def TrimSpace (s : String) : String :=
  String.mk (((s.toList.dropWhile isSpace).reverse.dropWhile isSpace).reverse)

/-! ## User administration -/

/-- `c.DefaultQuery(key, defaultValue)`. -/
def DefaultQuery (c : Ctx) (key defaultValue : String) : String :=
  match c.query.lookup key with
  | some value => value
  | none => defaultValue

/-- The effective limit of `AdminListUsers`, lines 27 and 30 to 33. -/
def listUsersLimit (c : Ctx) : Int :=
  let limitStr := DefaultQuery c "limit" "50"
  match Atoi limitStr with
  | none => 50
  | some limit => if limit ≤ 0 ∨ limit > 200 then 50 else limit

/-- The effective offset of `AdminListUsers`, lines 28 and 34 to 37. -/
def listUsersOffset (c : Ctx) : Int :=
  let offsetStr := DefaultQuery c "offset" "0"
  match Atoi offsetStr with
  | none => 0
  | some offset => if offset < 0 then 0 else offset

/-- An argument passed to `database.DB.Exec` next to the query. -/
inductive Arg where
  | str (value : String)
  | bool (value : Bool)
  | time (value : Int)
  | int (value : Int)
  deriving DecidableEq, Repr

/-- The state of the query builder of `AdminUpdateUser`: the variables `sets`,
`args` and `idx`. -/
structure Builder where
  sets : List String
  args : List Arg
  idx : Nat
  deriving DecidableEq, Repr

/-- One `if req.Field != nil { ... }` block of `AdminUpdateUser`. -/
def Builder.add (b : Builder) (column : String) (value : Option Arg) : Builder :=
  match value with
  | none => b
  | some v =>
    { sets := b.sets ++ [column ++ " = $" ++ Itoa b.idx], args := b.args ++ [v],
      idx := b.idx + 1 }

/-- A query with its arguments, as handed to `database.DB.Exec`. -/
structure Statement where
  query : String
  args : List Arg
  deriving DecidableEq, Repr

/-- The seven blocks of `AdminUpdateUser` in the order of the source, from the
empty builder with `idx` 1. -/
def updateUserBuilder (req : Body) : Builder :=
  let b0 : Builder := { sets := [], args := [], idx := 1 }
  let b1 := b0.add "student_id" (req.student_id.map (fun v => Arg.str (TrimSpace v)))
  let b2 := b1.add "email" (req.email.map (fun v => Arg.str (TrimSpace v)))
  let b3 := b2.add "first_name" (req.first_name.map (fun v => Arg.str (TrimSpace v)))
  let b4 := b3.add "last_name" (req.last_name.map (fun v => Arg.str (TrimSpace v)))
  let b5 := b4.add "phone" (req.phone.map (fun v => Arg.str (TrimSpace v)))
  let b6 := b5.add "profile_picture_url"
    (req.profile_picture_url.map (fun v => Arg.str (TrimSpace v)))
  b6.add "is_active" (req.is_active.map (fun v => Arg.bool v))

/-- The statement `AdminUpdateUser` builds from a builder with at least one
clause: `updated_at` is appended and the `WHERE` clause takes the next index. -/
def updateUserStatement (b : Builder) (now id : Int) : Statement :=
  let sets := b.sets ++ ["updated_at = $" ++ Itoa b.idx]
  let args := b.args ++ [Arg.time now]
  let idx := b.idx + 1
  let query := "UPDATE users SET " ++ ", ".intercalate sets ++ " WHERE user_id = $" ++
    Itoa idx
  { query := query, args := args ++ [Arg.int id] }

/-- `AdminUpdateUser` of `handlers/users_admin.go`: the statement handed to
`database.DB.Exec`, `none` when none is executed, and the response. -/
def AdminUpdateUser (env : Env) (c : Ctx) : Option Statement × Response :=
  if c.role ≠ some "system_admin" then
    (none, ForbiddenResponse "Only system admins can manage users")
  else
    match c.id with
    | none => (none, BadRequestResponse "Invalid user ID")
    | some id =>
      match c.body with
      | none => (none, BadRequestResponse "Invalid request body")
      | some req =>
        let b := updateUserBuilder req
        if b.sets.length = 0 then (none, BadRequestResponse "No fields to update")
        else
          let statement := updateUserStatement b env.now id
          if env.stmt1Fails then
            (some statement, InternalServerErrorResponse "Failed to update user")
          else (some statement, SuccessResponse 200 "User updated successfully" none)

/-- The fields of the request that are present, in the order of declaration of
`adminUpdateUserRequest`, each with its column and the argument passed for it. -/
def presentFields (req : Body) : List (String × Arg) :=
  [ req.student_id.map (fun v => ("student_id", Arg.str (TrimSpace v))),
    req.email.map (fun v => ("email", Arg.str (TrimSpace v))),
    req.first_name.map (fun v => ("first_name", Arg.str (TrimSpace v))),
    req.last_name.map (fun v => ("last_name", Arg.str (TrimSpace v))),
    req.phone.map (fun v => ("phone", Arg.str (TrimSpace v))),
    req.profile_picture_url.map (fun v => ("profile_picture_url", Arg.str (TrimSpace v))),
    req.is_active.map (fun v => ("is_active", Arg.bool v)) ].filterMap id

/-- The clauses `column = $k` for the given columns, numbered from `first`. -/
def numberedClauses : List String → Nat → List String
  | [], _ => []
  | column :: rest, first =>
    (column ++ " = $" ++ Itoa first) :: numberedClauses rest (first + 1)

/-- `ShouldBindJSON` into `changeRoleRequest`, whose role is tagged
`binding:"required"`: the empty string fails. -/
def bindChangeRole (body : Option Body) : Option String :=
  match body with
  | none => none
  | some b =>
    let role := b.role.getD ""
    if role = "" then none else some role

/-- `UPDATE users SET role = $1, updated_at = $2 WHERE user_id = $3`. -/
def setUserRole (rows : List UserRow) (id : Int) (role : String) (now : Int) :
    List UserRow :=
  rows.map (fun u => if u.user_id == id then { u with role := role, updated_at := now } else u)

/-- `AdminChangeUserRole` of `handlers/users_admin.go`. -/
def AdminChangeUserRole (db : DB) (env : Env) (c : Ctx) : DB × Response :=
  if c.role ≠ some "system_admin" then
    (db, ForbiddenResponse "Only system admins can manage users")
  else
    match c.id with
    | none => (db, BadRequestResponse "Invalid user ID")
    | some id =>
      match bindChangeRole c.body with
      | none => (db, BadRequestResponse "Invalid request body")
      | some reqRole =>
        let newRole := TrimSpace reqRole
        if newRole ≠ "student" ∧ newRole ≠ "club_moderator" ∧ newRole ≠ "system_admin" then
          (db, BadRequestResponse "Invalid role")
        else if env.stmt1Fails then
          (db, InternalServerErrorResponse "Failed to change user role")
        else
          let rows := setUserRole db.users id newRole env.now
          ({ db with users := rows }, SuccessResponse 200 "User role updated successfully" none)

/-- The roles `AdminChangeUserRole` accepts. -/
def validRoles : List String :=
  ["student", "club_moderator", "system_admin"]

/-- A role-change request of an administrator for user `id`. -/
def changeRoleCtx (id : Int) (role : String) : Ctx :=
  { user_id := some 99, role := some "system_admin", id := some id,
    body := some { role := some role } }

/-- Three notifications: two of user 1, one of them read, and one of user 2. -/
def threeNotifications : DB :=
  { notifications :=
      [{ notification_id := 1, user_id := 1, title := "a", is_read := false },
       { notification_id := 2, user_id := 1, title := "b", is_read := true },
       { notification_id := 3, user_id := 2, title := "c", is_read := false }] }

/-! ## Lemmas on the statements -/

@[simp] theorem LogActivity_event_registrations (db : DB) (env : Env) (u : Int)
    (a t : String) (e : Int) (d : Option String) :
    (LogActivity db env u a t e d).event_registrations = db.event_registrations := by
  unfold LogActivity
  cases env.logFails <;> rfl

@[simp] theorem LogActivity_events (db : DB) (env : Env) (u : Int)
    (a t : String) (e : Int) (d : Option String) :
    (LogActivity db env u a t e d).events = db.events := by
  unfold LogActivity
  cases env.logFails <;> rfl

theorem isFor_iff (e u : Int) (r : RegistrationRow) :
    isFor e u r = true ↔ r.event_id = e ∧ r.user_id = u := by
  simp [isFor]

/-- Updating a column other than the key of some rows leaves the keys as they are. -/
theorem map_keys_of_preserving (f : RegistrationRow → RegistrationRow)
    (hf : ∀ r, (f r).event_id = r.event_id ∧ (f r).user_id = r.user_id)
    (rows : List RegistrationRow) :
    (rows.map f).map (fun r => (r.event_id, r.user_id))
      = rows.map (fun r => (r.event_id, r.user_id)) := by
  rw [List.map_map]
  apply List.map_congr_left
  intro r _
  simp [(hf r).1, (hf r).2]

theorem UniqueKey_cancelRows (rows : List RegistrationRow) (e u : Int)
    (h : UniqueKey rows) : UniqueKey (cancelRows rows e u) := by
  unfold UniqueKey cancelRows at *
  rw [map_keys_of_preserving]
  · exact h
  · intro r; split <;> simp

theorem UniqueKey_markAttendanceRows (rows : List RegistrationRow) (e u : Int)
    (h : UniqueKey rows) : UniqueKey (markAttendanceRows rows e u) := by
  unfold UniqueKey markAttendanceRows at *
  rw [map_keys_of_preserving]
  · exact h
  · intro r; split <;> simp

theorem UniqueKey_markFeedbackRows (rows : List RegistrationRow) (e u : Int)
    (h : UniqueKey rows) : UniqueKey (markFeedbackRows rows e u) := by
  unfold UniqueKey markFeedbackRows at *
  rw [map_keys_of_preserving]
  · exact h
  · intro r; split <;> simp

theorem UniqueKey_upsertRegistration (rows : List RegistrationRow) (f e u : Int)
    (st : String) (h : UniqueKey rows) : UniqueKey (upsertRegistration rows f e u st) := by
  unfold upsertRegistration
  split
  · unfold UniqueKey at *
    rw [map_keys_of_preserving]
    · exact h
    · intro r; split <;> simp
  · rename_i hany
    unfold UniqueKey at *
    rw [List.map_append, List.nodup_append]
    refine ⟨h, by simp, ?_⟩
    simp only [List.map_cons, List.map_nil, List.disjoint_singleton]
    intro hmem
    apply hany
    rcases List.mem_map.1 hmem with ⟨r, hr, hk⟩
    simp only [newRegistration, Prod.mk.injEq] at hk
    exact List.any_eq_true.2 ⟨r, hr, (isFor_iff e u r).2 hk⟩

theorem countP_isFor_le_one (rows : List RegistrationRow) (h : UniqueKey rows)
    (e u : Int) : rows.countP (isFor e u) ≤ 1 := by
  have hcount := List.nodup_iff_count_le_one.1 h (e, u)
  unfold List.count at hcount
  rw [List.countP_map] at hcount
  refine le_trans (le_of_eq ?_) hcount
  apply List.countP_congr
  intro r _
  rw [isFor_iff]
  show _ ↔ decide ((r.event_id, r.user_id) = (e, u)) = true
  rw [decide_eq_true_iff, Prod.mk.injEq]

theorem countP_or_le {α : Type} (p q : α → Bool) (l : List α) :
    l.countP (fun x => p x || q x) ≤ l.countP p + l.countP q := by
  induction l with
  | nil => simp
  | cons a l ih =>
    simp only [List.countP_cons]
    cases p a <;> cases q a <;> simp <;> omega

theorem confirmedCount_cancelRows_le (rows : List RegistrationRow) (e2 u e : Int) :
    confirmedCount (cancelRows rows e2 u) e ≤ confirmedCount rows e := by
  unfold confirmedCount cancelRows
  rw [List.countP_map]
  apply List.countP_mono_left
  intro r _
  simp only [Function.comp]
  split <;> simp

theorem confirmedCount_markAttendanceRows (rows : List RegistrationRow) (e2 u e : Int) :
    confirmedCount (markAttendanceRows rows e2 u) e = confirmedCount rows e := by
  unfold confirmedCount markAttendanceRows
  rw [List.countP_map]
  apply List.countP_congr
  intro r _
  simp only [Function.comp]
  split <;> simp

theorem confirmedCount_markFeedbackRows (rows : List RegistrationRow) (e2 u e : Int) :
    confirmedCount (markFeedbackRows rows e2 u) e = confirmedCount rows e := by
  unfold confirmedCount markFeedbackRows
  rw [List.countP_map]
  apply List.countP_congr
  intro r _
  simp only [Function.comp]
  split <;> simp

/-- An upsert for another event leaves the confirmed count of event `e` as it is. -/
theorem confirmedCount_upsert_other (rows : List RegistrationRow) (f e2 u e : Int)
    (st : String) (hne : e2 ≠ e) :
    confirmedCount (upsertRegistration rows f e2 u st) e = confirmedCount rows e := by
  unfold confirmedCount upsertRegistration
  split
  · rw [List.countP_map]
    apply List.countP_congr
    intro r _
    simp only [Function.comp]
    split
    · rename_i hfor
      have hr := ((isFor_iff e2 u r).1 hfor).1
      have hre : r.event_id ≠ e := by rw [hr]; exact hne
      simp [hre]
    · simp
  · simp [newRegistration, hne]

/-- An upsert that does not write 'confirmed' never raises a confirmed count. -/
theorem confirmedCount_upsert_not_confirmed (rows : List RegistrationRow)
    (f e2 u e : Int) (st : String) (hst : st ≠ "confirmed") :
    confirmedCount (upsertRegistration rows f e2 u st) e ≤ confirmedCount rows e := by
  unfold confirmedCount upsertRegistration
  split
  · rw [List.countP_map]
    apply List.countP_mono_left
    intro r _
    simp only [Function.comp]
    split <;> simp [hst]
  · simp [newRegistration, hst]

/-- Under the unique index an upsert raises a confirmed count by at most one. -/
theorem confirmedCount_upsert_le_succ (rows : List RegistrationRow) (f e2 u e : Int)
    (st : String) (h : UniqueKey rows) :
    confirmedCount (upsertRegistration rows f e2 u st) e ≤ confirmedCount rows e + 1 := by
  unfold confirmedCount upsertRegistration
  split
  · rw [List.countP_map]
    refine le_trans (List.countP_mono_left ?_)
      (le_trans (countP_or_le _ (isFor e2 u) rows)
        (Nat.add_le_add_left (countP_isFor_le_one rows h e2 u) _))
    intro r _
    simp only [Function.comp]
    split
    · rename_i hfor
      simp [hfor]
    · intro hp
      simp [hp]
  · rw [List.countP_append]
    apply Nat.add_le_add_left
    simp only [List.countP_cons, List.countP_nil]
    split <;> omega

theorem upsertRegistration_stores (rows : List RegistrationRow) (f e u : Int)
    (st : String) :
    (∃ r ∈ upsertRegistration rows f e u st, isFor e u r = true) ∧
    (∀ r ∈ upsertRegistration rows f e u st, isFor e u r = true →
      r.registration_status = st) := by
  unfold upsertRegistration
  split
  · rename_i hany
    rcases List.any_eq_true.1 hany with ⟨r, hr, hfor⟩
    constructor
    · refine ⟨{ r with registration_status := st }, ?_, ?_⟩
      · exact List.mem_map.2 ⟨r, hr, by simp [hfor]⟩
      · simpa [isFor] using hfor
    · intro r2 hr2 hfor2
      rcases List.mem_map.1 hr2 with ⟨r1, _, h12⟩
      by_cases h1 : isFor e u r1 = true
      · rw [if_pos h1] at h12
        rw [← h12]
      · rw [if_neg h1] at h12
        rw [h12] at h1
        exact absurd hfor2 h1
  · rename_i hany
    constructor
    · exact ⟨newRegistration f e u st, by simp, by simp [isFor, newRegistration]⟩
    · intro r hr hfor
      rcases List.mem_append.1 hr with hold | hnew
      · exact absurd (List.any_eq_true.2 ⟨r, hold, hfor⟩) hany
      · simp only [List.mem_singleton] at hnew
        rw [hnew]
        rfl

theorem scanCapacity_of_event (db : DB) (e : Int) (ev : EventRow)
    (hev : db.events.find? (fun x => x.event_id == e) = some ev) :
    scanCapacity db e = (ev.capacity, (confirmedCount db.event_registrations e : Int)) := by
  simp [scanCapacity, capacityQuery, hev]

theorem scanCapacity_of_no_event (db : DB) (e : Int)
    (hev : db.events.find? (fun x => x.event_id == e) = none) :
    scanCapacity db e = (0, 0) := by
  simp [scanCapacity, capacityQuery, hev]

theorem registerWrite_rows (db : DB) (env : Env) (e u : Int) (st : String) :
    (registerWrite db env e u st).1.event_registrations =
      if env.stmt2Fails then db.event_registrations
      else upsertRegistration db.event_registrations env.freshID e u st := by
  unfold registerWrite
  cases env.stmt2Fails <;> simp

theorem registerWrite_events (db : DB) (env : Env) (e u : Int) (st : String) :
    (registerWrite db env e u st).1.events = db.events := by
  unfold registerWrite
  cases env.stmt2Fails <;> simp

/-- A successful request to `RegisterForEvent`, spelled out. -/
theorem RegisterForEvent_ok (db : DB) (env : Env) (c : Ctx) (e u : Int)
    (hu : c.user_id = some u) (hid : c.id = some e)
    (h1 : env.stmt1Fails = false) (h2 : env.stmt2Fails = false) :
    (RegisterForEvent db env c).2 =
        SuccessResponse 201 "Successfully registered for event"
          (some { registration_id := returningID db.event_registrations env.freshID e u,
                  registration_status := registrationStatusFor db e }) ∧
    (RegisterForEvent db env c).1.event_registrations =
        upsertRegistration db.event_registrations env.freshID e u
          (registrationStatusFor db e) := by
  simp [RegisterForEvent, registerWrite, hu, hid, h1, h2]

theorem registrationStatusFor_of_event (db : DB) (e : Int) (ev : EventRow)
    (hev : db.events.find? (fun x => x.event_id == e) = some ev) :
    registrationStatusFor db e =
      if (confirmedCount db.event_registrations e : Int) < ev.capacity
      then "confirmed" else "waitlist" := by
  unfold registrationStatusFor decideStatus
  rw [scanCapacity_of_event db e ev hev]
  by_cases hk : (confirmedCount db.event_registrations e : Int) < ev.capacity
  · rw [if_pos hk, if_neg (by simpa using hk)]
  · rw [if_neg hk, if_pos (by simpa using hk)]

/-- An update of the rows of one pair that keeps their key leaves the rows of all
other pairs as they are. -/
theorem filter_others_map_update (g : RegistrationRow → RegistrationRow) (e u : Int)
    (hg : ∀ r, isFor e u (g r) = isFor e u r) (rows : List RegistrationRow) :
    (rows.map (fun r => if isFor e u r then g r else r)).filter
        (fun r => !isFor e u r) =
      rows.filter (fun r => !isFor e u r) := by
  induction rows with
  | nil => rfl
  | cons r rows ih =>
    by_cases h : isFor e u r = true
    · simp [List.filter_cons, h, hg, ih]
    · simp [List.filter_cons, h, ih]

theorem filter_others_upsert (rows : List RegistrationRow) (f e u : Int) (st : String) :
    (upsertRegistration rows f e u st).filter (fun r => !isFor e u r) =
      rows.filter (fun r => !isFor e u r) := by
  unfold upsertRegistration
  split
  · exact filter_others_map_update _ e u (fun r => by simp [isFor]) rows
  · simp [List.filter_append, List.filter_cons, isFor, newRegistration]

theorem filter_others_cancelRows (rows : List RegistrationRow) (e u : Int) :
    (cancelRows rows e u).filter (fun r => !isFor e u r) =
      rows.filter (fun r => !isFor e u r) :=
  filter_others_map_update _ e u (fun r => by simp [isFor]) rows

/-- A cancelled registration counts like an absent one. -/
theorem confirmedCount_cancelRows_eq (rows : List RegistrationRow) (e u : Int) :
    confirmedCount (cancelRows rows e u) e =
      confirmedCount (rows.filter (fun r => !isFor e u r)) e := by
  unfold confirmedCount cancelRows
  rw [List.countP_map, List.countP_filter]
  apply List.countP_congr
  intro r _
  simp only [Function.comp]
  by_cases h : isFor e u r = true
  · simp [h]
  · simp [h]

theorem upsert_existing_withoutStatus (rows : List RegistrationRow) (f e u : Int)
    (st : String) (hex : ∃ r ∈ rows, isFor e u r = true) :
    (upsertRegistration rows f e u st).map withoutStatus = rows.map withoutStatus := by
  unfold upsertRegistration
  rw [if_pos (List.any_eq_true.2 hex), List.map_map]
  apply List.map_congr_left
  intro r _
  simp only [Function.comp]
  split <;> rfl

theorem forall₂_map_self {α : Type} (f : α → α) (l : List α) :
    List.Forall₂ (fun a b => b = f a) l (l.map f) := by
  induction l with
  | nil => exact List.Forall₂.nil
  | cons a l ih => exact List.Forall₂.cons rfl ih

theorem cancelRows_cancelRows (rows : List RegistrationRow) (e u : Int) :
    cancelRows (cancelRows rows e u) e u = cancelRows rows e u := by
  unfold cancelRows
  rw [List.map_map]
  apply List.map_congr_left
  intro r _
  simp only [Function.comp]
  by_cases h : isFor e u r = true
  · have h2 : isFor e u { r with registration_status := "cancelled" } = true := by
      simpa [isFor] using h
    simp [h, h2]
  · simp [h]

/-! ## What each handler does to the tables -/

theorem RegisterForEvent_events (db : DB) (env : Env) (c : Ctx) :
    (RegisterForEvent db env c).1.events = db.events := by
  unfold RegisterForEvent
  cases c.user_id <;> cases c.id <;> cases env.stmt1Fails <;>
    simp [registerWrite_events]

theorem CancelEventRegistration_events (db : DB) (env : Env) (c : Ctx) :
    (CancelEventRegistration db env c).1.events = db.events := by
  unfold CancelEventRegistration
  cases c.user_id <;> cases c.id <;> cases env.stmt1Fails <;> simp

theorem MarkAttendance_events (db : DB) (env : Env) (c : Ctx) :
    (MarkAttendance db env c).1.events = db.events := by
  unfold MarkAttendance
  cases c.id <;> cases bindAttendance c.body <;> cases env.stmt1Fails <;> simp

theorem SubmitEventFeedback_events (db : DB) (env : Env) (c : Ctx) :
    (SubmitEventFeedback db env c).1.events = db.events := by
  unfold SubmitEventFeedback
  cases c.user_id <;> cases c.id <;> cases bindFeedback c.body <;>
    cases env.stmt1Fails <;> cases env.stmt2Fails <;> simp

theorem Op.apply_events (db : DB) (op : Op) : (Op.apply db op).events = db.events := by
  cases op <;>
    simp [Op.apply, RegisterForEvent_events, CancelEventRegistration_events,
      MarkAttendance_events, SubmitEventFeedback_events]

theorem RegisterForEvent_rows (db : DB) (env : Env) (c : Ctx) :
    (RegisterForEvent db env c).1.event_registrations = db.event_registrations ∨
    ∃ e u, c.id = some e ∧ c.user_id = some u ∧
      (RegisterForEvent db env c).1.event_registrations =
        upsertRegistration db.event_registrations env.freshID e u
          (registrationStatusFor db e) := by
  unfold RegisterForEvent
  cases c.user_id <;> cases c.id <;> cases env.stmt1Fails <;>
    cases h2 : env.stmt2Fails <;> simp [registerWrite_rows, h2]

theorem CancelEventRegistration_rows (db : DB) (env : Env) (c : Ctx) :
    (CancelEventRegistration db env c).1.event_registrations = db.event_registrations ∨
    ∃ e u, c.id = some e ∧ c.user_id = some u ∧
      (CancelEventRegistration db env c).1.event_registrations =
        cancelRows db.event_registrations e u := by
  unfold CancelEventRegistration
  cases c.user_id <;> cases c.id <;> cases env.stmt1Fails <;> simp

theorem MarkAttendance_rows (db : DB) (env : Env) (c : Ctx) :
    (MarkAttendance db env c).1.event_registrations = db.event_registrations ∨
    ∃ e u, (MarkAttendance db env c).1.event_registrations =
        markAttendanceRows db.event_registrations e u := by
  unfold MarkAttendance
  cases c.id <;> cases bindAttendance c.body <;> cases env.stmt1Fails <;> simp

theorem SubmitEventFeedback_rows (db : DB) (env : Env) (c : Ctx) :
    (SubmitEventFeedback db env c).1.event_registrations = db.event_registrations ∨
    ∃ e u, (SubmitEventFeedback db env c).1.event_registrations =
        markFeedbackRows db.event_registrations e u := by
  unfold SubmitEventFeedback
  cases c.user_id <;> cases c.id <;> cases bindFeedback c.body <;>
    cases env.stmt1Fails <;> cases env.stmt2Fails <;> simp

/-- Every request keeps the unique index on `(event_id, user_id)`. -/
theorem Op.apply_UniqueKey (db : DB) (op : Op) (h : UniqueKey db.event_registrations) :
    UniqueKey (Op.apply db op).event_registrations := by
  cases op with
  | register env c =>
    rcases RegisterForEvent_rows db env c with hsame | ⟨e, u, _, _, hup⟩
    · simpa [Op.apply, hsame] using h
    · simpa [Op.apply, hup] using UniqueKey_upsertRegistration _ _ _ _ _ h
  | cancel env c =>
    rcases CancelEventRegistration_rows db env c with hsame | ⟨e, u, _, _, hup⟩
    · simpa [Op.apply, hsame] using h
    · simpa [Op.apply, hup] using UniqueKey_cancelRows _ _ _ h
  | markAttendance env c =>
    rcases MarkAttendance_rows db env c with hsame | ⟨e, u, hup⟩
    · simpa [Op.apply, hsame] using h
    · simpa [Op.apply, hup] using UniqueKey_markAttendanceRows _ _ _ h
  | submitFeedback env c =>
    rcases SubmitEventFeedback_rows db env c with hsame | ⟨e, u, hup⟩
    · simpa [Op.apply, hsame] using h
    · simpa [Op.apply, hup] using UniqueKey_markFeedbackRows _ _ _ h

theorem run_UniqueKey (ops : List Op) (db : DB) (h : UniqueKey db.event_registrations) :
    UniqueKey (run db ops).event_registrations := by
  induction ops generalizing db with
  | nil => exact h
  | cons op ops ih => exact ih (Op.apply db op) (Op.apply_UniqueKey db op h)

theorem run_events (ops : List Op) (db : DB) : (run db ops).events = db.events := by
  induction ops generalizing db with
  | nil => rfl
  | cons op ops ih => exact (ih (Op.apply db op)).trans (Op.apply_events db op)

/-- The upsert of `RegisterForEvent`, with the status the handler decided from the
same tables, keeps the confirmed count of an event within its capacity. -/
theorem upsert_decided_within_capacity (db : DB) (f e2 u e : Int) (ev : EventRow)
    (hev : db.events.find? (fun x => x.event_id == e) = some ev)
    (huniq : UniqueKey db.event_registrations)
    (hcap : (confirmedCount db.event_registrations e : Int) ≤ ev.capacity) :
    (confirmedCount (upsertRegistration db.event_registrations f e2 u
      (registrationStatusFor db e2)) e : Int) ≤ ev.capacity := by
  by_cases hne : e2 = e
  · subst hne
    by_cases hfull : (confirmedCount db.event_registrations e2 : Int) ≥ ev.capacity
    · have hst : registrationStatusFor db e2 = "waitlist" := by
        unfold registrationStatusFor decideStatus
        rw [scanCapacity_of_event db e2 ev hev]
        exact if_pos hfull
      rw [hst]
      have := confirmedCount_upsert_not_confirmed db.event_registrations f e2 u e2
        "waitlist" (by decide)
      omega
    · have := confirmedCount_upsert_le_succ db.event_registrations f e2 u e2
        (registrationStatusFor db e2) huniq
      omega
  · rw [confirmedCount_upsert_other _ _ _ _ _ _ hne]
    exact hcap

/-- One request keeps the confirmed count of an event within its capacity. -/
theorem Op.apply_within_capacity (db : DB) (op : Op) (e : Int) (ev : EventRow)
    (hev : db.events.find? (fun x => x.event_id == e) = some ev)
    (huniq : UniqueKey db.event_registrations)
    (hcap : (confirmedCount db.event_registrations e : Int) ≤ ev.capacity) :
    (confirmedCount (Op.apply db op).event_registrations e : Int) ≤ ev.capacity := by
  cases op with
  | register env c =>
    rcases RegisterForEvent_rows db env c with hsame | ⟨e2, u, _, _, hup⟩
    · simpa [Op.apply, hsame] using hcap
    · simpa [Op.apply, hup] using
        upsert_decided_within_capacity db env.freshID e2 u e ev hev huniq hcap
  | cancel env c =>
    rcases CancelEventRegistration_rows db env c with hsame | ⟨e2, u, _, _, hup⟩
    · simpa [Op.apply, hsame] using hcap
    · have := confirmedCount_cancelRows_le db.event_registrations e2 u e
      simp only [Op.apply, hup]
      omega
  | markAttendance env c =>
    rcases MarkAttendance_rows db env c with hsame | ⟨e2, u, hup⟩
    · simpa [Op.apply, hsame] using hcap
    · simpa [Op.apply, hup, confirmedCount_markAttendanceRows] using hcap
  | submitFeedback env c =>
    rcases SubmitEventFeedback_rows db env c with hsame | ⟨e2, u, hup⟩
    · simpa [Op.apply, hsame] using hcap
    · simpa [Op.apply, hup, confirmedCount_markFeedbackRows] using hcap


/-! ## The decision rule -/

/-- C1: for an existing event with capacity `c` and `k` confirmed registration
rows (the caller's own included), a request to `RegisterForEvent` that storage
does not fail answers 201 with status 'confirmed' if `k < c` and 'waitlist'
otherwise, and afterwards the caller has a row for the event and it holds that
status. -/
theorem C1_register_decision (db : DB) (env : Env) (c : Ctx) (e u : Int) (ev : EventRow)
    (hu : c.user_id = some u) (hid : c.id = some e)
    (hev : db.events.find? (fun x => x.event_id == e) = some ev)
    (h1 : env.stmt1Fails = false) (h2 : env.stmt2Fails = false) :
    (RegisterForEvent db env c).2.code = 201 ∧
    (RegisterForEvent db env c).2.status =
      some (if (confirmedCount db.event_registrations e : Int) < ev.capacity
            then "confirmed" else "waitlist") ∧
    (∃ r ∈ (RegisterForEvent db env c).1.event_registrations, isFor e u r = true) ∧
    (∀ r ∈ (RegisterForEvent db env c).1.event_registrations, isFor e u r = true →
      r.registration_status =
        if (confirmedCount db.event_registrations e : Int) < ev.capacity
        then "confirmed" else "waitlist") := by
  obtain ⟨hresp, hrows⟩ := RegisterForEvent_ok db env c e u hu hid h1 h2
  rw [hresp, hrows, registrationStatusFor_of_event db e ev hev]
  obtain ⟨hex, hall⟩ := upsertRegistration_stores db.event_registrations env.freshID e u
    (if (confirmedCount db.event_registrations e : Int) < ev.capacity
      then "confirmed" else "waitlist")
  exact ⟨rfl, rfl, hex, hall⟩

/-- The decision rule at an event of capacity 2 with one confirmed row: the second
student is confirmed and stored as such. -/
theorem C1_register_decision_witness :
    (RegisterForEvent scenarioA.1 { freshID := 102 } (studentCtx 2 10)).2.code = 201 ∧
    (RegisterForEvent scenarioA.1 { freshID := 102 } (studentCtx 2 10)).2.status =
      some (if (confirmedCount scenarioA.1.event_registrations 10 : Int) <
              ({ event_id := 10, capacity := 2, status := "approved" } : EventRow).capacity
            then "confirmed" else "waitlist") ∧
    (∃ r ∈ (RegisterForEvent scenarioA.1 { freshID := 102 }
        (studentCtx 2 10)).1.event_registrations, isFor 10 2 r = true) ∧
    (∀ r ∈ (RegisterForEvent scenarioA.1 { freshID := 102 }
        (studentCtx 2 10)).1.event_registrations, isFor 10 2 r = true →
      r.registration_status =
        if (confirmedCount scenarioA.1.event_registrations 10 : Int) <
            ({ event_id := 10, capacity := 2, status := "approved" } : EventRow).capacity
        then "confirmed" else "waitlist") :=
  C1_register_decision scenarioA.1 { freshID := 102 } (studentCtx 2 10) 10 2
    { event_id := 10, capacity := 2, status := "approved" } rfl rfl (by decide) rfl rfl

/-! ## The capacity invariant of sequential requests -/

/-- C2: from tables in which an event has at most as many 'confirmed'
registrations as its capacity, every finite sequence of requests served one
after the other (registrations and cancellations, for any event and user, and
attendance and feedback requests as well) leaves the events table, hence the
capacity, as it was and the event with at most as many 'confirmed' registrations
as its capacity.  The tables satisfy the unique index on `(event_id, user_id)`. -/
theorem C2_sequential_capacity_invariant (ops : List Op) (db : DB) (e : Int)
    (ev : EventRow)
    (hev : db.events.find? (fun x => x.event_id == e) = some ev)
    (huniq : UniqueKey db.event_registrations)
    (hcap : (confirmedCount db.event_registrations e : Int) ≤ ev.capacity) :
    (run db ops).events = db.events ∧
    (confirmedCount (run db ops).event_registrations e : Int) ≤ ev.capacity := by
  refine ⟨run_events ops db, ?_⟩
  induction ops generalizing db with
  | nil => exact hcap
  | cons op ops ih =>
    exact ih (Op.apply db op) (by rw [Op.apply_events]; exact hev)
      (Op.apply_UniqueKey db op huniq)
      (Op.apply_within_capacity db op e ev hev huniq hcap)

/-- The invariant along the scenario of the capacity-2 event followed by a
re-registration of the student who cancelled. -/
theorem C2_sequential_capacity_invariant_witness :
    (run (oneEvent 2)
      [.register { freshID := 101 } (studentCtx 1 10),
       .register { freshID := 102 } (studentCtx 2 10),
       .register { freshID := 103 } (studentCtx 3 10),
       .cancel {} (studentCtx 1 10),
       .register { freshID := 104 } (studentCtx 1 10)]).events = (oneEvent 2).events ∧
    (confirmedCount (run (oneEvent 2)
      [.register { freshID := 101 } (studentCtx 1 10),
       .register { freshID := 102 } (studentCtx 2 10),
       .register { freshID := 103 } (studentCtx 3 10),
       .cancel {} (studentCtx 1 10),
       .register { freshID := 104 } (studentCtx 1 10)]).event_registrations 10 : Int)
      ≤ ({ event_id := 10, capacity := 2, status := "approved" } : EventRow).capacity :=
  C2_sequential_capacity_invariant _ (oneEvent 2) 10
    { event_id := 10, capacity := 2, status := "approved" } (by decide) (by decide)
    (by decide)

/-! ## Interleaved registrations -/

/-- A capacity query directly followed by the rest of the same request is the
request served alone. -/
theorem raceStep_read_write (e u : Int) (env : Env) (s : RaceState) :
    (raceStep e (raceStep e s (.read u)) (.write u env)).db =
      (registerWrite s.db env e u (registrationStatusFor s.db e)).1 := by
  simp [raceStep]

/-- C3, counterexample: an event of capacity 1 without registrations and two
requests in flight, of students 1 and 2.  Both capacity queries run before either
upsert, both read zero confirmed rows, and both upserts store 'confirmed': two
confirmed rows against capacity 1. -/
theorem C3_interleaving_exceeds_capacity :
    capacityQuery (oneEvent 1) 10 = some (1, 0) ∧
    statusOf (runRace 10 { db := oneEvent 1, pending := fun _ => none }
          [.read 1, .read 2, .write 1 { freshID := 101 },
           .write 2 { freshID := 102 }]).db 10 1 = some "confirmed" ∧
    statusOf (runRace 10 { db := oneEvent 1, pending := fun _ => none }
          [.read 1, .read 2, .write 1 { freshID := 101 },
           .write 2 { freshID := 102 }]).db 10 2 = some "confirmed" ∧
    ¬ ((confirmedCount (runRace 10 { db := oneEvent 1, pending := fun _ => none }
          [.read 1, .read 2, .write 1 { freshID := 101 },
           .write 2 { freshID := 102 }]).db.event_registrations 10 : Int) ≤ 1) := by
  decide

/-- C3, amended: when the registration requests against an event are served one
after the other, each capacity query directly followed by the upsert of the same
request, the number of 'confirmed' rows of the event stays within its capacity,
from any tables in which it was. -/
theorem C3_serial_registrations_within_capacity (calls : List (Int × Env))
    (db : DB) (pending : Int → Option String) (e : Int) (ev : EventRow)
    (hev : db.events.find? (fun x => x.event_id == e) = some ev)
    (huniq : UniqueKey db.event_registrations)
    (hcap : (confirmedCount db.event_registrations e : Int) ≤ ev.capacity) :
    (confirmedCount (runRace e { db := db, pending := pending }
      (serialSchedule calls)).db.event_registrations e : Int) ≤ ev.capacity := by
  induction calls generalizing db pending with
  | nil => exact hcap
  | cons call calls ih =>
    obtain ⟨u, env⟩ := call
    have hdb := raceStep_read_write e u env { db := db, pending := pending }
    have hrows := registerWrite_rows db env e u (registrationStatusFor db e)
    have hevents := registerWrite_events db env e u (registrationStatusFor db e)
    simp only [serialSchedule, runRace, List.foldl_cons]
    generalize hs : raceStep e (raceStep e { db := db, pending := pending } (.read u))
      (.write u env) = s2 at hdb
    obtain ⟨db2, pending2⟩ := s2
    simp only at hdb
    subst hdb
    apply ih
    · rw [hevents]; exact hev
    · rw [hrows]
      split
      · exact huniq
      · exact UniqueKey_upsertRegistration _ _ _ _ _ huniq
    · rw [hrows]
      split
      · exact hcap
      · exact upsert_decided_within_capacity db env.freshID e u e ev hev huniq hcap

/-- The same two requests as in the counterexample, served one after the other:
the second one is waitlisted and one row is confirmed. -/
theorem C3_serial_registrations_within_capacity_witness :
    (confirmedCount (runRace 10 { db := oneEvent 1, pending := fun _ => none }
      (serialSchedule [(1, { freshID := 101 }), (2, { freshID := 102 })])).db.event_registrations
        10 : Int) ≤ ({ event_id := 10, capacity := 1, status := "approved" } : EventRow).capacity :=
  C3_serial_registrations_within_capacity [(1, { freshID := 101 }), (2, { freshID := 102 })]
    (oneEvent 1) (fun _ => none) 10 { event_id := 10, capacity := 1, status := "approved" }
    (by decide) (by decide) (by decide)

/-! ## A registration for an event that does not exist -/

/-- C4: at an event id without an event the handler does not answer 404.  The
capacity query has no row, the handler goes on with capacity 0 and count 0, and
the upsert stores a 'waitlist' row; the answer is 201.  No request to
`RegisterForEvent` is answered 404. -/
theorem C4_missing_event_not_reported :
    (oneEvent 2).events.find? (fun x => x.event_id == 99) = none ∧
    (RegisterForEvent (oneEvent 2) { freshID := 101 } (studentCtx 1 99)).2 =
      SuccessResponse 201 "Successfully registered for event"
        (some { registration_id := 101, registration_status := "waitlist" }) ∧
    (RegisterForEvent (oneEvent 2) { freshID := 101 } (studentCtx 1 99)).1.event_registrations =
      [newRegistration 101 99 1 "waitlist"] ∧
    (∀ (db : DB) (env : Env) (c : Ctx), (RegisterForEvent db env c).2.code ≠ 404) := by
  refine ⟨by decide, by decide, by decide, ?_⟩
  intro db env c
  unfold RegisterForEvent registerWrite
  cases c.user_id <;> cases c.id <;> cases env.stmt1Fails <;> cases env.stmt2Fails <;>
    simp [UnauthorizedResponse, BadRequestResponse, InternalServerErrorResponse,
      ErrorResponse, SuccessResponse]

/-! ## Uniqueness of the registration of a user for an event -/

/-- C5: from tables with at most one registration row per (event, user) pair,
every sequence of registration, cancellation, attendance and feedback requests
leaves at most one row per pair, hence at most one row that is not cancelled;
and in every such state a registration request of a user who has a row for the
event adds no row and changes nothing but the status column of that row. -/
theorem C5_registration_uniqueness (ops : List Op) (db : DB)
    (huniq : UniqueKey db.event_registrations) :
    UniqueKey (run db ops).event_registrations ∧
    (∀ e u, (run db ops).event_registrations.countP
        (fun r => isFor e u r && r.registration_status != "cancelled") ≤ 1) ∧
    (∀ (env : Env) (c : Ctx) (e u : Int), c.user_id = some u → c.id = some e →
      (∃ r ∈ (run db ops).event_registrations, isFor e u r = true) →
      (RegisterForEvent (run db ops) env c).1.event_registrations.map withoutStatus =
        (run db ops).event_registrations.map withoutStatus ∧
      (RegisterForEvent (run db ops) env c).1.event_registrations.filter
          (fun r => !isFor e u r) =
        (run db ops).event_registrations.filter (fun r => !isFor e u r)) := by
  have hu := run_UniqueKey ops db huniq
  refine ⟨hu, ?_, ?_⟩
  · intro e u
    refine le_trans (List.countP_mono_left ?_) (countP_isFor_le_one _ hu e u)
    intro r _ hr
    simp only [Bool.and_eq_true] at hr
    exact hr.1
  · intro env c e u hcu hcid hex
    rcases RegisterForEvent_rows (run db ops) env c with hsame | ⟨e2, u2, hid2, hu2, hup⟩
    · rw [hsame]
      exact ⟨rfl, rfl⟩
    · rw [hcid] at hid2
      rw [hcu] at hu2
      cases hid2
      cases hu2
      rw [hup]
      exact ⟨upsert_existing_withoutStatus _ _ _ _ _ hex, filter_others_upsert _ _ _ _ _⟩

/-- Uniqueness along the scenario of the capacity-2 event followed by a
re-registration of the student who cancelled. -/
theorem C5_registration_uniqueness_witness :
    UniqueKey (run (oneEvent 2)
      [.register { freshID := 101 } (studentCtx 1 10),
       .register { freshID := 102 } (studentCtx 2 10),
       .cancel {} (studentCtx 1 10),
       .register { freshID := 104 } (studentCtx 1 10)]).event_registrations :=
  (C5_registration_uniqueness
      [.register { freshID := 101 } (studentCtx 1 10),
       .register { freshID := 102 } (studentCtx 2 10),
       .cancel {} (studentCtx 1 10),
       .register { freshID := 104 } (studentCtx 1 10)] (oneEvent 2) (by decide)).1

/-! ## Registering twice -/

/-- C6: an event of capacity 1 without registrations; student 1 registers twice in
succession and nothing else happens in between.  The first request is answered
'confirmed', the second one counts the row of the first, finds the event full and
is answered 'waitlist', and the row of the student is overwritten with it. -/
theorem C6_second_register_demotes :
    (RegisterForEvent (oneEvent 1) { freshID := 101 } (studentCtx 1 10)).2.status =
      some "confirmed" ∧
    (RegisterForEvent (RegisterForEvent (oneEvent 1) { freshID := 101 } (studentCtx 1 10)).1
      { freshID := 102 } (studentCtx 1 10)).2.status = some "waitlist" ∧
    statusOf (RegisterForEvent
      (RegisterForEvent (oneEvent 1) { freshID := 101 } (studentCtx 1 10)).1
      { freshID := 102 } (studentCtx 1 10)).1 10 1 = some "waitlist" := by
  decide

/-! ## Cancellation -/

/-- The status `RegisterForEvent` decides after a cancellation is the one it
decides when the registration is absent. -/
theorem registrationStatusFor_cancelled (db : DB) (env : Env) (e u : Int) :
    registrationStatusFor
        (LogActivity { db with event_registrations := cancelRows db.event_registrations e u }
          env u "event_registration_cancelled" "event" e none) e =
      registrationStatusFor (withoutRegistration db e u) e := by
  simp only [registrationStatusFor, scanCapacity, capacityQuery, withoutRegistration,
    LogActivity_events, LogActivity_event_registrations, confirmedCount_cancelRows_eq]

/-- C7: a cancellation by user U for event E followed by a registration of U for
E answers with the same code and the same status as the registration served on
the tables without a row of U for E; the rows of U for E hold the same status in
both outcomes and the rows of every other pair are the same in both. -/
theorem C7_cancel_then_register_is_fresh (db : DB) (envC envR : Env) (c : Ctx)
    (e u : Int) (hu : c.user_id = some u) (hid : c.id = some e)
    (hok : envC.stmt1Fails = false) :
    (RegisterForEvent (CancelEventRegistration db envC c).1 envR c).2.code =
      (RegisterForEvent (withoutRegistration db e u) envR c).2.code ∧
    (RegisterForEvent (CancelEventRegistration db envC c).1 envR c).2.status =
      (RegisterForEvent (withoutRegistration db e u) envR c).2.status ∧
    (envR.stmt1Fails = false → envR.stmt2Fails = false →
      ∀ r1 ∈ (RegisterForEvent (CancelEventRegistration db envC c).1 envR c).1.event_registrations,
      ∀ r2 ∈ (RegisterForEvent (withoutRegistration db e u) envR c).1.event_registrations,
        isFor e u r1 = true → isFor e u r2 = true →
        r1.registration_status = r2.registration_status) ∧
    (RegisterForEvent (CancelEventRegistration db envC c).1 envR c).1.event_registrations.filter
        (fun r => !isFor e u r) =
      (RegisterForEvent (withoutRegistration db e u) envR c).1.event_registrations.filter
        (fun r => !isFor e u r) := by
  have hcancel : (CancelEventRegistration db envC c).1 =
      LogActivity { db with event_registrations := cancelRows db.event_registrations e u }
        envC u "event_registration_cancelled" "event" e none := by
    simp [CancelEventRegistration, hu, hid, hok]
  have hst := registrationStatusFor_cancelled db envC e u
  rw [hcancel]
  cases h1 : envR.stmt1Fails
  · cases h2 : envR.stmt2Fails
    · obtain ⟨hrespA, hrowsA⟩ := RegisterForEvent_ok
        (LogActivity { db with event_registrations := cancelRows db.event_registrations e u }
          envC u "event_registration_cancelled" "event" e none) envR c e u hu hid h1 h2
      obtain ⟨hrespB, hrowsB⟩ := RegisterForEvent_ok (withoutRegistration db e u) envR c e u
        hu hid h1 h2
      rw [hrespA, hrespB, hrowsA, hrowsB, hst]
      refine ⟨rfl, rfl, ?_, ?_⟩
      · intro _ _ r1 hr1 r2 hr2 hf1 hf2
        rw [(upsertRegistration_stores _ _ _ _ _).2 r1 hr1 hf1,
          (upsertRegistration_stores _ _ _ _ _).2 r2 hr2 hf2]
      · rw [filter_others_upsert, filter_others_upsert, LogActivity_event_registrations]
        simp only [withoutRegistration]
        rw [filter_others_cancelRows, List.filter_filter]
        simp
    · refine ⟨?_, ?_, ?_, ?_⟩
      · simp [RegisterForEvent, registerWrite, hu, hid, h1, h2]
      · simp [RegisterForEvent, registerWrite, hu, hid, h1, h2]
      · intro _ hcontra
        cases hcontra
      · simp only [RegisterForEvent, registerWrite, hu, hid, h1, h2, if_true,
          Bool.false_eq_true, if_false, LogActivity_event_registrations, withoutRegistration]
        rw [filter_others_cancelRows, List.filter_filter]
        simp
  · refine ⟨?_, ?_, ?_, ?_⟩
    · simp [RegisterForEvent, hu, hid, h1]
    · simp [RegisterForEvent, hu, hid, h1]
    · intro hcontra
      cases hcontra
    · simp only [RegisterForEvent, hu, hid, h1, if_true, LogActivity_event_registrations,
        withoutRegistration]
      rw [filter_others_cancelRows, List.filter_filter]
      simp

/-- Student 1 of the capacity-2 scenario, who holds a confirmed row, cancels and
registers again: the outcome is that of registering with the row absent. -/
theorem C7_cancel_then_register_is_fresh_witness :
    (∃ r ∈ scenarioC.1.event_registrations, isFor 10 1 r = true) ∧
    (RegisterForEvent (CancelEventRegistration scenarioC.1 {} (studentCtx 1 10)).1
        { freshID := 104 } (studentCtx 1 10)).2.status =
      (RegisterForEvent (withoutRegistration scenarioC.1 10 1)
        { freshID := 104 } (studentCtx 1 10)).2.status ∧
    (RegisterForEvent (withoutRegistration scenarioC.1 10 1)
        { freshID := 104 } (studentCtx 1 10)).2.status = some "confirmed" :=
  ⟨by decide,
   (C7_cancel_then_register_is_fresh scenarioC.1 {} { freshID := 104 } (studentCtx 1 10)
      10 1 rfl rfl rfl).2.1,
   by decide⟩

/-- C8: a cancellation by user U for event E that storage does not fail answers
200, turns every row of the table into itself with status 'cancelled' if it is
the row of U for E and into itself otherwise, so no row that was not confirmed
is confirmed afterwards, and a second identical request leaves the registration
table as the first one left it. -/
theorem C8_cancel_frame (db : DB) (env env2 : Env) (c : Ctx) (e u : Int)
    (hu : c.user_id = some u) (hid : c.id = some e) (hok : env.stmt1Fails = false) :
    (CancelEventRegistration db env c).2 =
      SuccessResponse 200 "Registration cancelled successfully" none ∧
    List.Forall₂
      (fun old new => new =
        if isFor e u old then { old with registration_status := "cancelled" } else old)
      db.event_registrations (CancelEventRegistration db env c).1.event_registrations ∧
    (∀ r ∈ (CancelEventRegistration db env c).1.event_registrations,
      r.registration_status = "confirmed" → r ∈ db.event_registrations) ∧
    (CancelEventRegistration (CancelEventRegistration db env c).1 env2 c).1.event_registrations =
      (CancelEventRegistration db env c).1.event_registrations := by
  have hrows : (CancelEventRegistration db env c).1.event_registrations =
      cancelRows db.event_registrations e u := by
    simp [CancelEventRegistration, hu, hid, hok]
  refine ⟨by simp [CancelEventRegistration, hu, hid, hok], ?_, ?_, ?_⟩
  · rw [hrows]
    exact forall₂_map_self _ _
  · intro r hr hconf
    rw [hrows] at hr
    rcases List.mem_map.1 hr with ⟨r0, hr0, h0⟩
    by_cases hfor : isFor e u r0 = true
    · rw [if_pos hfor] at h0
      rw [← h0] at hconf
      have hne : ("cancelled" : String) ≠ "confirmed" := by decide
      exact absurd hconf hne
    · rw [if_neg hfor] at h0
      rw [← h0]
      exact hr0
  · rcases CancelEventRegistration_rows (CancelEventRegistration db env c).1 env2 c with
      hsame | ⟨e2, u2, hid2, hu2, hup⟩
    · exact hsame
    · rw [hid] at hid2
      rw [hu] at hu2
      cases hid2
      cases hu2
      rw [hup, hrows, cancelRows_cancelRows]

/-- The cancellation of the capacity-2 scenario: student 1 holds a row for event
10 before it, and the registration table after it is the one before it with that
row cancelled. -/
theorem C8_cancel_frame_witness :
    (∃ r ∈ scenarioC.1.event_registrations, isFor 10 1 r = true) ∧
    List.Forall₂
      (fun old new => new =
        if isFor 10 1 old then { old with registration_status := "cancelled" } else old)
      scenarioC.1.event_registrations
      (CancelEventRegistration scenarioC.1 {} (studentCtx 1 10)).1.event_registrations :=
  ⟨by decide,
   (C8_cancel_frame scenarioC.1 {} {} (studentCtx 1 10) 10 1 rfl rfl rfl).2.1⟩

/-! ## The scenario of the capacity-2 event -/

/-- C9: an event of capacity 2 without registrations; students 1, 2 and 3
register in that order and are answered 'confirmed', 'confirmed' and 'waitlist';
after the cancellation of student 1 the row of student 3 is still 'waitlist', the
row of student 1 is 'cancelled' and the row of student 2 is 'confirmed'. -/
theorem C9_capacity_two_scenario :
    scenarioA.2.status = some "confirmed" ∧
    scenarioB.2.status = some "confirmed" ∧
    scenarioC.2.status = some "waitlist" ∧
    statusOf scenarioC.1 10 1 = some "confirmed" ∧
    statusOf scenarioC.1 10 2 = some "confirmed" ∧
    statusOf scenarioC.1 10 3 = some "waitlist" ∧
    scenarioCancel.2.code = 200 ∧
    statusOf scenarioCancel.1 10 3 = some "waitlist" ∧
    statusOf scenarioCancel.1 10 1 = some "cancelled" ∧
    statusOf scenarioCancel.1 10 2 = some "confirmed" ∧
    scenarioCancel.1.event_registrations.length = 3 := by
  decide

/-! ## Capacity zero -/

/-- C10: for an existing event of capacity 0, a registration request that storage
does not fail is answered 201 with status 'waitlist' whatever the registrations
are, and the row of the caller for the event holds 'waitlist' afterwards. -/
theorem C10_capacity_zero_waitlists (db : DB) (env : Env) (c : Ctx) (e u : Int)
    (ev : EventRow) (hu : c.user_id = some u) (hid : c.id = some e)
    (hev : db.events.find? (fun x => x.event_id == e) = some ev)
    (hzero : ev.capacity = 0)
    (h1 : env.stmt1Fails = false) (h2 : env.stmt2Fails = false) :
    (RegisterForEvent db env c).2.code = 201 ∧
    (RegisterForEvent db env c).2.status = some "waitlist" ∧
    (∃ r ∈ (RegisterForEvent db env c).1.event_registrations, isFor e u r = true) ∧
    (∀ r ∈ (RegisterForEvent db env c).1.event_registrations, isFor e u r = true →
      r.registration_status = "waitlist") := by
  obtain ⟨hresp, hrows⟩ := RegisterForEvent_ok db env c e u hu hid h1 h2
  have hst : registrationStatusFor db e = "waitlist" := by
    rw [registrationStatusFor_of_event db e ev hev, hzero]
    exact if_neg (by omega)
  rw [hresp, hrows, hst]
  obtain ⟨hex, hall⟩ := upsertRegistration_stores db.event_registrations env.freshID e u
    "waitlist"
  exact ⟨rfl, rfl, hex, hall⟩

/-- The first registration for an event of capacity 0 is waitlisted. -/
theorem C10_capacity_zero_waitlists_witness :
    (oneEvent 0).events.find? (fun x => x.event_id == 10) =
      some { event_id := 10, capacity := 0, status := "approved" } ∧
    (RegisterForEvent (oneEvent 0) { freshID := 101 } (studentCtx 1 10)).2.status =
      some "waitlist" :=
  ⟨by decide,
   (C10_capacity_zero_waitlists (oneEvent 0) { freshID := 101 } (studentCtx 1 10) 10 1
      { event_id := 10, capacity := 0, status := "approved" } rfl rfl (by decide) rfl rfl
      rfl).2.1⟩

/-! ## Capacity zero is not unlimited -/

/-- C11, counterexample: the event of capacity 0 has no registration at all, and
the first registration request is answered 'waitlist', not 'confirmed'. -/
theorem C11_capacity_zero_not_unlimited :
    capacityQuery (oneEvent 0) 10 = some (0, 0) ∧
    (RegisterForEvent (oneEvent 0) { freshID := 101 } (studentCtx 1 10)).2.status =
      some "waitlist" ∧
    ¬ ((RegisterForEvent (oneEvent 0) { freshID := 101 } (studentCtx 1 10)).2.status =
      some "confirmed") := by
  decide

/-- C11, amended: capacity 0 means no capacity.  For an existing event of
capacity 0 a registration request that storage does not fail is never answered
'confirmed', it is answered 'waitlist' however many confirmed registrations the
event has, and it does not raise the number of confirmed rows of the event. -/
theorem C11_capacity_zero_never_confirms (db : DB) (env : Env) (c : Ctx) (e u : Int)
    (ev : EventRow) (hu : c.user_id = some u) (hid : c.id = some e)
    (hev : db.events.find? (fun x => x.event_id == e) = some ev)
    (hzero : ev.capacity = 0)
    (h1 : env.stmt1Fails = false) (h2 : env.stmt2Fails = false) :
    (RegisterForEvent db env c).2.status ≠ some "confirmed" ∧
    (RegisterForEvent db env c).2.status = some "waitlist" ∧
    confirmedCount (RegisterForEvent db env c).1.event_registrations e ≤
      confirmedCount db.event_registrations e := by
  obtain ⟨hresp, hrows⟩ := RegisterForEvent_ok db env c e u hu hid h1 h2
  have hst : registrationStatusFor db e = "waitlist" := by
    rw [registrationStatusFor_of_event db e ev hev, hzero]
    exact if_neg (by omega)
  rw [hresp, hrows, hst]
  refine ⟨?_, rfl, ?_⟩
  · simp [Response.status, SuccessResponse]
  · exact confirmedCount_upsert_not_confirmed _ _ _ _ _ _ (by decide)

/-- A student holding a confirmed row for an event whose capacity is 0 registers
again and is waitlisted. -/
theorem C11_capacity_zero_never_confirms_witness :
    (RegisterForEvent
        { events := [{ event_id := 10, capacity := 0, status := "approved" }],
          event_registrations := [newRegistration 101 10 1 "confirmed"] }
        { freshID := 102 } (studentCtx 1 10)).2.status = some "waitlist" :=
  (C11_capacity_zero_never_confirms
      { events := [{ event_id := 10, capacity := 0, status := "approved" }],
        event_registrations := [newRegistration 101 10 1 "confirmed"] }
      { freshID := 102 } (studentCtx 1 10) 10 1
      { event_id := 10, capacity := 0, status := "approved" } rfl rfl (by decide) rfl rfl
      rfl).2.1

/-! ## Attendance -/

theorem markAttendanceRows_of_none (rows : List RegistrationRow) (e u : Int)
    (h : ∀ r ∈ rows, isFor e u r = true → r.attendance_marked = true) :
    markAttendanceRows rows e u = rows := by
  unfold markAttendanceRows
  conv_rhs => rw [← List.map_id rows]
  apply List.map_congr_left
  intro r hr
  by_cases hfor : isFor e u r = true
  · have hm := h r hr hfor
    rw [if_pos hfor, id]
    cases r
    simp only at hm
    simp [hm]
  · rw [if_neg hfor, id]

/-- A request to `MarkAttendance` that reaches the update, spelled out. -/
theorem MarkAttendance_ok (db : DB) (env : Env) (c : Ctx) (e u : Int)
    (hid : c.id = some e) (hb : bindAttendance c.body = some u)
    (hok : env.stmt1Fails = false) :
    MarkAttendance db env c =
      ({ db with event_registrations := markAttendanceRows db.event_registrations e u },
       SuccessResponse 200 "Attendance marked successfully" none) := by
  simp [MarkAttendance, hid, hb, hok]

/-- C12, counterexample: an event without registrations; the attendance request
of a moderator for student 1 is answered 200 with success, not 404. -/
theorem C12_attendance_without_row_succeeds :
    (oneEvent 2).event_registrations = [] ∧
    (MarkAttendance (oneEvent 2) {} (attendanceCtx 10 1)).2 =
      SuccessResponse 200 "Attendance marked successfully" none ∧
    ¬ ((MarkAttendance (oneEvent 2) {} (attendanceCtx 10 1)).2.code = 404) := by
  decide

/-- C12, amended: `MarkAttendance` never answers 404.  A request with a valid
event id and body that storage does not fail is answered 200 with success
whether or not a registration row exists for the pair, and when none exists the
tables are left as they were. -/
theorem C12_mark_attendance_never_not_found (db : DB) (env : Env) (c : Ctx) :
    (MarkAttendance db env c).2.code ≠ 404 ∧
    (∀ e u, c.id = some e → bindAttendance c.body = some u → env.stmt1Fails = false →
      (MarkAttendance db env c).2 =
        SuccessResponse 200 "Attendance marked successfully" none ∧
      ((∀ r ∈ db.event_registrations, isFor e u r = false) →
        (MarkAttendance db env c).1 = db)) := by
  constructor
  · unfold MarkAttendance
    cases c.id <;> cases bindAttendance c.body <;> cases env.stmt1Fails <;>
      simp [BadRequestResponse, InternalServerErrorResponse, ErrorResponse, SuccessResponse]
  · intro e u hid hb hok
    rw [MarkAttendance_ok db env c e u hid hb hok]
    refine ⟨rfl, ?_⟩
    intro hnone
    have hrows : markAttendanceRows db.event_registrations e u = db.event_registrations :=
      markAttendanceRows_of_none _ _ _ (fun r hr hfor => by
        rw [hnone r hr] at hfor
        cases hfor)
    simp only [hrows]

/-- The attendance request for a student without a registration row. -/
theorem C12_mark_attendance_never_not_found_witness :
    (MarkAttendance scenarioA.1 {} (attendanceCtx 10 3)).2 =
        SuccessResponse 200 "Attendance marked successfully" none ∧
    (MarkAttendance scenarioA.1 {} (attendanceCtx 10 3)).1 = scenarioA.1 :=
  ⟨((C12_mark_attendance_never_not_found scenarioA.1 {} (attendanceCtx 10 3)).2 10 3
      rfl rfl rfl).1,
   ((C12_mark_attendance_never_not_found scenarioA.1 {} (attendanceCtx 10 3)).2 10 3
      rfl rfl rfl).2 (by decide)⟩

/-- C13: `MarkAttendance` never adds or removes a registration row and writes no
other table of the registration engine; a request that reaches the update and is
not failed by storage turns the row of the pair into itself with
`attendance_marked` true and every other row into itself, and when the rows of
the pair already have the flag the registration table is unchanged. -/
theorem C13_mark_attendance_frame (db : DB) (env : Env) (c : Ctx) :
    (MarkAttendance db env c).1.event_registrations.length =
      db.event_registrations.length ∧
    (MarkAttendance db env c).1.events = db.events ∧
    (MarkAttendance db env c).1.event_feedback = db.event_feedback ∧
    (MarkAttendance db env c).1.activity_log = db.activity_log ∧
    (∀ e u, c.id = some e → bindAttendance c.body = some u → env.stmt1Fails = false →
      List.Forall₂
        (fun old new => new =
          if isFor e u old then { old with attendance_marked := true } else old)
        db.event_registrations (MarkAttendance db env c).1.event_registrations ∧
      ((∀ r ∈ db.event_registrations, isFor e u r = true → r.attendance_marked = true) →
        (MarkAttendance db env c).1.event_registrations = db.event_registrations)) := by
  refine ⟨?_, ?_, ?_, ?_, ?_⟩
  · rcases MarkAttendance_rows db env c with hsame | ⟨e, u, hup⟩
    · rw [hsame]
    · rw [hup, markAttendanceRows, List.length_map]
  · exact MarkAttendance_events db env c
  · unfold MarkAttendance
    cases c.id <;> cases bindAttendance c.body <;> cases env.stmt1Fails <;> simp
  · unfold MarkAttendance
    cases c.id <;> cases bindAttendance c.body <;> cases env.stmt1Fails <;> simp
  · intro e u hid hb hok
    rw [MarkAttendance_ok db env c e u hid hb hok]
    exact ⟨forall₂_map_self _ _, fun h => markAttendanceRows_of_none _ _ _ h⟩

/-- The attendance of student 1 of the capacity-2 scenario is marked: the table
is the one before with the flag set on the row of student 1, and marking it
again changes nothing. -/
theorem C13_mark_attendance_frame_witness :
    List.Forall₂
      (fun old new => new =
        if isFor 10 1 old then { old with attendance_marked := true } else old)
      scenarioC.1.event_registrations
      (MarkAttendance scenarioC.1 {} (attendanceCtx 10 1)).1.event_registrations ∧
    (MarkAttendance (MarkAttendance scenarioC.1 {} (attendanceCtx 10 1)).1 {}
        (attendanceCtx 10 1)).1.event_registrations =
      (MarkAttendance scenarioC.1 {} (attendanceCtx 10 1)).1.event_registrations :=
  ⟨((C13_mark_attendance_frame scenarioC.1 {} (attendanceCtx 10 1)).2.2.2.2 10 1
      rfl rfl rfl).1,
   ((C13_mark_attendance_frame (MarkAttendance scenarioC.1 {} (attendanceCtx 10 1)).1 {}
      (attendanceCtx 10 1)).2.2.2.2 10 1 rfl rfl rfl).2 (by decide)⟩

/-! ## Feedback -/

theorem bindFeedback_some_iff (body : Option Body) (rating : Int) (comment : String) :
    bindFeedback body = some (rating, comment) ↔
      ∃ b, body = some b ∧ b.rating.getD 0 = rating ∧ b.comment.getD "" = comment ∧
        1 ≤ rating ∧ rating ≤ 5 := by
  unfold bindFeedback
  cases body with
  | none => simp
  | some b =>
    simp only [Option.some.injEq, exists_eq_left']
    by_cases h0 : b.rating.getD 0 = 0
    · simp only [h0, if_true]
      constructor
      · intro h; cases h
      · rintro ⟨hr, _, h1, _⟩; omega
    · by_cases h1 : b.rating.getD 0 < 1
      · simp only [h0, h1, if_true, if_false]
        constructor
        · intro h; cases h
        · rintro ⟨hr, _, h1, _⟩; omega
      · by_cases h5 : b.rating.getD 0 > 5
        · simp only [h0, h1, h5, if_true, if_false]
          constructor
          · intro h; cases h
          · rintro ⟨hr, _, _, h5⟩; omega
        · simp only [h0, h1, h5, if_false, Option.some.injEq, Prod.mk.injEq]
          constructor
          · rintro ⟨hr, hc⟩
            exact ⟨hr, hc, by omega, by omega⟩
          · rintro ⟨hr, hc, _, _⟩
            exact ⟨hr, hc⟩

theorem bindFeedback_none_of_out_of_range (b : Body)
    (h : b.rating.getD 0 < 1 ∨ 5 < b.rating.getD 0) : bindFeedback (some b) = none := by
  cases hb : bindFeedback (some b) with
  | none => rfl
  | some p =>
    obtain ⟨rating, comment⟩ := p
    obtain ⟨b2, hb2, hr, _, h1, h5⟩ := (bindFeedback_some_iff _ _ _).1 hb
    cases hb2
    omega

/-- A request to `SubmitEventFeedback` that reaches the upsert, spelled out. -/
theorem SubmitEventFeedback_ok (db : DB) (env : Env) (c : Ctx) (e u rating : Int)
    (comment : String) (hu : c.user_id = some u) (hid : c.id = some e)
    (hb : bindFeedback c.body = some (rating, comment))
    (h1 : env.stmt1Fails = false) :
    (SubmitEventFeedback db env c).2 =
      SuccessResponse 201 "Feedback submitted successfully" none ∧
    (SubmitEventFeedback db env c).1.event_feedback =
      upsertFeedback db.event_feedback e u rating comment ∧
    (SubmitEventFeedback db env c).1.event_registrations =
      (if env.stmt2Fails then db.event_registrations
       else markFeedbackRows db.event_registrations e u) ∧
    (SubmitEventFeedback db env c).1.events = db.events := by
  unfold SubmitEventFeedback
  cases h2 : env.stmt2Fails <;> cases hl : env.logFails <;>
    simp [hu, hid, hb, h1, h2, hl, LogActivity]

theorem feedbackOf_upsertFeedback_same (rows : List FeedbackRow) (e u rating : Int)
    (comment : String) :
    feedbackOf (upsertFeedback rows e u rating comment) e u = some (rating, comment) := by
  unfold feedbackOf upsertFeedback
  split
  · rename_i hany
    induction rows with
    | nil => simp at hany
    | cons f rows ih =>
      by_cases hf : (f.event_id == e && f.user_id == u) = true
      · have hf3 : isFeedbackFor e u { f with rating := rating, comment := comment }
            = true := by
          simpa [isFeedbackFor] using hf
        simp only [List.map_cons, if_pos hf, List.find?_cons, hf3, Option.map_some']
      · have hany2 : rows.any (fun f => f.event_id == e && f.user_id == u) = true := by
          simpa [List.any_cons, hf] using hany
        have hf2 : isFeedbackFor e u f = false := by
          simpa [isFeedbackFor] using hf
        simp only [List.map_cons, if_neg hf, List.find?_cons, hf2]
        exact ih hany2
  · rename_i hany
    have hnone : rows.find? (isFeedbackFor e u) = none := by
      rw [List.find?_eq_none]
      intro f hf hfor
      exact hany (List.any_eq_true.2 ⟨f, hf, by simpa [isFeedbackFor] using hfor⟩)
    simp [List.find?_append, hnone, isFeedbackFor]

/-- C14: for an authenticated caller, a feedback request whose rating is outside
1..5 (a missing rating binds to 0) is answered 400 'bad_request' and leaves every
table as it was: no feedback row, no registration change, no activity-log entry.
With a valid event id, a rating in 1..5 and the upsert not failed by storage the
request is answered 201 with success. -/
theorem C14_feedback_rating_validation (db : DB) (env : Env) (c : Ctx) (u : Int)
    (b : Body) (hu : c.user_id = some u) (hb : c.body = some b) :
    ((b.rating.getD 0 < 1 ∨ 5 < b.rating.getD 0) →
      (SubmitEventFeedback db env c).2.code = 400 ∧
      (SubmitEventFeedback db env c).2.success = false ∧
      (SubmitEventFeedback db env c).2.error = "bad_request" ∧
      (SubmitEventFeedback db env c).1 = db) ∧
    (∀ e, c.id = some e → 1 ≤ b.rating.getD 0 → b.rating.getD 0 ≤ 5 →
      env.stmt1Fails = false →
      (SubmitEventFeedback db env c).2 =
        SuccessResponse 201 "Feedback submitted successfully" none ∧
      feedbackOf (SubmitEventFeedback db env c).1.event_feedback e u =
        some (b.rating.getD 0, b.comment.getD "")) := by
  constructor
  · intro hout
    have hnone : bindFeedback c.body = none := by
      rw [hb]
      exact bindFeedback_none_of_out_of_range b hout
    unfold SubmitEventFeedback
    cases c.id <;> simp [hu, hnone, BadRequestResponse, ErrorResponse]
  · intro e hid h1 h5 hok
    have hsome : bindFeedback c.body = some (b.rating.getD 0, b.comment.getD "") :=
      (bindFeedback_some_iff _ _ _).2 ⟨b, hb, rfl, rfl, h1, h5⟩
    obtain ⟨hresp, hfb, _, _⟩ := SubmitEventFeedback_ok db env c e u _ _ hu hid hsome hok
    refine ⟨hresp, ?_⟩
    rw [hfb]
    exact feedbackOf_upsertFeedback_same _ _ _ _ _

/-- Ratings 6 and 0 are refused and change nothing; rating 5 is accepted. -/
theorem C14_feedback_rating_validation_witness :
    ((SubmitEventFeedback scenarioC.1 {} (feedbackCtx 1 10 6 "late")).2.code = 400 ∧
      (SubmitEventFeedback scenarioC.1 {} (feedbackCtx 1 10 6 "late")).2.success = false ∧
      (SubmitEventFeedback scenarioC.1 {} (feedbackCtx 1 10 6 "late")).2.error =
        "bad_request" ∧
      (SubmitEventFeedback scenarioC.1 {} (feedbackCtx 1 10 6 "late")).1 = scenarioC.1) ∧
    ((SubmitEventFeedback scenarioC.1 {} (feedbackCtx 1 10 0 "late")).2.code = 400 ∧
      (SubmitEventFeedback scenarioC.1 {} (feedbackCtx 1 10 0 "late")).2.success = false ∧
      (SubmitEventFeedback scenarioC.1 {} (feedbackCtx 1 10 0 "late")).2.error =
        "bad_request" ∧
      (SubmitEventFeedback scenarioC.1 {} (feedbackCtx 1 10 0 "late")).1 = scenarioC.1) ∧
    (SubmitEventFeedback scenarioC.1 {} (feedbackCtx 1 10 5 "good")).2 =
      SuccessResponse 201 "Feedback submitted successfully" none :=
  ⟨(C14_feedback_rating_validation scenarioC.1 {} (feedbackCtx 1 10 6 "late") 1
      { rating := some 6, comment := some "late" } rfl rfl).1 (by decide),
   (C14_feedback_rating_validation scenarioC.1 {} (feedbackCtx 1 10 0 "late") 1
      { rating := some 0, comment := some "late" } rfl rfl).1 (by decide),
   ((C14_feedback_rating_validation scenarioC.1 {} (feedbackCtx 1 10 5 "good") 1
      { rating := some 5, comment := some "good" } rfl rfl).2 10 rfl (by decide)
      (by decide) rfl).1⟩

theorem markFeedbackRows_of_none (rows : List RegistrationRow) (e u : Int)
    (h : ∀ r ∈ rows, isFor e u r = true → r.feedback_submitted = true) :
    markFeedbackRows rows e u = rows := by
  unfold markFeedbackRows
  conv_rhs => rw [← List.map_id rows]
  apply List.map_congr_left
  intro r hr
  by_cases hfor : isFor e u r = true
  · have hm := h r hr hfor
    rw [if_pos hfor, id]
    cases r
    simp only at hm
    simp [hm]
  · rw [if_neg hfor, id]

/-- C16: a feedback request with a valid rating whose upsert storage does not
fail is answered 201 with success whether or not a registration row exists for
the pair.  When the flag update is not failed either, the row of the pair
becomes itself with `feedback_submitted` true, every other row stays itself, no
row is added, and without a row of the pair the registration table is
unchanged. -/
theorem C16_feedback_flags_registration (db : DB) (env : Env) (c : Ctx)
    (e u rating : Int) (comment : String)
    (hu : c.user_id = some u) (hid : c.id = some e)
    (hb : bindFeedback c.body = some (rating, comment))
    (h1 : env.stmt1Fails = false) :
    (SubmitEventFeedback db env c).2 =
      SuccessResponse 201 "Feedback submitted successfully" none ∧
    (env.stmt2Fails = false →
      List.Forall₂
        (fun old new => new =
          if isFor e u old then { old with feedback_submitted := true } else old)
        db.event_registrations (SubmitEventFeedback db env c).1.event_registrations) ∧
    ((∀ r ∈ db.event_registrations, isFor e u r = false) →
      (SubmitEventFeedback db env c).1.event_registrations = db.event_registrations) := by
  obtain ⟨hresp, _, hrows, _⟩ := SubmitEventFeedback_ok db env c e u rating comment hu hid hb h1
  refine ⟨hresp, ?_, ?_⟩
  · intro h2
    rw [hrows, h2]
    exact forall₂_map_self _ _
  · intro hnone
    rw [hrows]
    split
    · rfl
    · exact markFeedbackRows_of_none _ _ _ (fun r hr hfor => by
        rw [hnone r hr] at hfor
        cases hfor)

/-- Student 1 of the capacity-2 scenario, who holds a row, and student 4, who
holds none, both submit feedback and both are answered with success; the table
of the second request is unchanged. -/
theorem C16_feedback_flags_registration_witness :
    (SubmitEventFeedback scenarioC.1 {} (feedbackCtx 1 10 4 "good")).2 =
      SuccessResponse 201 "Feedback submitted successfully" none ∧
    List.Forall₂
      (fun old new => new =
        if isFor 10 1 old then { old with feedback_submitted := true } else old)
      scenarioC.1.event_registrations
      (SubmitEventFeedback scenarioC.1 {} (feedbackCtx 1 10 4 "good")).1.event_registrations ∧
    (SubmitEventFeedback scenarioC.1 {} (feedbackCtx 4 10 4 "good")).2 =
      SuccessResponse 201 "Feedback submitted successfully" none ∧
    (SubmitEventFeedback scenarioC.1 {} (feedbackCtx 4 10 4 "good")).1.event_registrations =
      scenarioC.1.event_registrations :=
  ⟨(C16_feedback_flags_registration scenarioC.1 {} (feedbackCtx 1 10 4 "good") 10 1 4 "good"
      rfl rfl (by decide) rfl).1,
   (C16_feedback_flags_registration scenarioC.1 {} (feedbackCtx 1 10 4 "good") 10 1 4 "good"
      rfl rfl (by decide) rfl).2.1 rfl,
   (C16_feedback_flags_registration scenarioC.1 {} (feedbackCtx 4 10 4 "good") 10 4 4 "good"
      rfl rfl (by decide) rfl).1,
   (C16_feedback_flags_registration scenarioC.1 {} (feedbackCtx 4 10 4 "good") 10 4 4 "good"
      rfl rfl (by decide) rfl).2.2 (by decide)⟩

/-! ## Moderation -/

theorem RoleMiddleware_of_other_role (c : Ctx) (role : String)
    (hrole : c.role = some role) (hne : role ≠ "system_admin") :
    RoleMiddleware ["system_admin"] c =
      some (ForbiddenResponse "Insufficient permissions") := by
  simp [RoleMiddleware, hrole, hne]

/-- C18: `ApproveEvent` and `ApproveNews` called with a role other than
'system_admin' answer 403 'forbidden' and leave every table as it was, and so do
their routes, where `RoleMiddleware("system_admin")` aborts the request before
the handler. -/
theorem C18_non_admin_is_forbidden (db : DB) (env : Env) (c : Ctx) (role : String)
    (hrole : c.role = some role) (hne : role ≠ "system_admin") :
    ApproveEvent db env c =
      (db, ForbiddenResponse "Only system admins can approve events") ∧
    ApproveNews db env c =
      (db, ForbiddenResponse "Only system admins can approve news") ∧
    routeApproveEvent db env c = (db, ForbiddenResponse "Insufficient permissions") ∧
    routeApproveNews db env c = (db, ForbiddenResponse "Insufficient permissions") ∧
    (∀ message, (ForbiddenResponse message).code = 403 ∧
      (ForbiddenResponse message).success = false ∧
      (ForbiddenResponse message).error = "forbidden") := by
  have hc : c.role ≠ some "system_admin" := by
    rw [hrole]
    intro h
    exact hne (Option.some.inj h)
  refine ⟨?_, ?_, ?_, ?_, ?_⟩
  · unfold ApproveEvent
    rw [if_pos hc]
  · unfold ApproveNews
    rw [if_pos hc]
  · unfold routeApproveEvent behindRole
    rw [RoleMiddleware_of_other_role c role hrole hne]
  · unfold routeApproveNews behindRole
    rw [RoleMiddleware_of_other_role c role hrole hne]
  · intro message
    exact ⟨rfl, rfl, rfl⟩

/-- A club moderator approves the pending event 10 and the pending news post 7:
both requests are refused and nothing changes. -/
theorem C18_non_admin_is_forbidden_witness :
    ApproveEvent (oneEventWithStatus "pending") { now := 200 }
        (roleCtx 50 "club_moderator" 10) =
      (oneEventWithStatus "pending",
        ForbiddenResponse "Only system admins can approve events") ∧
    ApproveNews (oneNews "pending" none) { now := 200 } (roleCtx 50 "club_moderator" 7) =
      (oneNews "pending" none, ForbiddenResponse "Only system admins can approve news") :=
  ⟨(C18_non_admin_is_forbidden (oneEventWithStatus "pending") { now := 200 }
      (roleCtx 50 "club_moderator" 10) "club_moderator" rfl (by decide)).1,
   (C18_non_admin_is_forbidden (oneNews "pending" none) { now := 200 }
      (roleCtx 50 "club_moderator" 7) "club_moderator" rfl (by decide)).2.1⟩

/-- A request of an administrator to `ApproveNews` that storage does not fail,
spelled out. -/
theorem ApproveNews_ok (db : DB) (env : Env) (c : Ctx) (n : Int)
    (hrole : c.role = some "system_admin") (hid : c.id = some n)
    (hok : env.stmt1Fails = false) :
    ApproveNews db env c =
      ({ db with news := publishNews db.news n env.now },
       SuccessResponse 200 "News approved successfully" none) := by
  simp [ApproveNews, hrole, hid, hok]

/-- A request of an administrator to `ApproveEvent` that storage does not fail,
spelled out. -/
theorem ApproveEvent_ok (db : DB) (env : Env) (c : Ctx) (n : Int)
    (hrole : c.role = some "system_admin") (hid : c.id = some n)
    (hok : env.stmt1Fails = false) :
    ApproveEvent db env c =
      ({ db with events := setEventStatus db.events n "approved" env.now },
       SuccessResponse 200 "Event approved successfully" none) := by
  simp [ApproveEvent, hrole, hid, hok]

theorem RejectNews_news (db : DB) (env : Env) (c : Ctx) :
    (RejectNews db env c).1.news = db.news ∨
    ∃ n, (RejectNews db env c).1.news = rejectNewsRows db.news n env.now := by
  unfold RejectNews
  by_cases hrole : c.role ≠ some "system_admin"
  · rw [if_pos hrole]
    exact Or.inl rfl
  · rw [if_neg hrole]
    cases c.id with
    | none => exact Or.inl rfl
    | some n =>
      cases env.stmt1Fails
      · exact Or.inr ⟨n, rfl⟩
      · exact Or.inl rfl

/-- C19, counterexample: news post 7 is published with publication time 100; an
administrator approves it again at time 200, the request is answered with
success and the publication time of the post is 200. -/
theorem C19_reapprove_rewrites_published_at :
    (oneNews "published" (some 100)).news =
      [{ news_id := 7, status := "published", published_at := some 100,
         updated_at := 100 }] ∧
    routeApproveNews (oneNews "published" (some 100)) { now := 200 }
        (roleCtx 99 "system_admin" 7) =
      ({ news := [{ news_id := 7, status := "published", published_at := some 200,
                    updated_at := 200 }] },
        SuccessResponse 200 "News approved successfully" none) ∧
    ¬ ((ApproveNews (oneNews "published" (some 100)) { now := 200 }
          (roleCtx 99 "system_admin" 7)).1.news.map (fun n => n.published_at) =
        (oneNews "published" (some 100)).news.map (fun n => n.published_at)) := by
  decide

/-- C19, amended: every request of an administrator to `ApproveNews` that
storage does not fail writes `published_at`: the post with the id of the request
becomes itself with status 'published' and with publication and update time the
current time, whatever its status was, and every other post stays itself.
`RejectNews` changes the publication time of no post. -/
theorem C19_approve_always_writes_published_at (db : DB) (env : Env) (c : Ctx) (n : Int)
    (hrole : c.role = some "system_admin") (hid : c.id = some n)
    (hok : env.stmt1Fails = false) :
    List.Forall₂
      (fun old new => new =
        if old.news_id == n
        then { old with status := "published", published_at := some env.now,
                        updated_at := env.now }
        else old)
      db.news (ApproveNews db env c).1.news ∧
    (∀ (env2 : Env) (c2 : Ctx),
      (RejectNews db env2 c2).1.news.map (fun x => x.published_at) =
        db.news.map (fun x => x.published_at)) := by
  constructor
  · rw [ApproveNews_ok db env c n hrole hid hok]
    exact forall₂_map_self _ _
  · intro env2 c2
    rcases RejectNews_news db env2 c2 with hsame | ⟨m, hup⟩
    · rw [hsame]
    · rw [hup, rejectNewsRows, List.map_map]
      apply List.map_congr_left
      intro x _
      simp only [Function.comp]
      split <;> rfl

/-- The pending news post 7 is approved at time 200 and approved again at time
300: each request writes the publication time. -/
theorem C19_approve_always_writes_published_at_witness :
    List.Forall₂
      (fun old new => new =
        if old.news_id == 7
        then { old with status := "published", published_at := some 300, updated_at := 300 }
        else old)
      (ApproveNews (oneNews "pending" none) { now := 200 }
        (roleCtx 99 "system_admin" 7)).1.news
      (ApproveNews (ApproveNews (oneNews "pending" none) { now := 200 }
        (roleCtx 99 "system_admin" 7)).1 { now := 300 }
        (roleCtx 99 "system_admin" 7)).1.news :=
  (C19_approve_always_writes_published_at
    (ApproveNews (oneNews "pending" none) { now := 200 } (roleCtx 99 "system_admin" 7)).1
    { now := 300 } (roleCtx 99 "system_admin" 7) 7 rfl rfl rfl).1

/-- C20, counterexample: the rejected event 10 and the rejected news post 7 are
approved by an administrator; both requests are answered 200 with success, not
with a conflict, and the entities are moved to 'approved' and 'published'. -/
theorem C20_approve_moves_rejected :
    routeApproveEvent (oneEventWithStatus "rejected") { now := 200 }
        (roleCtx 99 "system_admin" 10) =
      ({ events := [{ event_id := 10, capacity := 2, status := "approved",
                      updated_at := 200 }] },
        SuccessResponse 200 "Event approved successfully" none) ∧
    routeApproveNews (oneNews "rejected" none) { now := 200 }
        (roleCtx 99 "system_admin" 7) =
      ({ news := [{ news_id := 7, status := "published", published_at := some 200,
                    updated_at := 200 }] },
        SuccessResponse 200 "News approved successfully" none) ∧
    ¬ ((ApproveEvent (oneEventWithStatus "rejected") { now := 200 }
          (roleCtx 99 "system_admin" 10)).1 = oneEventWithStatus "rejected" ∨
       (ApproveEvent (oneEventWithStatus "rejected") { now := 200 }
          (roleCtx 99 "system_admin" 10)).2.code = 409) := by
  decide

/-- C20, amended: approve is accepted from every status.  No request to
`ApproveEvent` or `ApproveNews` is answered with a conflict (409); a request of
an administrator that storage does not fail is answered 200 and sets the status
of the entity with the id of the request to 'approved' or 'published' whatever
it was, a rejected entity included, and a second approve leaves every status as
the first one left it. -/
theorem C20_approve_accepted_from_every_status (db : DB) (env : Env) (c : Ctx) :
    (ApproveEvent db env c).2.code ≠ 409 ∧
    (ApproveNews db env c).2.code ≠ 409 ∧
    (∀ n, c.role = some "system_admin" → c.id = some n → env.stmt1Fails = false →
      (ApproveEvent db env c).2 = SuccessResponse 200 "Event approved successfully" none ∧
      List.Forall₂
        (fun old new => new =
          if old.event_id == n
          then { old with status := "approved", updated_at := env.now } else old)
        db.events (ApproveEvent db env c).1.events ∧
      (ApproveNews db env c).2 = SuccessResponse 200 "News approved successfully" none ∧
      (∀ x ∈ (ApproveNews db env c).1.news, x.news_id = n → x.status = "published") ∧
      (∀ env2 : Env, env2.stmt1Fails = false →
        (ApproveEvent (ApproveEvent db env c).1 env2 c).1.events.map (fun x => x.status) =
          (ApproveEvent db env c).1.events.map (fun x => x.status) ∧
        (ApproveNews (ApproveNews db env c).1 env2 c).1.news.map (fun x => x.status) =
          (ApproveNews db env c).1.news.map (fun x => x.status))) := by
  refine ⟨?_, ?_, ?_⟩
  · unfold ApproveEvent
    by_cases hrole : c.role ≠ some "system_admin"
    · rw [if_pos hrole]
      simp [ForbiddenResponse, ErrorResponse]
    · rw [if_neg hrole]
      cases c.id <;> cases env.stmt1Fails <;>
        simp [BadRequestResponse, InternalServerErrorResponse, ErrorResponse,
          SuccessResponse]
  · unfold ApproveNews
    by_cases hrole : c.role ≠ some "system_admin"
    · rw [if_pos hrole]
      simp [ForbiddenResponse, ErrorResponse]
    · rw [if_neg hrole]
      cases c.id <;> cases env.stmt1Fails <;>
        simp [BadRequestResponse, InternalServerErrorResponse, ErrorResponse,
          SuccessResponse]
  · intro n hrole hid hok
    refine ⟨?_, ?_, ?_, ?_, ?_⟩
    · rw [ApproveEvent_ok db env c n hrole hid hok]
    · rw [ApproveEvent_ok db env c n hrole hid hok]
      exact forall₂_map_self _ _
    · rw [ApproveNews_ok db env c n hrole hid hok]
    · rw [ApproveNews_ok db env c n hrole hid hok]
      intro x hx hxn
      rcases List.mem_map.1 hx with ⟨y, _, hy⟩
      by_cases hyn : (y.news_id == n) = true
      · rw [if_pos hyn] at hy
        rw [← hy]
      · rw [if_neg hyn] at hy
        rw [hy] at hyn
        exact absurd (by simpa using hxn) hyn
    · intro env2 hok2
      constructor
      · rw [ApproveEvent_ok _ env2 c n hrole hid hok2, ApproveEvent_ok db env c n hrole hid hok]
        simp only [setEventStatus, List.map_map]
        apply List.map_congr_left
        intro x _
        simp only [Function.comp]
        by_cases hx : (x.event_id == n) = true
        · simp [hx]
        · simp [hx]
      · rw [ApproveNews_ok _ env2 c n hrole hid hok2, ApproveNews_ok db env c n hrole hid hok]
        simp only [publishNews, List.map_map]
        apply List.map_congr_left
        intro x _
        simp only [Function.comp]
        by_cases hx : (x.news_id == n) = true
        · simp [hx]
        · simp [hx]

/-- The approved event 10 is approved a second time: the request is answered
with success and the status stays 'approved'. -/
theorem C20_approve_accepted_from_every_status_witness :
    (ApproveEvent (oneEventWithStatus "approved") { now := 200 }
        (roleCtx 99 "system_admin" 10)).2 =
      SuccessResponse 200 "Event approved successfully" none ∧
    List.Forall₂
      (fun old new => new =
        if old.event_id == 10 then { old with status := "approved", updated_at := 200 }
        else old)
      (oneEventWithStatus "approved").events
      (ApproveEvent (oneEventWithStatus "approved") { now := 200 }
        (roleCtx 99 "system_admin" 10)).1.events :=
  ⟨((C20_approve_accepted_from_every_status (oneEventWithStatus "approved") { now := 200 }
      (roleCtx 99 "system_admin" 10)).2.2 10 rfl rfl rfl).1,
   ((C20_approve_accepted_from_every_status (oneEventWithStatus "approved") { now := 200 }
      (roleCtx 99 "system_admin" 10)).2.2 10 rfl rfl rfl).2.1⟩

/-! ## The feedback upsert -/

theorem isFeedbackFor_iff (e u : Int) (f : FeedbackRow) :
    isFeedbackFor e u f = true ↔ f.event_id = e ∧ f.user_id = u := by
  simp [isFeedbackFor]

theorem upsertFeedback_eq (rows : List FeedbackRow) (e u rating : Int) (comment : String) :
    upsertFeedback rows e u rating comment =
      if rows.any (isFeedbackFor e u) then
        rows.map (fun f =>
          if isFeedbackFor e u f then { f with rating := rating, comment := comment } else f)
      else rows ++ [{ event_id := e, user_id := u, rating := rating, comment := comment }] :=
  rfl

theorem FeedbackUnique_upsertFeedback (rows : List FeedbackRow) (e u rating : Int)
    (comment : String) (h : FeedbackUnique rows) :
    FeedbackUnique (upsertFeedback rows e u rating comment) := by
  rw [upsertFeedback_eq]
  split
  · unfold FeedbackUnique at *
    rw [List.map_map]
    have hkeys : (rows.map ((fun f : FeedbackRow => (f.event_id, f.user_id)) ∘ fun f =>
        if isFeedbackFor e u f then { f with rating := rating, comment := comment } else f))
        = rows.map (fun f => (f.event_id, f.user_id)) := by
      apply List.map_congr_left
      intro f _
      simp only [Function.comp]
      split <;> rfl
    rw [hkeys]
    exact h
  · rename_i hany
    unfold FeedbackUnique at *
    rw [List.map_append, List.nodup_append]
    refine ⟨h, by simp, ?_⟩
    simp only [List.map_cons, List.map_nil, List.disjoint_singleton]
    intro hmem
    apply hany
    rcases List.mem_map.1 hmem with ⟨f, hf, hk⟩
    simp only [Prod.mk.injEq] at hk
    exact List.any_eq_true.2 ⟨f, hf, (isFeedbackFor_iff e u f).2 hk⟩

/-- An upsert for one pair leaves the feedback stored for every other pair. -/
theorem feedbackOf_upsertFeedback_other (rows : List FeedbackRow) (e u rating : Int)
    (comment : String) (e2 u2 : Int) (hne : ¬ (e = e2 ∧ u = u2)) :
    feedbackOf (upsertFeedback rows e u rating comment) e2 u2 = feedbackOf rows e2 u2 := by
  have hnew : isFeedbackFor e2 u2
      { event_id := e, user_id := u, rating := rating, comment := comment } = false := by
    cases h : isFeedbackFor e2 u2
      { event_id := e, user_id := u, rating := rating, comment := comment } with
    | false => rfl
    | true => exact absurd ((isFeedbackFor_iff _ _ _).1 h) hne
  rw [upsertFeedback_eq]
  unfold feedbackOf
  split
  · rename_i hany
    clear hany
    induction rows with
    | nil => rfl
    | cons f rows ih =>
      by_cases hf : isFeedbackFor e u f = true
      · have hf2 : isFeedbackFor e2 u2 f = false := by
          cases h : isFeedbackFor e2 u2 f with
          | false => rfl
          | true =>
            have h1 := (isFeedbackFor_iff _ _ _).1 hf
            have h2 := (isFeedbackFor_iff _ _ _).1 h
            exact absurd ⟨h1.1.symm.trans h2.1, h1.2.symm.trans h2.2⟩ hne
        have hf3 : isFeedbackFor e2 u2 { f with rating := rating, comment := comment }
            = false := by
          simpa [isFeedbackFor] using hf2
        simp only [List.map_cons, if_pos hf, List.find?_cons, hf2, hf3]
        exact ih
      · simp only [List.map_cons, if_neg hf, List.find?_cons]
        cases h2 : isFeedbackFor e2 u2 f
        · exact ih
        · rfl
  · rw [List.find?_append]
    cases rows.find? (isFeedbackFor e2 u2) with
    | some f => rfl
    | none => simp [List.find?_cons, hnew]

/-- Under the unique index every row of a pair is the row the lookup finds. -/
theorem feedback_row_of_lookup (rows : List FeedbackRow) (e u : Int) (p : Int × String)
    (huniq : FeedbackUnique rows) (hp : feedbackOf rows e u = some p) (f : FeedbackRow)
    (hf : f ∈ rows) (hfor : isFeedbackFor e u f = true) : (f.rating, f.comment) = p := by
  unfold feedbackOf at hp
  cases hfind : rows.find? (isFeedbackFor e u) with
  | none => rw [hfind] at hp; cases hp
  | some g =>
    rw [hfind] at hp
    simp only [Option.map_some', Option.some.injEq] at hp
    have hg := List.mem_of_find?_eq_some hfind
    have hgfor := List.find?_some hfind
    have hkey : (fun x : FeedbackRow => (x.event_id, x.user_id)) f
        = (fun x : FeedbackRow => (x.event_id, x.user_id)) g := by
      have h1 := (isFeedbackFor_iff _ _ _).1 hfor
      have h2 := (isFeedbackFor_iff _ _ _).1 hgfor
      simp only [Prod.mk.injEq]
      exact ⟨h1.1.trans h2.1.symm, h1.2.trans h2.2.symm⟩
    have hfg : f = g := List.inj_on_of_nodup_map huniq hf hg hkey
    rw [hfg]
    exact hp

/-- Under the unique index an upsert of what is stored changes nothing. -/
theorem upsertFeedback_of_stored (rows : List FeedbackRow) (e u rating : Int)
    (comment : String) (huniq : FeedbackUnique rows)
    (hp : feedbackOf rows e u = some (rating, comment)) :
    upsertFeedback rows e u rating comment = rows := by
  have hany : rows.any (isFeedbackFor e u) = true := by
    unfold feedbackOf at hp
    cases hfind : rows.find? (isFeedbackFor e u) with
    | none => rw [hfind] at hp; cases hp
    | some g =>
      exact List.any_eq_true.2 ⟨g, List.mem_of_find?_eq_some hfind, List.find?_some hfind⟩
  rw [upsertFeedback_eq, if_pos hany]
  conv_rhs => rw [← List.map_id rows]
  apply List.map_congr_left
  intro f hf
  by_cases hfor : isFeedbackFor e u f = true
  · have hrow := feedback_row_of_lookup rows e u _ huniq hp f hf hfor
    simp only [Prod.mk.injEq] at hrow
    rw [if_pos hfor, id]
    cases f
    simp only at hrow
    simp [hrow.1, hrow.2]
  · rw [if_neg hfor, id]

theorem countP_isFeedbackFor_eq_one (rows : List FeedbackRow) (e u : Int)
    (p : Int × String) (huniq : FeedbackUnique rows) (hp : feedbackOf rows e u = some p) :
    rows.countP (isFeedbackFor e u) = 1 := by
  have hle : rows.countP (isFeedbackFor e u) ≤ 1 := by
    have hcount := List.nodup_iff_count_le_one.1 huniq (e, u)
    unfold List.count at hcount
    rw [List.countP_map] at hcount
    refine le_trans (le_of_eq ?_) hcount
    apply List.countP_congr
    intro f _
    rw [isFeedbackFor_iff]
    show _ ↔ decide ((f.event_id, f.user_id) = (e, u)) = true
    rw [decide_eq_true_iff, Prod.mk.injEq]
  have hpos : 0 < rows.countP (isFeedbackFor e u) := by
    unfold feedbackOf at hp
    cases hfind : rows.find? (isFeedbackFor e u) with
    | none => rw [hfind] at hp; cases hp
    | some g =>
      exact List.countP_pos_iff.2 ⟨g, List.mem_of_find?_eq_some hfind, List.find?_some hfind⟩
  omega

/-- The feedback table after a request, by what the request submits. -/
theorem SubmitEventFeedback_feedback (db : DB) (env : Env) (c : Ctx) :
    (SubmitEventFeedback db env c).1.event_feedback =
      match submission env c with
      | some (e, u, rating, comment) => upsertFeedback db.event_feedback e u rating comment
      | none => db.event_feedback := by
  unfold SubmitEventFeedback submission
  cases c.user_id <;> cases c.id <;> cases hb : bindFeedback c.body <;>
    cases h1 : env.stmt1Fails <;> cases h2 : env.stmt2Fails <;> cases hl : env.logFails <;>
    simp [LogActivity, hl]

/-- A feedback request is answered 201 exactly when it submits something. -/
theorem SubmitEventFeedback_created_iff (db : DB) (env : Env) (c : Ctx) :
    (SubmitEventFeedback db env c).2.code = 201 ↔ (submission env c).isSome = true := by
  unfold SubmitEventFeedback submission
  cases c.user_id <;> cases c.id <;> cases hb : bindFeedback c.body <;>
    cases h1 : env.stmt1Fails <;>
    simp [UnauthorizedResponse, BadRequestResponse, InternalServerErrorResponse,
      ErrorResponse, SuccessResponse]

theorem submission_rating_range (env : Env) (c : Ctx) (e u rating : Int)
    (comment : String) (h : submission env c = some (e, u, rating, comment)) :
    1 ≤ rating ∧ rating ≤ 5 := by
  unfold submission at h
  cases hu : c.user_id with
  | none => simp [hu] at h
  | some u2 =>
    cases hid : c.id with
    | none => simp [hu, hid] at h
    | some e2 =>
      cases hb : bindFeedback c.body with
      | none => simp [hu, hid, hb] at h
      | some p =>
        obtain ⟨r2, cm2⟩ := p
        cases h1 : env.stmt1Fails with
        | true => simp [hu, hid, hb, h1] at h
        | false =>
          simp only [hu, hid, hb, h1, Bool.false_eq_true, if_false, Option.some.injEq,
            Prod.mk.injEq] at h
          obtain ⟨_, _, hr, _⟩ := h
          obtain ⟨_, _, _, _, hlo, hhi⟩ := (bindFeedback_some_iff _ _ _).1 hb
          rw [← hr]
          exact ⟨hlo, hhi⟩

theorem runFeedback_cons (db : DB) (call : Env × Ctx) (calls : List (Env × Ctx)) :
    runFeedback db (call :: calls) =
      runFeedback (SubmitEventFeedback db call.1 call.2).1 calls := rfl

theorem SubmitEventFeedback_FeedbackUnique (db : DB) (env : Env) (c : Ctx)
    (h : FeedbackUnique db.event_feedback) :
    FeedbackUnique (SubmitEventFeedback db env c).1.event_feedback := by
  rw [SubmitEventFeedback_feedback]
  cases submission env c with
  | none => exact h
  | some p =>
    obtain ⟨e, u, rating, comment⟩ := p
    exact FeedbackUnique_upsertFeedback _ _ _ _ _ h

theorem runFeedback_FeedbackUnique (calls : List (Env × Ctx)) (db : DB)
    (h : FeedbackUnique db.event_feedback) :
    FeedbackUnique (runFeedback db calls).event_feedback := by
  induction calls generalizing db with
  | nil => exact h
  | cons call calls ih =>
    rw [runFeedback_cons]
    exact ih _ (SubmitEventFeedback_FeedbackUnique db call.1 call.2 h)

/-- The feedback stored for a pair after a sequence of requests is that of the
most recent submission for the pair, or what was stored before when the
sequence has none. -/
theorem feedbackOf_runFeedback (calls : List (Env × Ctx)) (db : DB) (e u : Int) :
    feedbackOf (runFeedback db calls).event_feedback e u =
      match lastSubmission calls e u with
      | some p => some p
      | none => feedbackOf db.event_feedback e u := by
  induction calls generalizing db with
  | nil => rfl
  | cons call calls ih =>
    obtain ⟨env, c⟩ := call
    rw [runFeedback_cons, ih]
    simp only [lastSubmission]
    cases lastSubmission calls e u with
    | some p => rfl
    | none =>
      simp only
      rw [SubmitEventFeedback_feedback]
      cases hs : submission env c with
      | none => rfl
      | some q =>
        obtain ⟨e2, u2, rating, comment⟩ := q
        simp only
        by_cases hsame : e2 = e ∧ u2 = u
        · rw [if_pos hsame]
          obtain ⟨he, hu⟩ := hsame
          subst he
          subst hu
          exact feedbackOf_upsertFeedback_same _ _ _ _ _
        · rw [if_neg hsame]
          exact feedbackOf_upsertFeedback_other _ _ _ _ _ _ _ hsame

theorem lastSubmission_rating_range (calls : List (Env × Ctx)) (e u rating : Int)
    (comment : String) (h : lastSubmission calls e u = some (rating, comment)) :
    1 ≤ rating ∧ rating ≤ 5 := by
  induction calls with
  | nil => cases h
  | cons call calls ih =>
    obtain ⟨env, c⟩ := call
    simp only [lastSubmission] at h
    cases hl : lastSubmission calls e u with
    | some p =>
      rw [hl] at h
      simp only [Option.some.injEq] at h
      exact ih (by rw [hl, h])
    | none =>
      rw [hl] at h
      simp only at h
      cases hs : submission env c with
      | none => rw [hs] at h; cases h
      | some q =>
        obtain ⟨e2, u2, r2, cm2⟩ := q
        rw [hs] at h
        simp only at h
        by_cases hsame : e2 = e ∧ u2 = u
        · rw [if_pos hsame] at h
          simp only [Option.some.injEq, Prod.mk.injEq] at h
          have := submission_rating_range env c e2 u2 r2 cm2 hs
          rw [← h.1]
          exact this
        · rw [if_neg hsame] at h
          cases h

/-- C15: from a feedback table with at most one row per (event, user) pair,
after any sequence of feedback requests the table has at most one row per pair;
for every pair with a submission in the sequence (a request answered 201) there
is exactly one row, it holds the rating and comment of the most recent
submission and its rating is within 1..5; and a request that submits the rating
and comment already stored for its pair is answered 201 and leaves the feedback
table as it is. -/
theorem C15_feedback_upsert (calls : List (Env × Ctx)) (db : DB)
    (huniq : FeedbackUnique db.event_feedback) :
    FeedbackUnique (runFeedback db calls).event_feedback ∧
    (∀ e u rating comment, lastSubmission calls e u = some (rating, comment) →
      feedbackOf (runFeedback db calls).event_feedback e u = some (rating, comment) ∧
      (runFeedback db calls).event_feedback.countP (isFeedbackFor e u) = 1 ∧
      1 ≤ rating ∧ rating ≤ 5) ∧
    (∀ env c e u rating comment, submission env c = some (e, u, rating, comment) →
      feedbackOf (runFeedback db calls).event_feedback e u = some (rating, comment) →
      (SubmitEventFeedback (runFeedback db calls) env c).2.code = 201 ∧
      (SubmitEventFeedback (runFeedback db calls) env c).1.event_feedback =
        (runFeedback db calls).event_feedback) ∧
    (∀ call ∈ calls, ∀ db2 : DB,
      (SubmitEventFeedback db2 call.1 call.2).2.code = 201 ↔
        (submission call.1 call.2).isSome = true) := by
  have hafter := runFeedback_FeedbackUnique calls db huniq
  refine ⟨hafter, ?_, ?_, ?_⟩
  · intro e u rating comment hlast
    have hfb : feedbackOf (runFeedback db calls).event_feedback e u =
        some (rating, comment) := by
      rw [feedbackOf_runFeedback, hlast]
    obtain ⟨hlo, hhi⟩ := lastSubmission_rating_range calls e u rating comment hlast
    exact ⟨hfb, countP_isFeedbackFor_eq_one _ e u _ hafter hfb, hlo, hhi⟩
  · intro env c e u rating comment hsub hstored
    constructor
    · rw [SubmitEventFeedback_created_iff, hsub]
      rfl
    · rw [SubmitEventFeedback_feedback, hsub]
      exact upsertFeedback_of_stored _ e u rating comment hafter hstored
  · intro call _ db2
    exact SubmitEventFeedback_created_iff db2 call.1 call.2

/-- Student 1 submits rating 3, student 2 rating 5, student 1 rating 4, and a
rating 9 of student 1 is refused: one row per student, and the row of student 1
holds the rating and comment of the third request. -/
theorem C15_feedback_upsert_witness :
    lastSubmission [({}, feedbackCtx 1 10 3 "fine"), ({}, feedbackCtx 2 10 5 "great"),
      ({}, feedbackCtx 1 10 4 "better"), ({}, feedbackCtx 1 10 9 "best")] 10 1 =
      some (4, "better") ∧
    feedbackOf (runFeedback scenarioC.1
      [({}, feedbackCtx 1 10 3 "fine"), ({}, feedbackCtx 2 10 5 "great"),
       ({}, feedbackCtx 1 10 4 "better"), ({}, feedbackCtx 1 10 9 "best")]).event_feedback
      10 1 = some (4, "better") ∧
    (runFeedback scenarioC.1
      [({}, feedbackCtx 1 10 3 "fine"), ({}, feedbackCtx 2 10 5 "great"),
       ({}, feedbackCtx 1 10 4 "better"), ({}, feedbackCtx 1 10 9 "best")]).event_feedback.countP
      (isFeedbackFor 10 1) = 1 ∧
    (1 : Int) ≤ 4 ∧ (4 : Int) ≤ 5 :=
  ⟨by decide,
   (C15_feedback_upsert
      [({}, feedbackCtx 1 10 3 "fine"), ({}, feedbackCtx 2 10 5 "great"),
       ({}, feedbackCtx 1 10 4 "better"), ({}, feedbackCtx 1 10 9 "best")]
      scenarioC.1 (by decide)).2.1 10 1 4 "better" (by decide)⟩

/-! ## The flags of a registration -/

theorem flagsKept_refl (r : RegistrationRow) : flagsKept r r :=
  ⟨rfl, rfl, rfl, id, id⟩

theorem flagsKept_trans {a b c : RegistrationRow} (hab : flagsKept a b)
    (hbc : flagsKept b c) : flagsKept a c :=
  ⟨hbc.1.trans hab.1, hbc.2.1.trans hab.2.1, hbc.2.2.1.trans hab.2.2.1,
   fun h => hbc.2.2.2.1 (hab.2.2.2.1 h), fun h => hbc.2.2.2.2 (hab.2.2.2.2 h)⟩

theorem forall₂_map_of {α : Type} (R : α → α → Prop) (f : α → α) (h : ∀ a, R a (f a))
    (l : List α) : List.Forall₂ R l (l.map f) := by
  induction l with
  | nil => exact List.Forall₂.nil
  | cons a l ih => exact List.Forall₂.cons (h a) ih

/-- An update of the rows of one pair by a function that keeps the flags. -/
theorem shape_of_update (rows : List RegistrationRow) (e u : Int)
    (g : RegistrationRow → RegistrationRow) (hg : ∀ r, flagsKept r (g r)) :
    ∃ (f : RegistrationRow → RegistrationRow) (extra : List RegistrationRow),
      (∀ r, flagsKept r (f r)) ∧
      rows.map (fun r => if isFor e u r then g r else r) = rows.map f ++ extra := by
  refine ⟨fun r => if isFor e u r then g r else r, [], ?_, by simp⟩
  intro r
  by_cases h : isFor e u r = true
  · simp only [h, if_true]
    exact hg r
  · simp only [h, if_false]
    exact flagsKept_refl r

theorem shape_of_same (rows : List RegistrationRow) :
    ∃ (f : RegistrationRow → RegistrationRow) (extra : List RegistrationRow),
      (∀ r, flagsKept r (f r)) ∧ rows = rows.map f ++ extra :=
  ⟨id, [], flagsKept_refl, by simp⟩

/-- Every request maps each registration row to a row of the same pair with no
flag taken back, and adds rows at the end at most. -/
theorem Op.apply_rows_shape (db : DB) (op : Op) :
    ∃ (f : RegistrationRow → RegistrationRow) (extra : List RegistrationRow),
      (∀ r, flagsKept r (f r)) ∧
      (Op.apply db op).event_registrations = db.event_registrations.map f ++ extra := by
  cases op with
  | register env c =>
    rcases RegisterForEvent_rows db env c with hsame | ⟨e, u, _, _, hup⟩
    · simp only [Op.apply, hsame]
      exact shape_of_same _
    · simp only [Op.apply, hup, upsertRegistration]
      split
      · exact shape_of_update _ e u _ (fun r => ⟨rfl, rfl, rfl, id, id⟩)
      · exact ⟨id, [newRegistration env.freshID e u (registrationStatusFor db e)],
          flagsKept_refl, by simp⟩
  | cancel env c =>
    rcases CancelEventRegistration_rows db env c with hsame | ⟨e, u, _, _, hup⟩
    · simp only [Op.apply, hsame]
      exact shape_of_same _
    · simp only [Op.apply, hup, cancelRows]
      exact shape_of_update _ e u _ (fun r => ⟨rfl, rfl, rfl, id, id⟩)
  | markAttendance env c =>
    rcases MarkAttendance_rows db env c with hsame | ⟨e, u, hup⟩
    · simp only [Op.apply, hsame]
      exact shape_of_same _
    · simp only [Op.apply, hup, markAttendanceRows]
      exact shape_of_update _ e u _ (fun r => ⟨rfl, rfl, rfl, fun _ => rfl, id⟩)
  | submitFeedback env c =>
    rcases SubmitEventFeedback_rows db env c with hsame | ⟨e, u, hup⟩
    · simp only [Op.apply, hsame]
      exact shape_of_same _
    · simp only [Op.apply, hup, markFeedbackRows]
      exact shape_of_update _ e u _ (fun r => ⟨rfl, rfl, rfl, id, fun _ => rfl⟩)

theorem run_rows_shape (ops : List Op) (db : DB) :
    ∃ (f : RegistrationRow → RegistrationRow) (extra : List RegistrationRow),
      (∀ r, flagsKept r (f r)) ∧
      (run db ops).event_registrations = db.event_registrations.map f ++ extra := by
  induction ops generalizing db with
  | nil => exact shape_of_same _
  | cons op ops ih =>
    obtain ⟨f, extra, hf, hstep⟩ := Op.apply_rows_shape db op
    obtain ⟨g, extra2, hg, hrest⟩ := ih (Op.apply db op)
    refine ⟨g ∘ f, extra.map g ++ extra2, fun r => flagsKept_trans (hf r) (hg (f r)), ?_⟩
    show (run (Op.apply db op) ops).event_registrations = _
    rw [hrest, hstep, List.map_append, List.map_map, List.append_assoc]

/-- C17: after any sequence of registration, cancellation, attendance and
feedback requests the registration table starts with the rows it had, in their
order, each still the row of the same pair under the same id and with
`attendance_marked` and `feedback_submitted` true if they were true before; rows
are added at the end only. -/
theorem C17_flags_never_reset (ops : List Op) (db : DB) :
    db.event_registrations.length ≤ (run db ops).event_registrations.length ∧
    List.Forall₂ flagsKept db.event_registrations
      ((run db ops).event_registrations.take db.event_registrations.length) := by
  obtain ⟨f, extra, hf, hshape⟩ := run_rows_shape ops db
  rw [hshape]
  constructor
  · simp
  · rw [List.take_left' (List.length_map _ f)]
    exact forall₂_map_of flagsKept f hf _

/-! ## Rejection -/

/-- A request of an administrator to `RejectEvent` that storage does not fail,
spelled out. -/
theorem RejectEvent_ok (db : DB) (env : Env) (c : Ctx) (n : Int)
    (hrole : c.role = some "system_admin") (hid : c.id = some n)
    (hok : env.stmt1Fails = false) :
    RejectEvent db env c =
      ({ db with events := setEventStatus db.events n "rejected" env.now },
       SuccessResponse 200 "Event rejected successfully" none) := by
  simp [RejectEvent, hrole, hid, hok]

/-- A request of an administrator to `RejectNews` that storage does not fail,
spelled out. -/
theorem RejectNews_ok (db : DB) (env : Env) (c : Ctx) (n : Int)
    (hrole : c.role = some "system_admin") (hid : c.id = some n)
    (hok : env.stmt1Fails = false) :
    RejectNews db env c =
      ({ db with news := rejectNewsRows db.news n env.now },
       SuccessResponse 200 "News rejected successfully" none) := by
  simp [RejectNews, hrole, hid, hok]

/-- C21: a request of an administrator to `RejectEvent` or `RejectNews` that
storage does not fail is answered 200 and turns the entity with the id of the
request into itself with status 'rejected' and the update time of the request,
every other entity into itself, and leaves every other table as it was:
registrations, feedback, notifications, users, the other of events and news,
and the activity log, into which these handlers write no entry. -/
theorem C21_reject_frame (db : DB) (env : Env) (c : Ctx) (n : Int)
    (hrole : c.role = some "system_admin") (hid : c.id = some n)
    (hok : env.stmt1Fails = false) :
    (RejectEvent db env c).2 = SuccessResponse 200 "Event rejected successfully" none ∧
    List.Forall₂
      (fun old new => new =
        if old.event_id == n then { old with status := "rejected", updated_at := env.now }
        else old)
      db.events (RejectEvent db env c).1.events ∧
    (RejectEvent db env c).1 = { db with events := (RejectEvent db env c).1.events } ∧
    (RejectNews db env c).2 = SuccessResponse 200 "News rejected successfully" none ∧
    List.Forall₂
      (fun old new => new =
        if old.news_id == n then { old with status := "rejected", updated_at := env.now }
        else old)
      db.news (RejectNews db env c).1.news ∧
    (RejectNews db env c).1 = { db with news := (RejectNews db env c).1.news } := by
  rw [RejectEvent_ok db env c n hrole hid hok, RejectNews_ok db env c n hrole hid hok]
  exact ⟨rfl, forall₂_map_self _ _, rfl, rfl, forall₂_map_self _ _, rfl⟩

/-- The pending event 10 and the pending news post 7 are rejected at time 200:
status and update time change, capacity and publication time do not. -/
theorem C21_reject_frame_witness :
    (RejectEvent (oneEventWithStatus "pending") { now := 200 }
        (roleCtx 99 "system_admin" 10)).1 =
      { events := [{ event_id := 10, capacity := 2, status := "rejected",
                     updated_at := 200 }] } ∧
    (RejectNews (oneNews "pending" none) { now := 200 } (roleCtx 99 "system_admin" 7)).1 =
      { news := [{ news_id := 7, status := "rejected", published_at := none,
                   updated_at := 200 }] } ∧
    (RejectEvent scenarioC.1 { now := 200 } (roleCtx 99 "system_admin" 10)).1 =
      { scenarioC.1 with events :=
          (RejectEvent scenarioC.1 { now := 200 } (roleCtx 99 "system_admin" 10)).1.events } :=
  ⟨by decide, by decide,
   (C21_reject_frame scenarioC.1 { now := 200 } (roleCtx 99 "system_admin" 10) 10
      rfl rfl rfl).2.2.1⟩

/-! ## Best-effort logging -/

/-- C22: the response of `RegisterForEvent` and every table but the activity log
are the same whether the insert of `LogActivity` fails or not; a failing insert
leaves the tables as they are, and `LogActivity` has no result but the tables. -/
theorem C22_logging_is_best_effort (db : DB) (env : Env) (c : Ctx) :
    (RegisterForEvent db { env with logFails := true } c).2 =
      (RegisterForEvent db { env with logFails := false } c).2 ∧
    (RegisterForEvent db { env with logFails := true } c).1.event_registrations =
      (RegisterForEvent db { env with logFails := false } c).1.event_registrations ∧
    { (RegisterForEvent db { env with logFails := true } c).1 with activity_log := [] } =
      { (RegisterForEvent db { env with logFails := false } c).1 with activity_log := [] } ∧
    (∀ (u : Int) (a t : String) (e : Int) (d : Option String),
      LogActivity db { env with logFails := true } u a t e d = db ∧
      { LogActivity db { env with logFails := false } u a t e d with activity_log := [] } =
        { db with activity_log := [] }) := by
  refine ⟨?_, ?_, ?_, ?_⟩
  · unfold RegisterForEvent registerWrite
    cases c.user_id <;> cases c.id <;> cases env.stmt1Fails <;> cases env.stmt2Fails <;> rfl
  · unfold RegisterForEvent registerWrite
    cases c.user_id <;> cases c.id <;> cases env.stmt1Fails <;> cases env.stmt2Fails <;> rfl
  · unfold RegisterForEvent registerWrite
    cases c.user_id <;> cases c.id <;> cases env.stmt1Fails <;> cases env.stmt2Fails <;> rfl
  · intro u a t e d
    exact ⟨rfl, rfl⟩

/-! ## The role check -/

/-- C23: `RoleMiddleware` passes a request on exactly when the role in the
context is equal to an element of its list; without a role it aborts with 401,
with a role that is not in the list with 403.  An administrator does not pass
the list that holds 'club_moderator' only, and the list of the attendance route
passes 'club_moderator' and 'system_admin' and no other role; behind it the
route is `MarkAttendance`, and an aborted request leaves the tables as they
are. -/
theorem C23_role_middleware_exact_match (requiredRoles : List String) (c : Ctx) :
    (RoleMiddleware requiredRoles c = none ↔ ∃ r, c.role = some r ∧ r ∈ requiredRoles) ∧
    (c.role = none →
      RoleMiddleware requiredRoles c = some (UnauthorizedResponse "Role not found in token")) ∧
    (∀ r, c.role = some r → r ∉ requiredRoles →
      RoleMiddleware requiredRoles c = some (ForbiddenResponse "Insufficient permissions")) ∧
    (c.role = some "system_admin" →
      RoleMiddleware ["club_moderator"] c =
        some (ForbiddenResponse "Insufficient permissions")) ∧
    (RoleMiddleware ["club_moderator", "system_admin"] c = none ↔
      c.role = some "club_moderator" ∨ c.role = some "system_admin") ∧
    (∀ (db : DB) (env : Env),
      (RoleMiddleware ["club_moderator", "system_admin"] c = none →
        routeMarkAttendance db env c = MarkAttendance db env c) ∧
      (∀ aborted, RoleMiddleware ["club_moderator", "system_admin"] c = some aborted →
        routeMarkAttendance db env c = (db, aborted))) := by
  have hiff : ∀ roles : List String,
      RoleMiddleware roles c = none ↔ ∃ r, c.role = some r ∧ r ∈ roles := by
    intro roles
    unfold RoleMiddleware
    cases hr : c.role with
    | none => simp
    | some role =>
      by_cases hmem : role ∈ roles
      · have hany : roles.any (fun r => role == r) = true :=
          List.any_eq_true.2 ⟨role, hmem, by simp⟩
        simp [hany, hmem]
      · have hany : roles.any (fun r => role == r) = false := by
          cases h : roles.any (fun r => role == r) with
          | false => rfl
          | true =>
            rcases List.any_eq_true.1 h with ⟨r, hr2, heq⟩
            have : role = r := by simpa using heq
            exact absurd (this ▸ hr2) hmem
        simp [hany, hmem]
  have hforbid : ∀ (roles : List String) (r : String), c.role = some r → r ∉ roles →
      RoleMiddleware roles c = some (ForbiddenResponse "Insufficient permissions") := by
    intro roles r hr hmem
    have hany : roles.any (fun x => r == x) = false := by
      cases h : roles.any (fun x => r == x) with
      | false => rfl
      | true =>
        rcases List.any_eq_true.1 h with ⟨x, hx, heq⟩
        have : r = x := by simpa using heq
        exact absurd (this ▸ hx) hmem
    simp [RoleMiddleware, hr, hany]
  refine ⟨hiff requiredRoles, ?_, hforbid requiredRoles, ?_, ?_, ?_⟩
  · intro hnone
    simp [RoleMiddleware, hnone]
  · intro hadmin
    exact hforbid ["club_moderator"] "system_admin" hadmin (by decide)
  · rw [hiff]
    constructor
    · rintro ⟨r, hr, hmem⟩
      simp only [List.mem_cons, List.mem_singleton, List.not_mem_nil, or_false] at hmem
      rcases hmem with h | h
      · exact Or.inl (by rw [hr, h])
      · exact Or.inr (by rw [hr, h])
    · rintro (h | h)
      · exact ⟨_, h, by simp⟩
      · exact ⟨_, h, by simp⟩
  · intro db env
    constructor
    · intro hpass
      simp [routeMarkAttendance, behindRole, hpass]
    · intro aborted habort
      simp [routeMarkAttendance, behindRole, habort]

/-- An administrator against the list that holds 'club_moderator' only, and a
student against the list of the attendance route: both are refused with 403. -/
theorem C23_role_middleware_exact_match_witness :
    RoleMiddleware ["club_moderator"] (roleCtx 99 "system_admin" 10) =
      some (ForbiddenResponse "Insufficient permissions") ∧
    RoleMiddleware ["club_moderator", "system_admin"] (roleCtx 1 "student" 10) =
      some (ForbiddenResponse "Insufficient permissions") ∧
    RoleMiddleware ["club_moderator", "system_admin"] (roleCtx 50 "club_moderator" 10) =
      none :=
  ⟨(C23_role_middleware_exact_match ["club_moderator"] (roleCtx 99 "system_admin" 10)).2.2.2.1
      rfl,
   (C23_role_middleware_exact_match ["club_moderator", "system_admin"]
      (roleCtx 1 "student" 10)).2.2.1 "student" rfl (by decide),
   (C23_role_middleware_exact_match ["club_moderator", "system_admin"]
      (roleCtx 50 "club_moderator" 10)).1.2 ⟨"club_moderator", rfl, by decide⟩⟩

/-! ## Notifications -/

/-- What a notification request does to the table: nothing, or one of the three
statements with the caller as owner. -/
theorem NotifOp.apply_cases (db : DB) (op : NotifOp) :
    (NotifOp.apply db op).notifications = db.notifications ∨
    (∃ u id, op.caller = some u ∧
      (NotifOp.apply db op).notifications = markReadRows db.notifications id u) ∨
    (∃ u, op.caller = some u ∧
      (NotifOp.apply db op).notifications = markAllReadRows db.notifications u) ∨
    (∃ u id, op.caller = some u ∧
      (NotifOp.apply db op).notifications = deleteNotificationRows db.notifications id u) := by
  cases op with
  | markRead env c =>
    simp only [NotifOp.apply, NotifOp.caller, MarkNotificationAsRead]
    cases hu : c.user_id with
    | none => exact Or.inl rfl
    | some u =>
      cases hid : c.id with
      | none => exact Or.inl rfl
      | some id =>
        cases env.stmt1Fails
        · exact Or.inr (Or.inl ⟨u, id, rfl, rfl⟩)
        · exact Or.inl rfl
  | markAllRead env c =>
    simp only [NotifOp.apply, NotifOp.caller, MarkAllNotificationsAsRead]
    cases hu : c.user_id with
    | none => exact Or.inl rfl
    | some u =>
      cases env.stmt1Fails
      · exact Or.inr (Or.inr (Or.inl ⟨u, rfl, rfl⟩))
      · exact Or.inl rfl
  | delete env c =>
    simp only [NotifOp.apply, NotifOp.caller, DeleteNotification]
    cases hu : c.user_id with
    | none => exact Or.inl rfl
    | some u =>
      cases hid : c.id with
      | none => exact Or.inl rfl
      | some id =>
        cases env.stmt1Fails
        · exact Or.inr (Or.inr (Or.inr ⟨u, id, rfl, rfl⟩))
        · exact Or.inl rfl

/-- An update that touches the rows of one owner only leaves the rows of every
other owner, in their order. -/
theorem filter_other_owners_map (U : Int) (f : NotificationRow → NotificationRow)
    (hf : ∀ n, n.user_id ≠ U → f n = n) (hkeep : ∀ n, (f n).user_id = n.user_id)
    (rows : List NotificationRow) :
    (rows.map f).filter (fun n => n.user_id != U) = rows.filter (fun n => n.user_id != U) := by
  induction rows with
  | nil => rfl
  | cons n rows ih =>
    by_cases h : n.user_id = U
    · have h2 : (f n).user_id = U := by rw [hkeep, h]
      simp [List.filter_cons, h, h2, ih]
    · have h2 : f n = n := hf n h
      simp [List.filter_cons, h, h2, ih]

theorem filter_other_owners_markRead (rows : List NotificationRow) (id U : Int) :
    (markReadRows rows id U).filter (fun n => n.user_id != U) =
      rows.filter (fun n => n.user_id != U) := by
  apply filter_other_owners_map
  · intro n hn
    simp [hn]
  · intro n
    split <;> rfl

theorem filter_other_owners_markAllRead (rows : List NotificationRow) (U : Int) :
    (markAllReadRows rows U).filter (fun n => n.user_id != U) =
      rows.filter (fun n => n.user_id != U) := by
  apply filter_other_owners_map
  · intro n hn
    simp [hn]
  · intro n
    split <;> rfl

theorem filter_other_owners_delete (rows : List NotificationRow) (id U : Int) :
    (deleteNotificationRows rows id U).filter (fun n => n.user_id != U) =
      rows.filter (fun n => n.user_id != U) := by
  unfold deleteNotificationRows
  rw [List.filter_filter]
  apply List.filter_congr
  intro n _
  by_cases h : n.user_id = U
  · simp [h]
  · simp [h]

theorem readKept_of_map (f : NotificationRow → NotificationRow)
    (hf : ∀ m, readKept m (f m)) (rows : List NotificationRow) :
    ∀ n ∈ rows.map f, ∃ m ∈ rows, readKept m n := by
  intro n hn
  rcases List.mem_map.1 hn with ⟨m, hm, hmn⟩
  exact ⟨m, hm, hmn ▸ hf m⟩

theorem readKept_trans {a b c : NotificationRow} (hab : readKept a b) (hbc : readKept b c) :
    readKept a c := by
  unfold readKept at *
  rcases hab with hab | hab <;> rcases hbc with hbc | hbc
  · exact Or.inl (hbc.trans hab)
  · exact Or.inr (by rw [hbc, hab])
  · exact Or.inr (hbc.trans hab)
  · exact Or.inr (by rw [hbc, hab])

/-- After one notification request every row of the table is a row it had, as
it was or marked as read. -/
theorem NotifOp.apply_readKept (db : DB) (op : NotifOp) :
    ∀ n ∈ (NotifOp.apply db op).notifications, ∃ m ∈ db.notifications, readKept m n := by
  rcases NotifOp.apply_cases db op with h | ⟨u, id, _, h⟩ | ⟨u, _, h⟩ | ⟨u, id, _, h⟩
  · rw [h]
    intro n hn
    exact ⟨n, hn, Or.inl rfl⟩
  · rw [h]
    apply readKept_of_map
    intro m
    by_cases hm : (m.notification_id == id && m.user_id == u) = true
    · rw [if_pos hm]
      exact Or.inr rfl
    · rw [if_neg hm]
      exact Or.inl rfl
  · rw [h]
    apply readKept_of_map
    intro m
    by_cases hm : (m.user_id == u && m.is_read == false) = true
    · rw [if_pos hm]
      exact Or.inr rfl
    · rw [if_neg hm]
      exact Or.inl rfl
  · rw [h]
    intro n hn
    exact ⟨n, (List.mem_filter.1 hn).1, Or.inl rfl⟩

/-- C24: after any sequence of requests to `MarkNotificationAsRead`,
`MarkAllNotificationsAsRead` and `DeleteNotification`, every notification in the
table is one that was there, as it was or with `is_read` set, so no read flag
goes from true to false; and when the requests are all made by user U, the
notifications of every other user are all there, unchanged and in their order. -/
theorem C24_notification_ownership (ops : List NotifOp) (db : DB) (U : Int) :
    (∀ n ∈ (runNotif db ops).notifications, ∃ m ∈ db.notifications,
      readKept m n ∧ n.notification_id = m.notification_id ∧ n.user_id = m.user_id ∧
      (m.is_read = true → n.is_read = true)) ∧
    ((∀ op ∈ ops, op.caller = some U) →
      (runNotif db ops).notifications.filter (fun n => n.user_id != U) =
        db.notifications.filter (fun n => n.user_id != U)) := by
  constructor
  · have hkept : ∀ (ops : List NotifOp) (db : DB),
        ∀ n ∈ (runNotif db ops).notifications, ∃ m ∈ db.notifications, readKept m n := by
      intro ops
      induction ops with
      | nil =>
        intro db n hn
        exact ⟨n, hn, Or.inl rfl⟩
      | cons op ops ih =>
        intro db n hn
        obtain ⟨m, hm, hmn⟩ := ih (NotifOp.apply db op) n hn
        obtain ⟨m0, hm0, h0⟩ := NotifOp.apply_readKept db op m hm
        exact ⟨m0, hm0, readKept_trans h0 hmn⟩
    intro n hn
    obtain ⟨m, hm, hmn⟩ := hkept ops db n hn
    refine ⟨m, hm, hmn, ?_⟩
    rcases hmn with h | h
    · rw [h]
      exact ⟨rfl, rfl, id⟩
    · rw [h]
      exact ⟨rfl, rfl, fun _ => rfl⟩
  · intro hcaller
    induction ops generalizing db with
    | nil => rfl
    | cons op ops ih =>
      have hop : op.caller = some U := hcaller op (List.mem_cons_self _ _)
      have hrest : ∀ op2 ∈ ops, op2.caller = some U :=
        fun op2 h2 => hcaller op2 (List.mem_cons_of_mem _ h2)
      have hstep : (NotifOp.apply db op).notifications.filter (fun n => n.user_id != U) =
          db.notifications.filter (fun n => n.user_id != U) := by
        rcases NotifOp.apply_cases db op with h | ⟨u, id, hu, h⟩ | ⟨u, hu, h⟩ | ⟨u, id, hu, h⟩
        · rw [h]
        · rw [hop] at hu
          cases hu
          rw [h, filter_other_owners_markRead]
        · rw [hop] at hu
          cases hu
          rw [h, filter_other_owners_markAllRead]
        · rw [hop] at hu
          cases hu
          rw [h, filter_other_owners_delete]
      exact (ih (NotifOp.apply db op) hrest).trans hstep

/-- User 1 deletes notification 3, which user 2 owns, marks all as read and
deletes notification 1: the notification of user 2 is there, unread as before. -/
theorem C24_notification_ownership_witness :
    (runNotif threeNotifications
      [.delete {} (studentCtx 1 3), .markAllRead {} (studentCtx 1 0),
       .markRead {} (studentCtx 1 3), .delete {} (studentCtx 1 1)]).notifications.filter
        (fun n => n.user_id != 1) =
      [{ notification_id := 3, user_id := 2, title := "c", is_read := false }] :=
  (C24_notification_ownership
    [.delete {} (studentCtx 1 3), .markAllRead {} (studentCtx 1 0),
     .markRead {} (studentCtx 1 3), .delete {} (studentCtx 1 1)] threeNotifications 1).2
    (by decide)

/-! ## Propagation of storage failures -/

/-- C25, counterexample: student 1 of the capacity-2 scenario submits feedback
and the update of `feedback_submitted` fails.  The request is answered 201 with
success, the feedback row is stored and the registration table is as it was. -/
theorem C25_flag_update_failure_suppressed :
    (SubmitEventFeedback scenarioC.1 { stmt2Fails := true } (feedbackCtx 1 10 4 "good")).2 =
      SuccessResponse 201 "Feedback submitted successfully" none ∧
    feedbackOf (SubmitEventFeedback scenarioC.1 { stmt2Fails := true }
      (feedbackCtx 1 10 4 "good")).1.event_feedback 10 1 = some (4, "good") ∧
    (SubmitEventFeedback scenarioC.1 { stmt2Fails := true }
      (feedbackCtx 1 10 4 "good")).1.event_registrations = scenarioC.1.event_registrations ∧
    ¬ ((SubmitEventFeedback scenarioC.1 { stmt2Fails := true }
      (feedbackCtx 1 10 4 "good")).2.success = false) := by
  decide

/-- C25, amended: when the first statement of a core command fails the command
is not answered with success and the tables are left as they were, and so for
the upsert of `RegisterForEvent`, its second statement.  The failures that are
suppressed are those of the activity-log insert and of the update of
`feedback_submitted`, the second statement of `SubmitEventFeedback`: the
response is the same whether they fail or not. -/
theorem C25_error_propagation (db : DB) (env : Env) (c : Ctx) :
    (env.stmt1Fails = true →
      ((RegisterForEvent db env c).2.success = false ∧ (RegisterForEvent db env c).1 = db) ∧
      ((CancelEventRegistration db env c).2.success = false ∧
        (CancelEventRegistration db env c).1 = db) ∧
      ((MarkAttendance db env c).2.success = false ∧ (MarkAttendance db env c).1 = db) ∧
      ((SubmitEventFeedback db env c).2.success = false ∧
        (SubmitEventFeedback db env c).1 = db) ∧
      ((ApproveEvent db env c).2.success = false ∧ (ApproveEvent db env c).1 = db) ∧
      ((ApproveNews db env c).2.success = false ∧ (ApproveNews db env c).1 = db) ∧
      ((RejectEvent db env c).2.success = false ∧ (RejectEvent db env c).1 = db) ∧
      ((RejectNews db env c).2.success = false ∧ (RejectNews db env c).1 = db)) ∧
    (env.stmt2Fails = true →
      (RegisterForEvent db env c).2.success = false ∧ (RegisterForEvent db env c).1 = db) ∧
    (SubmitEventFeedback db { env with stmt2Fails := true } c).2 =
      (SubmitEventFeedback db { env with stmt2Fails := false } c).2 ∧
    (SubmitEventFeedback db { env with logFails := true } c).2 =
      (SubmitEventFeedback db { env with logFails := false } c).2 ∧
    (RegisterForEvent db { env with logFails := true } c).2 =
      (RegisterForEvent db { env with logFails := false } c).2 ∧
    (CancelEventRegistration db { env with logFails := true } c).2 =
      (CancelEventRegistration db { env with logFails := false } c).2 := by
  refine ⟨?_, ?_, ?_, ?_, ?_, ?_⟩
  · intro h1
    refine ⟨?_, ?_, ?_, ?_, ?_, ?_, ?_, ?_⟩
    · unfold RegisterForEvent
      cases c.user_id <;> cases c.id <;>
        simp [h1, UnauthorizedResponse, BadRequestResponse, InternalServerErrorResponse,
          ErrorResponse]
    · unfold CancelEventRegistration
      cases c.user_id <;> cases c.id <;>
        simp [h1, UnauthorizedResponse, BadRequestResponse, InternalServerErrorResponse,
          ErrorResponse]
    · unfold MarkAttendance
      cases c.id <;> cases bindAttendance c.body <;>
        simp [h1, BadRequestResponse, InternalServerErrorResponse, ErrorResponse]
    · unfold SubmitEventFeedback
      cases c.user_id <;> cases c.id <;> cases bindFeedback c.body <;>
        simp [h1, UnauthorizedResponse, BadRequestResponse, InternalServerErrorResponse,
          ErrorResponse]
    · unfold ApproveEvent
      by_cases hrole : c.role ≠ some "system_admin"
      · simp [hrole, ForbiddenResponse, ErrorResponse]
      · cases c.id <;>
          simp [hrole, h1, BadRequestResponse, InternalServerErrorResponse, ErrorResponse]
    · unfold ApproveNews
      by_cases hrole : c.role ≠ some "system_admin"
      · simp [hrole, ForbiddenResponse, ErrorResponse]
      · cases c.id <;>
          simp [hrole, h1, BadRequestResponse, InternalServerErrorResponse, ErrorResponse]
    · unfold RejectEvent
      by_cases hrole : c.role ≠ some "system_admin"
      · simp [hrole, ForbiddenResponse, ErrorResponse]
      · cases c.id <;>
          simp [hrole, h1, BadRequestResponse, InternalServerErrorResponse, ErrorResponse]
    · unfold RejectNews
      by_cases hrole : c.role ≠ some "system_admin"
      · simp [hrole, ForbiddenResponse, ErrorResponse]
      · cases c.id <;>
          simp [hrole, h1, BadRequestResponse, InternalServerErrorResponse, ErrorResponse]
  · intro h2
    unfold RegisterForEvent registerWrite
    cases c.user_id <;> cases c.id <;> cases env.stmt1Fails <;>
      simp [h2, UnauthorizedResponse, BadRequestResponse, InternalServerErrorResponse,
        ErrorResponse]
  · unfold SubmitEventFeedback
    cases c.user_id <;> cases c.id <;> cases bindFeedback c.body <;>
      cases env.stmt1Fails <;> rfl
  · unfold SubmitEventFeedback
    cases c.user_id <;> cases c.id <;> cases bindFeedback c.body <;>
      cases env.stmt1Fails <;> rfl
  · unfold RegisterForEvent registerWrite
    cases c.user_id <;> cases c.id <;> cases env.stmt1Fails <;> cases env.stmt2Fails <;> rfl
  · unfold CancelEventRegistration
    cases c.user_id <;> cases c.id <;> cases env.stmt1Fails <;> rfl

/-- The capacity query of a registration fails, and the upsert of another one:
neither is answered with success and the tables are as they were. -/
theorem C25_error_propagation_witness :
    ((RegisterForEvent scenarioA.1 { stmt1Fails := true } (studentCtx 2 10)).2.success = false ∧
      (RegisterForEvent scenarioA.1 { stmt1Fails := true } (studentCtx 2 10)).1 = scenarioA.1) ∧
    ((RegisterForEvent scenarioA.1 { stmt2Fails := true } (studentCtx 2 10)).2.success = false ∧
      (RegisterForEvent scenarioA.1 { stmt2Fails := true } (studentCtx 2 10)).1 = scenarioA.1) :=
  ⟨((C25_error_propagation scenarioA.1 { stmt1Fails := true } (studentCtx 2 10)).1 rfl).1,
   (C25_error_propagation scenarioA.1 { stmt2Fails := true } (studentCtx 2 10)).2.1 rfl⟩

/-! ## The text of a storage error -/

/-- C26: the outcome of every core command is the same for any two texts of the
error a failing statement returns, and the message of its response is one of the
constants of the handler. -/
theorem C26_error_text_never_leaks (db : DB) (env : Env) (c : Ctx) (t1 t2 : String) :
    (RegisterForEvent db { env with errorText := t1 } c =
        RegisterForEvent db { env with errorText := t2 } c ∧
      CancelEventRegistration db { env with errorText := t1 } c =
        CancelEventRegistration db { env with errorText := t2 } c ∧
      MarkAttendance db { env with errorText := t1 } c =
        MarkAttendance db { env with errorText := t2 } c ∧
      SubmitEventFeedback db { env with errorText := t1 } c =
        SubmitEventFeedback db { env with errorText := t2 } c ∧
      ApproveEvent db { env with errorText := t1 } c =
        ApproveEvent db { env with errorText := t2 } c ∧
      ApproveNews db { env with errorText := t1 } c =
        ApproveNews db { env with errorText := t2 } c ∧
      RejectEvent db { env with errorText := t1 } c =
        RejectEvent db { env with errorText := t2 } c ∧
      RejectNews db { env with errorText := t1 } c =
        RejectNews db { env with errorText := t2 } c) ∧
    (RegisterForEvent db env c).2.message ∈
      ["User not authenticated", "Invalid event ID", "Failed to check event capacity",
       "Failed to register for event", "Successfully registered for event"] ∧
    (CancelEventRegistration db env c).2.message ∈
      ["User not authenticated", "Invalid event ID", "Failed to cancel registration",
       "Registration cancelled successfully"] ∧
    (MarkAttendance db env c).2.message ∈
      ["Invalid event ID", "Invalid request body", "Failed to mark attendance",
       "Attendance marked successfully"] ∧
    (SubmitEventFeedback db env c).2.message ∈
      ["User not authenticated", "Invalid event ID", "Invalid request body",
       "Failed to submit feedback", "Feedback submitted successfully"] ∧
    (ApproveEvent db env c).2.message ∈
      ["Only system admins can approve events", "Invalid event ID",
       "Failed to approve event", "Event approved successfully"] ∧
    (ApproveNews db env c).2.message ∈
      ["Only system admins can approve news", "Invalid news ID",
       "Failed to approve news", "News approved successfully"] ∧
    (RejectEvent db env c).2.message ∈
      ["Only system admins can reject events", "Invalid event ID",
       "Failed to reject event", "Event rejected successfully"] ∧
    (RejectNews db env c).2.message ∈
      ["Only system admins can reject news", "Invalid news ID",
       "Failed to reject news", "News rejected successfully"] := by
  refine ⟨⟨rfl, rfl, rfl, rfl, rfl, rfl, rfl, rfl⟩, ?_, ?_, ?_, ?_, ?_, ?_, ?_, ?_⟩
  · unfold RegisterForEvent registerWrite
    cases c.user_id <;> cases c.id <;> cases env.stmt1Fails <;> cases env.stmt2Fails <;>
      simp [UnauthorizedResponse, BadRequestResponse, InternalServerErrorResponse,
        ErrorResponse, SuccessResponse]
  · unfold CancelEventRegistration
    cases c.user_id <;> cases c.id <;> cases env.stmt1Fails <;>
      simp [UnauthorizedResponse, BadRequestResponse, InternalServerErrorResponse,
        ErrorResponse, SuccessResponse]
  · unfold MarkAttendance
    cases c.id <;> cases bindAttendance c.body <;> cases env.stmt1Fails <;>
      simp [BadRequestResponse, InternalServerErrorResponse, ErrorResponse, SuccessResponse]
  · unfold SubmitEventFeedback
    cases c.user_id <;> cases c.id <;> cases bindFeedback c.body <;>
      cases env.stmt1Fails <;>
      simp [UnauthorizedResponse, BadRequestResponse, InternalServerErrorResponse,
        ErrorResponse, SuccessResponse]
  · unfold ApproveEvent
    by_cases hrole : c.role ≠ some "system_admin"
    · simp [hrole, ForbiddenResponse, ErrorResponse]
    · cases c.id <;> cases env.stmt1Fails <;>
        simp [hrole, BadRequestResponse, InternalServerErrorResponse, ErrorResponse,
          SuccessResponse]
  · unfold ApproveNews
    by_cases hrole : c.role ≠ some "system_admin"
    · simp [hrole, ForbiddenResponse, ErrorResponse]
    · cases c.id <;> cases env.stmt1Fails <;>
        simp [hrole, BadRequestResponse, InternalServerErrorResponse, ErrorResponse,
          SuccessResponse]
  · unfold RejectEvent
    by_cases hrole : c.role ≠ some "system_admin"
    · simp [hrole, ForbiddenResponse, ErrorResponse]
    · cases c.id <;> cases env.stmt1Fails <;>
        simp [hrole, BadRequestResponse, InternalServerErrorResponse, ErrorResponse,
          SuccessResponse]
  · unfold RejectNews
    by_cases hrole : c.role ≠ some "system_admin"
    · simp [hrole, ForbiddenResponse, ErrorResponse]
    · cases c.id <;> cases env.stmt1Fails <;>
        simp [hrole, BadRequestResponse, InternalServerErrorResponse, ErrorResponse,
          SuccessResponse]

/-! ## What a registration reads of the event -/

/-- The capacity query on two events tables whose events agree on id and capacity. -/
theorem find_capacity_congr (e : Int) (events1 events2 : List EventRow)
    (h : List.Forall₂ (fun a b => a.event_id = b.event_id ∧ a.capacity = b.capacity)
      events1 events2) :
    (events1.find? (fun x => x.event_id == e)).map (fun x => x.capacity) =
      (events2.find? (fun x => x.event_id == e)).map (fun x => x.capacity) := by
  induction events1 generalizing events2 with
  | nil =>
    cases h
    rfl
  | cons a l1 ih =>
    cases h with
    | cons hab hrest =>
      rename_i b l2
      simp only [List.find?_cons]
      rw [← hab.1]
      cases hae : a.event_id == e
      · exact ih l2 hrest
      · simp [hab.2]

theorem registrationStatusFor_congr (db1 db2 : DB) (e : Int)
    (hregs : db1.event_registrations = db2.event_registrations)
    (hevents : List.Forall₂ (fun a b => a.event_id = b.event_id ∧ a.capacity = b.capacity)
      db1.events db2.events) :
    registrationStatusFor db1 e = registrationStatusFor db2 e := by
  have hfind := find_capacity_congr e db1.events db2.events hevents
  have hscan : scanCapacity db1 e = scanCapacity db2 e := by
    unfold scanCapacity capacityQuery
    rw [hregs]
    cases h1 : db1.events.find? (fun x => x.event_id == e) <;>
      cases h2 : db2.events.find? (fun x => x.event_id == e) <;>
      simp [h1, h2] at hfind ⊢
    exact hfind
  unfold registrationStatusFor
  rw [hscan]

/-- C27: on two states with the same registrations whose events agree on id and
capacity and differ in any other column (status, registration deadline, update
time), `RegisterForEvent` gives the same response and the same registration
table; it reads nothing of the event but its capacity. -/
theorem C27_register_ignores_event_status (db1 db2 : DB) (env : Env) (c : Ctx)
    (hregs : db1.event_registrations = db2.event_registrations)
    (hevents : List.Forall₂ (fun a b => a.event_id = b.event_id ∧ a.capacity = b.capacity)
      db1.events db2.events) :
    (RegisterForEvent db1 env c).2 = (RegisterForEvent db2 env c).2 ∧
    (RegisterForEvent db1 env c).1.event_registrations =
      (RegisterForEvent db2 env c).1.event_registrations := by
  unfold RegisterForEvent
  cases hu : c.user_id with
  | none => exact ⟨rfl, hregs⟩
  | some u =>
    cases hid : c.id with
    | none => exact ⟨rfl, hregs⟩
    | some e =>
      simp only
      rw [registrationStatusFor_congr db1 db2 e hregs hevents]
      cases env.stmt1Fails
      · simp only [Bool.false_eq_true, if_false]
        constructor
        · unfold registerWrite
          rw [hregs]
          cases env.stmt2Fails <;> rfl
        · rw [registerWrite_rows, registerWrite_rows, hregs]
      · exact ⟨rfl, hregs⟩

/-- The rejected event 10 whose registration deadline, 50, is past and the
approved event 10 without a deadline: the registration of student 1 is answered
'confirmed' on both. -/
theorem C27_register_ignores_event_status_witness :
    (RegisterForEvent
        { events := [{ event_id := 10, capacity := 2, status := "rejected",
                       registration_deadline := some 50 }] }
        { freshID := 101, now := 200 } (studentCtx 1 10)).2 =
      (RegisterForEvent (oneEvent 2) { freshID := 101, now := 200 } (studentCtx 1 10)).2 ∧
    (RegisterForEvent
        { events := [{ event_id := 10, capacity := 2, status := "rejected",
                       registration_deadline := some 50 }] }
        { freshID := 101, now := 200 } (studentCtx 1 10)).2.status = some "confirmed" :=
  ⟨(C27_register_ignores_event_status
      { events := [{ event_id := 10, capacity := 2, status := "rejected",
                     registration_deadline := some 50 }] }
      (oneEvent 2) { freshID := 101, now := 200 } (studentCtx 1 10) rfl
      (List.Forall₂.cons ⟨rfl, rfl⟩ List.Forall₂.nil)).1,
   by decide⟩

/-! ## Paging of the user list -/

theorem Atoi_default_limit : Atoi "50" = some 50 := by decide

theorem Atoi_default_offset : Atoi "0" = some 0 := by decide

/-- C28: the effective limit of `AdminListUsers` is the value of the `limit`
parameter when `strconv.Atoi` parses it to an integer from 1 to 200, and 50 when
the parameter is missing, does not parse, or parses to a value that is at most 0
or above 200; the effective offset is the value of the `offset` parameter when
it parses to an integer that is not negative, and 0 otherwise.  The limit is
always from 1 to 200 and the offset is never negative. -/
theorem C28_paging_clamp (c : Ctx) :
    (∀ s v, c.query.lookup "limit" = some s → Atoi s = some v → 1 ≤ v → v ≤ 200 →
      listUsersLimit c = v) ∧
    (c.query.lookup "limit" = none → listUsersLimit c = 50) ∧
    (∀ s, c.query.lookup "limit" = some s → Atoi s = none → listUsersLimit c = 50) ∧
    (∀ s v, c.query.lookup "limit" = some s → Atoi s = some v → (v ≤ 0 ∨ 200 < v) →
      listUsersLimit c = 50) ∧
    (1 ≤ listUsersLimit c ∧ listUsersLimit c ≤ 200) ∧
    (∀ s v, c.query.lookup "offset" = some s → Atoi s = some v → 0 ≤ v →
      listUsersOffset c = v) ∧
    (c.query.lookup "offset" = none → listUsersOffset c = 0) ∧
    (∀ s, c.query.lookup "offset" = some s → Atoi s = none → listUsersOffset c = 0) ∧
    (∀ s v, c.query.lookup "offset" = some s → Atoi s = some v → v < 0 →
      listUsersOffset c = 0) ∧
    0 ≤ listUsersOffset c := by
  refine ⟨?_, ?_, ?_, ?_, ?_, ?_, ?_, ?_, ?_, ?_⟩
  · intro s v hs hv h1 h200
    simp only [listUsersLimit, DefaultQuery, hs, hv]
    rw [if_neg (by omega)]
  · intro hs
    simp only [listUsersLimit, DefaultQuery, hs, Atoi_default_limit]
    decide
  · intro s hs hv
    simp only [listUsersLimit, DefaultQuery, hs, hv]
  · intro s v hs hv hout
    simp only [listUsersLimit, DefaultQuery, hs, hv]
    rw [if_pos (by omega)]
  · simp only [listUsersLimit]
    generalize Atoi (DefaultQuery c "limit" "50") = parsed
    cases parsed with
    | none => decide
    | some v =>
      by_cases hv : v ≤ 0 ∨ v > 200
      · simp only [hv, if_true]
        decide
      · simp only [hv, if_false]
        omega
  · intro s v hs hv h0
    simp only [listUsersOffset, DefaultQuery, hs, hv]
    rw [if_neg (by omega)]
  · intro hs
    simp only [listUsersOffset, DefaultQuery, hs, Atoi_default_offset]
    decide
  · intro s hs hv
    simp only [listUsersOffset, DefaultQuery, hs, hv]
  · intro s v hs hv hneg
    simp only [listUsersOffset, DefaultQuery, hs, hv]
    rw [if_pos hneg]
  · simp only [listUsersOffset]
    generalize Atoi (DefaultQuery c "offset" "0") = parsed
    cases parsed with
    | none => decide
    | some v =>
      by_cases hv : v < 0
      · simp only [hv, if_true]
        decide
      · simp only [hv, if_false]
        omega

/-- Limit 200 is kept, limits 201, 0 and "many" give 50, offset 30 is kept and
offset -3 gives 0. -/
theorem C28_paging_clamp_witness :
    listUsersLimit { query := [("limit", "200"), ("offset", "30")] } = 200 ∧
    listUsersLimit { query := [("limit", "201")] } = 50 ∧
    listUsersLimit { query := [("limit", "0")] } = 50 ∧
    listUsersLimit { query := [("limit", "many")] } = 50 ∧
    listUsersOffset { query := [("limit", "200"), ("offset", "30")] } = 30 ∧
    listUsersOffset { query := [("offset", "-3")] } = 0 :=
  ⟨(C28_paging_clamp { query := [("limit", "200"), ("offset", "30")] }).1 "200" 200
      (by decide) (by decide) (by decide) (by decide),
   (C28_paging_clamp { query := [("limit", "201")] }).2.2.2.1 "201" 201
      (by decide) (by decide) (by decide),
   (C28_paging_clamp { query := [("limit", "0")] }).2.2.2.1 "0" 0
      (by decide) (by decide) (by decide),
   (C28_paging_clamp { query := [("limit", "many")] }).2.2.1 "many" (by decide) (by decide),
   (C28_paging_clamp { query := [("limit", "200"), ("offset", "30")] }).2.2.2.2.2.1 "30" 30
      (by decide) (by decide) (by decide),
   (C28_paging_clamp { query := [("offset", "-3")] }).2.2.2.2.2.2.2.2.1 "-3" (-3)
      (by decide) (by decide) (by decide)⟩

/-! ## Changing the role of a user -/

theorem mem_validRoles_iff (role : String) :
    role ∈ validRoles ↔ ¬ (role ≠ "student" ∧ role ≠ "club_moderator" ∧ role ≠ "system_admin") := by
  simp only [validRoles, List.mem_cons, List.mem_singleton, List.not_mem_nil, or_false]
  constructor
  · rintro (h | h | h) ⟨h1, h2, h3⟩
    · exact h1 h
    · exact h2 h
    · exact h3 h
  · intro h
    by_cases h1 : role = "student"
    · exact Or.inl h1
    · by_cases h2 : role = "club_moderator"
      · exact Or.inr (Or.inl h2)
      · by_cases h3 : role = "system_admin"
        · exact Or.inr (Or.inr h3)
        · exact absurd ⟨h1, h2, h3⟩ h

/-- What `AdminChangeUserRole` does to the users table: nothing, or the update
with a role of the accepted set, on the request of an administrator. -/
theorem AdminChangeUserRole_cases (db : DB) (env : Env) (c : Ctx) :
    (AdminChangeUserRole db env c).1 = db ∨
    ∃ id b, c.role = some "system_admin" ∧ c.id = some id ∧ c.body = some b ∧
      b.role.getD "" ≠ "" ∧ TrimSpace (b.role.getD "") ∈ validRoles ∧
      env.stmt1Fails = false ∧
      AdminChangeUserRole db env c =
        ({ db with users := setUserRole db.users id (TrimSpace (b.role.getD "")) env.now },
         SuccessResponse 200 "User role updated successfully" none) := by
  unfold AdminChangeUserRole
  by_cases hrole : c.role ≠ some "system_admin"
  · rw [if_pos hrole]
    exact Or.inl rfl
  · rw [if_neg hrole]
    have hadmin : c.role = some "system_admin" := not_not.1 hrole
    cases hid : c.id with
    | none => exact Or.inl rfl
    | some id =>
      cases hbody : c.body with
      | none => exact Or.inl rfl
      | some b =>
        by_cases hempty : b.role.getD "" = ""
        · have hbind : bindChangeRole (some b) = none := by
            simp [bindChangeRole, hempty]
          rw [hbind]
          exact Or.inl rfl
        · have hbind : bindChangeRole (some b) = some (b.role.getD "") := by
            simp [bindChangeRole, hempty]
          rw [hbind]
          simp only
          by_cases hvalid : TrimSpace (b.role.getD "") ≠ "student" ∧
              TrimSpace (b.role.getD "") ≠ "club_moderator" ∧
              TrimSpace (b.role.getD "") ≠ "system_admin"
          · rw [if_pos hvalid]
            exact Or.inl rfl
          · rw [if_neg hvalid]
            cases hfail : env.stmt1Fails
            · refine Or.inr ⟨id, b, hadmin, rfl, rfl, hempty, (mem_validRoles_iff _).2 hvalid,
                rfl, ?_⟩
              simp
            · exact Or.inl rfl

/-- C30, counterexample: an administrator requests the empty role for user 1.
The empty string is none of the three roles, yet the request is not answered
'Invalid role': it fails the `required` tag of the binding and is answered 400
'Invalid request body'.  The users table is as it was. -/
theorem C30_empty_role_is_invalid_body :
    TrimSpace "" ∉ validRoles ∧
    AdminChangeUserRole { users := [{ user_id := 1 }, { user_id := 2 }] } { now := 200 }
        (changeRoleCtx 1 "") =
      ({ users := [{ user_id := 1 }, { user_id := 2 }] },
       BadRequestResponse "Invalid request body") ∧
    ¬ ((AdminChangeUserRole { users := [{ user_id := 1 }, { user_id := 2 }] } { now := 200 }
        (changeRoleCtx 1 "")).2 = BadRequestResponse "Invalid role") := by
  decide

/-- C30, amended: `AdminChangeUserRole` answers every caller whose role is not
'system_admin' with 403 and an administrator who requests a role that after
`strings.TrimSpace` is none of 'student', 'club_moderator' and 'system_admin'
with 400 'bad_request', and leaves the tables as they were in both cases.  The
message of the 400 is 'Invalid role' when the id is valid and the requested role
is not empty, 'Invalid request body' when the id is valid and the role is empty
or missing, and 'Invalid user ID' when the id is not valid.  It changes the
tables only on the request of an administrator for a role of that set, and then
turns the user with the id of the request into itself with the trimmed role and
the current time.  Every user it leaves in the table is as before or has a role
of the set, so a table whose roles are all of the set stays so. -/
theorem C30_change_role_closed_set (db : DB) (env : Env) (c : Ctx) :
    (c.role ≠ some "system_admin" →
      AdminChangeUserRole db env c =
        (db, ForbiddenResponse "Only system admins can manage users")) ∧
    (∀ b, c.role = some "system_admin" → c.body = some b →
      TrimSpace (b.role.getD "") ∉ validRoles →
      (AdminChangeUserRole db env c).2.code = 400 ∧
      (AdminChangeUserRole db env c).2.error = "bad_request" ∧
      (AdminChangeUserRole db env c).1 = db ∧
      (∀ id, c.id = some id → b.role.getD "" ≠ "" →
        (AdminChangeUserRole db env c).2 = BadRequestResponse "Invalid role") ∧
      (∀ id, c.id = some id → b.role.getD "" = "" →
        (AdminChangeUserRole db env c).2 = BadRequestResponse "Invalid request body") ∧
      (c.id = none →
        (AdminChangeUserRole db env c).2 = BadRequestResponse "Invalid user ID")) ∧
    ((AdminChangeUserRole db env c).1 ≠ db →
      c.role = some "system_admin" ∧
      ∃ id b, c.id = some id ∧ c.body = some b ∧
        TrimSpace (b.role.getD "") ∈ validRoles ∧
        List.Forall₂
          (fun old new => new =
            if old.user_id == id
            then { old with role := TrimSpace (b.role.getD ""), updated_at := env.now }
            else old)
          db.users (AdminChangeUserRole db env c).1.users) ∧
    (∀ u ∈ (AdminChangeUserRole db env c).1.users, u ∈ db.users ∨ u.role ∈ validRoles) ∧
    ((∀ u ∈ db.users, u.role ∈ validRoles) →
      ∀ u ∈ (AdminChangeUserRole db env c).1.users, u.role ∈ validRoles) := by
  have hmem : ∀ u ∈ (AdminChangeUserRole db env c).1.users,
      u ∈ db.users ∨ u.role ∈ validRoles := by
    intro u hu
    rcases AdminChangeUserRole_cases db env c with hsame | ⟨id, b, _, _, _, _, hvalid, _, heq⟩
    · rw [hsame] at hu
      exact Or.inl hu
    · rw [heq] at hu
      rcases List.mem_map.1 hu with ⟨old, hold, hnew⟩
      by_cases hid : (old.user_id == id) = true
      · rw [if_pos hid] at hnew
        rw [← hnew]
        exact Or.inr hvalid
      · rw [if_neg hid] at hnew
        rw [← hnew]
        exact Or.inl hold
  refine ⟨?_, ?_, ?_, hmem, ?_⟩
  · intro hrole
    unfold AdminChangeUserRole
    rw [if_pos hrole]
  · intro b hadmin hbody hinvalid
    have hnot : TrimSpace (b.role.getD "") ≠ "student" ∧
        TrimSpace (b.role.getD "") ≠ "club_moderator" ∧
        TrimSpace (b.role.getD "") ≠ "system_admin" := by
      by_contra h
      exact hinvalid ((mem_validRoles_iff _).2 h)
    have hrole : ¬ (c.role ≠ some "system_admin") := not_not.2 hadmin
    unfold AdminChangeUserRole
    rw [if_neg hrole]
    cases hid : c.id with
    | none =>
      refine ⟨rfl, rfl, rfl, ?_, ?_, fun _ => rfl⟩
      · intro id hcontra
        cases hcontra
      · intro id hcontra
        cases hcontra
    | some id =>
      by_cases hempty : b.role.getD "" = ""
      · have hbind : bindChangeRole c.body = none := by
          simp [hbody, bindChangeRole, hempty]
        rw [hbind]
        refine ⟨rfl, rfl, rfl, ?_, fun _ _ _ => rfl, ?_⟩
        · intro _ _ hne
          exact absurd hempty hne
        · intro hcontra
          cases hcontra
      · have hbind : bindChangeRole c.body = some (b.role.getD "") := by
          simp [hbody, bindChangeRole, hempty]
        rw [hbind]
        simp only
        rw [if_pos hnot]
        refine ⟨rfl, rfl, rfl, fun _ _ _ => rfl, ?_, ?_⟩
        · intro _ _ he
          exact absurd he hempty
        · intro hcontra
          cases hcontra
  · intro hchanged
    rcases AdminChangeUserRole_cases db env c with hsame | ⟨id, b, hadmin, hid, hbody, _, hvalid, _, heq⟩
    · exact absurd hsame hchanged
    · refine ⟨hadmin, id, b, hid, hbody, hvalid, ?_⟩
      rw [heq]
      exact forall₂_map_self _ _
  · intro hall u hu
    rcases hmem u hu with hold | hvalid
    · exact hall u hold
    · exact hvalid

/-- An administrator gives user 1 the role " club_moderator " with surrounding
blanks, which is stored trimmed, then the role "owner", which is refused with
'Invalid role', then the empty role, which is refused with 'Invalid request
body'; a moderator who asks for 'system_admin' is refused with 403. -/
theorem C30_change_role_closed_set_witness :
    (AdminChangeUserRole { users := [{ user_id := 1 }, { user_id := 2 }] } { now := 200 }
        (changeRoleCtx 1 " club_moderator ")).1 =
      { users := [{ user_id := 1, role := "club_moderator", updated_at := 200 },
                  { user_id := 2 }] } ∧
    (AdminChangeUserRole { users := [{ user_id := 1 }, { user_id := 2 }] } { now := 200 }
        (changeRoleCtx 1 "owner")).2 = BadRequestResponse "Invalid role" ∧
    (AdminChangeUserRole { users := [{ user_id := 1 }, { user_id := 2 }] } { now := 200 }
        (changeRoleCtx 1 "")).2 = BadRequestResponse "Invalid request body" ∧
    AdminChangeUserRole { users := [{ user_id := 1 }, { user_id := 2 }] } { now := 200 }
        { user_id := some 50, role := some "club_moderator", id := some 50,
          body := some { role := some "system_admin" } } =
      ({ users := [{ user_id := 1 }, { user_id := 2 }] },
       ForbiddenResponse "Only system admins can manage users") :=
  ⟨by decide,
   ((C30_change_role_closed_set { users := [{ user_id := 1 }, { user_id := 2 }] }
      { now := 200 } (changeRoleCtx 1 "owner")).2.1 { role := some "owner" } rfl rfl
      (by decide)).2.2.2.1 1 rfl (by decide),
   ((C30_change_role_closed_set { users := [{ user_id := 1 }, { user_id := 2 }] }
      { now := 200 } (changeRoleCtx 1 "")).2.1 { role := some "" } rfl rfl
      (by decide)).2.2.2.2.1 1 rfl (by decide),
   (C30_change_role_closed_set { users := [{ user_id := 1 }, { user_id := 2 }] }
      { now := 200 }
      { user_id := some 50, role := some "club_moderator", id := some 50,
        body := some { role := some "system_admin" } }).1 (by decide)⟩

/-! ## The query builder of the user update -/

/-- The builder after the seven blocks, by the fields that are present. -/
theorem updateUserBuilder_eq (req : Body) :
    updateUserBuilder req =
      { sets := numberedClauses ((presentFields req).map Prod.fst) 1,
        args := (presentFields req).map Prod.snd,
        idx := (presentFields req).length + 1 } := by
  obtain ⟨_, _, _, _, sid, em, fn, ln, ph, pp, ia⟩ := req
  cases sid <;> cases em <;> cases fn <;> cases ln <;> cases ph <;> cases pp <;>
    cases ia <;> rfl

theorem presentFields_length_le (req : Body) : (presentFields req).length ≤ 7 := by
  unfold presentFields
  exact le_trans (List.length_filterMap_le _ _) (by simp)

theorem numberedClauses_length (columns : List String) (first : Nat) :
    (numberedClauses columns first).length = columns.length := by
  induction columns generalizing first with
  | nil => rfl
  | cons column rest ih => simp [numberedClauses, ih]

theorem numberedClauses_append (l1 l2 : List String) (first : Nat) :
    numberedClauses (l1 ++ l2) first =
      numberedClauses l1 first ++ numberedClauses l2 (first + l1.length) := by
  induction l1 generalizing first with
  | nil => simp [numberedClauses]
  | cons column rest ih =>
    have harith : first + 1 + rest.length = first + (rest.length + 1) := by omega
    show (column ++ " = $" ++ Itoa first) :: numberedClauses (rest ++ l2) (first + 1) =
      (column ++ " = $" ++ Itoa first) ::
        (numberedClauses rest (first + 1) ++
          numberedClauses l2 (first + (rest.length + 1)))
    rw [ih, harith]

/-- The clause at position `i` is that of column `i` with placeholder `first + i`. -/
theorem numberedClauses_getElem? (columns : List String) (first i : Nat) :
    (numberedClauses columns first)[i]? =
      columns[i]?.map (fun column => column ++ " = $" ++ Itoa (first + i)) := by
  induction columns generalizing first i with
  | nil => simp [numberedClauses]
  | cons column rest ih =>
    cases i with
    | zero => simp [numberedClauses]
    | succ j =>
      simp only [numberedClauses, List.getElem?_cons_succ, ih]
      have : first + 1 + j = first + (j + 1) := by omega
      rw [this]

/-- C29: for a request of an administrator with a valid id and body, let n be
the number of the seven optional fields that are present.  With n = 0 the
handler answers 400 'No fields to update' and executes no statement.  With
n >= 1 it executes one statement: the query is `UPDATE users SET`, the clauses
of the n present fields in the order of declaration followed by `updated_at`,
numbered $1 to $(n+1), and `WHERE user_id = $(n+2)`; the arguments are the n
values in the same order, the current time and the id, n+2 in all. -/
theorem C29_update_user_query_builder (env : Env) (c : Ctx) (id : Int) (req : Body)
    (hrole : c.role = some "system_admin") (hid : c.id = some id)
    (hbody : c.body = some req) :
    ((presentFields req).length = 0 →
      AdminUpdateUser env c = (none, BadRequestResponse "No fields to update")) ∧
    (1 ≤ (presentFields req).length →
      (AdminUpdateUser env c).1 = some
        { query := "UPDATE users SET " ++
            ", ".intercalate
              (numberedClauses ((presentFields req).map Prod.fst ++ ["updated_at"]) 1) ++
            " WHERE user_id = $" ++ Itoa ((presentFields req).length + 2),
          args := (presentFields req).map Prod.snd ++ [Arg.time env.now, Arg.int id] } ∧
      (AdminUpdateUser env c).2 =
        (if env.stmt1Fails then InternalServerErrorResponse "Failed to update user"
         else SuccessResponse 200 "User updated successfully" none)) ∧
    (numberedClauses ((presentFields req).map Prod.fst ++ ["updated_at"]) 1).length =
      (presentFields req).length + 1 ∧
    (∀ i, (numberedClauses ((presentFields req).map Prod.fst ++ ["updated_at"]) 1)[i]? =
      ((presentFields req).map Prod.fst ++ ["updated_at"])[i]?.map
        (fun column => column ++ " = $" ++ Itoa (1 + i))) ∧
    ((presentFields req).map Prod.snd ++ [Arg.time env.now, Arg.int id]).length =
      (presentFields req).length + 2 ∧
    (presentFields req).length ≤ 7 := by
  have hadmin : ¬ (c.role ≠ some "system_admin") := not_not.2 hrole
  have hsets : (updateUserBuilder req).sets.length = (presentFields req).length := by
    rw [updateUserBuilder_eq]
    simp [numberedClauses_length]
  refine ⟨?_, ?_, ?_, ?_, ?_, presentFields_length_le req⟩
  · intro hzero
    unfold AdminUpdateUser
    rw [if_neg hadmin]
    simp only [hid, hbody]
    rw [if_pos (by rw [hsets, hzero])]
  · intro hpos
    have hne : ¬ ((updateUserBuilder req).sets.length = 0) := by
      rw [hsets]
      omega
    have hstatement : updateUserStatement (updateUserBuilder req) env.now id =
        { query := "UPDATE users SET " ++
            ", ".intercalate
              (numberedClauses ((presentFields req).map Prod.fst ++ ["updated_at"]) 1) ++
            " WHERE user_id = $" ++ Itoa ((presentFields req).length + 2),
          args := (presentFields req).map Prod.snd ++ [Arg.time env.now, Arg.int id] } := by
      rw [updateUserBuilder_eq]
      simp only [updateUserStatement, numberedClauses_append, numberedClauses,
        List.length_map, List.append_assoc, List.singleton_append]
      have harith : 1 + (presentFields req).length = (presentFields req).length + 1 := by
        omega
      have hlit : "updated_at" ++ " = $" = "updated_at = $" := by decide
      rw [harith, hlit]
    unfold AdminUpdateUser
    rw [if_neg hadmin]
    simp only [hid, hbody]
    rw [if_neg hne, hstatement]
    cases env.stmt1Fails <;> exact ⟨rfl, rfl⟩
  · rw [numberedClauses_length]
    simp
  · intro i
    exact numberedClauses_getElem? _ 1 i
  · simp

/-- An administrator sets the e-mail address and the active flag of user 3: two
fields, three clauses numbered $1 to $3, the id as $4 and four arguments; an
empty body is refused and nothing is executed. -/
theorem C29_update_user_query_builder_witness :
    (AdminUpdateUser { now := 5 }
        { role := some "system_admin", id := some 3,
          body := some { email := some " a@b.c ", is_active := some true } }).1 =
      some { query := "UPDATE users SET email = $1, is_active = $2, updated_at = $3 " ++
                      "WHERE user_id = $4",
             args := [Arg.str "a@b.c", Arg.bool true, Arg.time 5, Arg.int 3] } ∧
    AdminUpdateUser { now := 5 } { role := some "system_admin", id := some 3, body := some {} } =
      (none, BadRequestResponse "No fields to update") :=
  ⟨by decide,
   (C29_update_user_query_builder { now := 5 }
      { role := some "system_admin", id := some 3, body := some {} } 3 {} rfl rfl rfl).1
      (by decide)⟩

end NubClubs
